import Mathlib

/-!
# Newmap backend: location ingest and presence core

A shallow embedding of the location service (`src/services/locationService.js`),
the request validation (`src/middleware/validation.js`), the location route
(`src/routes/location.js`) and the real-time service
(`src/services/socketService.js`), of the manager login
(`src/services/authService.js`, `src/routes/auth.js`), the presence route
(`src/routes/employees.js`), the token middleware (`src/middleware/auth.js`) and
the location handler of the root server (`server.js`), followed by the
properties proved about them.

Conventions of the embedding:

* instants are integers (milliseconds since the epoch); a handler runs at one
  instant `now`, which is what every `new Date()` / `Date.now()` inside it reads;
* JSON numbers are rationals (every finite double is one); a field that is
  absent from a request body is `none`;
* the database is an explicit `Store`; a write that the database rejects is
  injected through `Faults`, reads are queries on the store;
* everything a handler sends on the real-time channel is appended to the
  `emitted` log of the `World`, with the target it was sent to;
* `setTimeout` callbacks are entries of the `timers` list of the `World`;
* a rejection that no handler catches ends the process (`unhandledRejection` in
  `src/server.js`): `processExit` drops the connections and the pending timers.
-/

namespace Newmap

/-! ## Data model -/

/-- Instants, in milliseconds since the epoch. -/
abbrev Time := Int

/-- Row of the employee table, as far as the core reads it. -/
structure Employee where
  id : String
  fullName : String
  department : String
  avatarUrl : Option String
  isActive : Bool
  deriving DecidableEq, Repr

/-- Row of the manager table, as far as the core reads it. -/
structure Manager where
  id : String
  fullName : String
  isActive : Bool
  deriving DecidableEq, Repr

/-- Row of the device table. -/
structure Device where
  id : String
  employeeId : String
  isActive : Bool
  lastSeenAt : Time
  deriving DecidableEq, Repr

/-- Row of the presence table (unique key: `employeeId`). -/
structure Presence where
  employeeId : String
  isOnline : Bool
  lastSeenAt : Time
  deriving DecidableEq, Repr

/-- Row of the location table. -/
structure Location where
  id : Nat
  employeeId : String
  latitude : Rat
  longitude : Rat
  accuracy : Option Rat
  altitude : Option Rat
  speed : Option Rat
  heading : Option Rat
  battery : Option Rat
  address : Option String
  timestamp : Time
  deriving DecidableEq, Repr

/-- The database. -/
structure Store where
  managers : List Manager
  employees : List Employee
  devices : List Device
  presences : List Presence
  locations : List Location
  deriving DecidableEq, Repr

/-- The settings of `src/config/index.js` that the core reads. -/
structure Config where
  jwtSecret : String
  presenceTimeoutMs : Int
  deriving DecidableEq, Repr

/-- The defaults of `src/config/index.js` (no environment variable set). -/
def defaultConfig : Config :=
  { jwtSecret := "fallback-secret-key", presenceTimeoutMs := 120000 }

/-- Database writes that fail (`true`: the call throws). -/
structure Faults where
  locationCreate : Bool
  presenceUpsert : Bool
  deviceUpdate : Bool
  presenceUpdateMany : Bool
  deriving DecidableEq, Repr

/-- Every write succeeds. -/
def noFaults : Faults :=
  { locationCreate := false, presenceUpsert := false, deviceUpdate := false,
    presenceUpdateMany := false }

/-- Errors thrown by the database client. -/
inductive DbError where
  | missingArgument (field : String)
  | recordNotFound
  | writeFailed (model : String)
  deriving DecidableEq, Repr

/-! ## Geocode lookup (`reverseGeocode`) -/

/-- Payload of the geocoding provider, as far as it is read. -/
structure GeoData where
  display_name : Option String
  deriving DecidableEq, Repr

/-- How the `axios.get` call of `reverseGeocode` settles: it throws (network
error, timeout raised by the transport, non-2xx status) or it resolves with a
response whose `data` may be absent. -/
inductive HttpResult where
  | throws
  | response (data : Option GeoData)
  deriving DecidableEq, Repr

/-- Embedding of `reverseGeocode`: `response.data && response.data.display_name`
selects a non-empty name; every other outcome, a thrown error included, is `null`. -/
def reverseGeocode (r : HttpResult) : Option String :=
  match r with
  | .throws => none
  | .response none => none
  | .response (some d) =>
    match d.display_name with
    | none => none
    | some name => if name = "" then none else some name

/-! ## Presence store operations -/

/-- The `update` branch of the presence upsert on one record: the record of the
employee gets the new flag and instant, any other record is left as it is. -/
def touch (employeeId : String) (isOnline : Bool) (now : Time) (p : Presence) : Presence :=
  if p.employeeId == employeeId then { p with isOnline := isOnline, lastSeenAt := now } else p

/-- Embedding of `prisma.presence.upsert` keyed by `employeeId`: the record of
that employee is updated when there is one, created otherwise. -/
def upsertPresence (employeeId : String) (isOnline : Bool) (now : Time)
    (ps : List Presence) : List Presence :=
  if ps.any (fun p => p.employeeId == employeeId) then
    ps.map (touch employeeId isOnline now)
  else
    ps ++ [{ employeeId := employeeId, isOnline := isOnline, lastSeenAt := now }]

/-- Embedding of `updatePresence`: the upsert, whose error is rethrown. -/
def updatePresence (f : Faults) (now : Time) (employeeId : String) (isOnline : Bool)
    (s : Store) : Except DbError Unit × Store :=
  if f.presenceUpsert then
    (.error (.writeFailed "presence"), s)
  else
    (.ok (), { s with presences := upsertPresence employeeId isOnline now s.presences })

/-- Embedding of `markInactiveEmployeesOffline`: one `updateMany` that sets
`isOnline = false` on every record with `isOnline = true` and
`lastSeenAt < now - presenceTimeoutMs`; an error is logged and swallowed. -/
def markInactiveEmployeesOffline (cfg : Config) (f : Faults) (now : Time) (s : Store) : Store :=
  let timeoutDate := now - cfg.presenceTimeoutMs
  if f.presenceUpdateMany then s
  else
    { s with presences := s.presences.map (fun p =>
        if p.isOnline && decide (p.lastSeenAt < timeoutDate) then
          { p with isOnline := false }
        else p) }

/-- The presence record of an employee, if any. -/
def presenceOf (s : Store) (employeeId : String) : Option Presence :=
  s.presences.find? (fun p => p.employeeId == employeeId)

/-- Number of presence records of an employee. -/
def presenceCount (s : Store) (employeeId : String) : Nat :=
  s.presences.countP (fun p => p.employeeId == employeeId)

/-- The presence of an employee is recorded as offline. -/
def IsOffline (s : Store) (employeeId : String) : Prop :=
  ∃ p, presenceOf s employeeId = some p ∧ p.isOnline = false

/-! ## Location ingest (`saveLocationUpdate`) -/

/-- Body of a location submission, as destructured by the route: each numeric
field is a JSON number or absent; `timestamp` is the instant the client
supplied, `none` when it is absent or falsy. -/
structure LocationData where
  latitude : Option Rat
  longitude : Option Rat
  accuracy : Option Rat
  altitude : Option Rat
  speed : Option Rat
  heading : Option Rat
  battery : Option Rat
  timestamp : Option Time
  deriving DecidableEq, Repr

/-- Embedding of `prisma.location.create`: latitude and longitude are required
columns, the id is generated by the database, the row is appended. -/
def createLocation (f : Faults) (employeeId : String) (d : LocationData)
    (address : Option String) (now : Time) (s : Store) : Except DbError Location × Store :=
  match d.latitude, d.longitude with
  | none, _ => (.error (.missingArgument "latitude"), s)
  | some _, none => (.error (.missingArgument "longitude"), s)
  | some lat, some lon =>
    if f.locationCreate then
      (.error (.writeFailed "location"), s)
    else
      let location : Location :=
        { id := s.locations.length + 1
          employeeId := employeeId
          latitude := lat
          longitude := lon
          accuracy := d.accuracy
          altitude := d.altitude
          speed := d.speed
          heading := d.heading
          battery := d.battery
          address := address
          timestamp := d.timestamp.getD now }
      (.ok location, { s with locations := s.locations ++ [location] })

/-- Embedding of `saveLocationUpdate`: geocode, create the row, set the presence
online, return the row; an error of either write is rethrown (the store keeps
what was written before it). -/
def saveLocationUpdate (f : Faults) (geo : HttpResult) (now : Time) (employeeId : String)
    (d : LocationData) (s : Store) : Except DbError Location × Store :=
  let address := reverseGeocode geo
  match createLocation f employeeId d address now s with
  | (.error e, s1) => (.error e, s1)
  | (.ok location, s1) =>
    match updatePresence f now employeeId true s1 with
    | (.error e, s2) => (.error e, s2)
    | (.ok _, s2) => (.ok location, s2)

/-! ## Request validation (`validateLocationUpdate`) -/

/-- The check `isFloat` with optional bounds, on a body field: an absent field
is not a float. -/
def isFloat (min max : Option Rat) (v : Option Rat) : Bool :=
  match v with
  | none => false
  | some q =>
    (match min with | none => true | some lo => decide (lo ≤ q)) &&
    (match max with | none => true | some hi => decide (q ≤ hi))

/-- The check `isInt` with bounds, on a body field. -/
def isInt (min max : Rat) (v : Option Rat) : Bool :=
  match v with
  | none => false
  | some q => decide (q.den = 1) && decide (min ≤ q) && decide (q ≤ max)

/-- A validation chain marked `.optional()` is skipped when the field is absent. -/
def optionalCheck (check : Option Rat → Bool) (v : Option Rat) : Bool :=
  match v with
  | none => true
  | some _ => check v

/-- Embedding of the chains of `validateLocationUpdate`: the messages of the
failed checks, in order. -/
def validateLocationUpdate (d : LocationData) : List String :=
  (if isFloat (some (-90)) (some 90) d.latitude then []
    else ["Latitude must be between -90 and 90"]) ++
  (if isFloat (some (-180)) (some 180) d.longitude then []
    else ["Longitude must be between -180 and 180"]) ++
  (if optionalCheck (isFloat (some 0) none) d.accuracy then []
    else ["Accuracy must be a positive number"]) ++
  (if optionalCheck (isInt 0 100) d.battery then []
    else ["Battery must be between 0 and 100"])

/-! ## Real-time channel: sockets, emissions, timers -/

/-- The employee fields copied into a broadcast payload. -/
structure EmployeeInfo where
  id : String
  fullName : String
  department : String
  avatarUrl : Option String
  deriving DecidableEq, Repr

/-- The selection of employee fields made by the handlers. -/
def Employee.info (e : Employee) : EmployeeInfo :=
  { id := e.id, fullName := e.fullName, department := e.department, avatarUrl := e.avatarUrl }

/-- An employee row with the relations included by `getAllEmployeesWithLocations`. -/
structure EmployeeWithLocations where
  employee : Employee
  presence : Option Presence
  locations : List Location
  deriving DecidableEq, Repr

/-- Result of `getLatestLocation`: a location row with the employee fields it
includes (`employee: { select: { id, fullName, department, avatarUrl } }`). -/
structure LatestLocation where
  location : Location
  employee : Option EmployeeInfo
  deriving DecidableEq, Repr

/-- What an emission is addressed to: a room of a namespace
(`io.of(nsp).to(room)`; `io.to(room)` is the root namespace `/`), or one socket
(`socket.emit`). -/
inductive Target where
  | room (nsp : String) (name : String)
  | socket (socketId : String)
  deriving DecidableEq, Repr

/-- The events of the real-time channel with their payloads. -/
inductive Payload where
  | presenceUpdate (employeeId : String) (employee : EmployeeInfo) (isOnline : Bool)
      (lastSeenAt : Time)
  | locationUpdate (employeeId : String) (employee : EmployeeInfo)
      (latitude longitude accuracy battery : Option Rat) (address : Option String)
      (timestamp : Time)
  | initialData (employees : List EmployeeWithLocations)
  | employeeUpdate (employeeId : Option String) (location : Option LatestLocation)
  | heartbeatAck (timestamp : Time)
  deriving DecidableEq, Repr

/-- One `emit` call. -/
structure Emission where
  target : Target
  payload : Payload
  deriving DecidableEq, Repr

/-- The room of the `/manager` namespace that manager sessions join. -/
def managersGroup : Target := .room "/manager" "managers"

/-- Payload of a JSON web token, as far as it is read. -/
structure Decoded where
  id : Option String
  role : Option String
  deviceId : Option String
  deriving DecidableEq, Repr

/-- A connection of the real-time channel: the handshake token, the namespace,
the fields the admission middleware sets, the rooms joined and the events for
which a handler is registered. -/
structure Socket where
  id : String
  nsp : String
  token : Option String
  managerId : Option String
  manager : Option Manager
  deviceId : Option String
  employeeId : Option String
  employee : Option Employee
  rooms : List String
  handlers : List String
  deriving DecidableEq, Repr

/-- A socket as the transport hands it to the admission middleware. -/
def Socket.fresh (id nsp : String) (token : Option String) : Socket :=
  { id := id, nsp := nsp, token := token, managerId := none, manager := none,
    deviceId := none, employeeId := none, employee := none, rooms := [], handlers := [] }

/-- A pending `setTimeout` callback of a disconnect handler: when it is due and
the socket it closes over. -/
structure Timer where
  fireAt : Time
  socket : Socket
  deriving DecidableEq, Repr

/-- The server state: database, connected sockets, log of emissions (oldest
first) and pending timers (oldest first). -/
structure World where
  store : Store
  sockets : List Socket
  emitted : List Emission
  timers : List Timer
  deriving DecidableEq, Repr

/-- Record one emission. -/
def World.emit (w : World) (target : Target) (payload : Payload) : World :=
  { w with emitted := w.emitted ++ [{ target := target, payload := payload }] }

/-- Whether a payload is a `presenceUpdate`. -/
def Payload.isPresenceUpdate : Payload → Bool
  | .presenceUpdate _ _ _ _ => true
  | _ => false

/-- The `presenceUpdate` emissions of a log. -/
def presenceUpdates (log : List Emission) : List Emission :=
  log.filter (fun e => e.payload.isPresenceUpdate)

/-! ## Location route (`POST /api/location`) -/

/-- A request as it reaches `validateLocationUpdate`: `verifyToken` and
`verifyEmployeeDevice` have run and set `req.employee` and `req.device`. -/
structure LocationRequest where
  employee : Employee
  device : Device
  body : LocationData
  deriving DecidableEq, Repr

/-- The JSON bodies the location route answers with. -/
inductive ResponseBody where
  | validationFailed (details : List String)
  | locationUpdated (locationId : Nat) (timestamp : Time)
  | failure (error : String)
  deriving DecidableEq, Repr

/-- An HTTP response. -/
structure Response where
  status : Nat
  body : ResponseBody
  deriving DecidableEq, Repr

/-- Embedding of `updateDeviceLastSeen`: `prisma.device.update` by id, whose
error (a failed write, no such device) is logged and swallowed. -/
def updateDeviceLastSeen (f : Faults) (now : Time) (deviceId : String) (s : Store) : Store :=
  if f.deviceUpdate then s
  else
    { s with devices := s.devices.map (fun d =>
        if d.id == deviceId then { d with lastSeenAt := now } else d) }

/-- Embedding of the handler chain of `POST /` from `validateLocationUpdate` on:
`handleValidationErrors` answers 400 when a check failed; otherwise the handler
saves the sample, refreshes the device, emits `locationUpdate` through
`io.to('managers')` and answers 200; an error of `saveLocationUpdate` is
answered with 500. -/
def postLocation (f : Faults) (geo : HttpResult) (now : Time) (req : LocationRequest)
    (w : World) : Response × World :=
  let errors := validateLocationUpdate req.body
  if errors ≠ [] then
    ({ status := 400, body := .validationFailed errors }, w)
  else
    match saveLocationUpdate f geo now req.employee.id req.body w.store with
    | (.error _, s1) =>
      ({ status := 500, body := .failure "Error updating location" }, { w with store := s1 })
    | (.ok location, s1) =>
      let s2 := updateDeviceLastSeen f now req.device.id s1
      let w2 := World.emit { w with store := s2 } (.room "/" "managers")
        (.locationUpdate req.employee.id req.employee.info req.body.latitude
          req.body.longitude req.body.accuracy req.body.battery location.address
          location.timestamp)
      ({ status := 200, body := .locationUpdated location.id location.timestamp }, w2)

/-! ## Employee snapshot (`getAllEmployeesWithLocations`) -/

/-- Case-insensitive `contains` of the search filter. -/
def containsInsensitive (haystack needle : String) : Bool :=
  haystack.toLower.toList.tails.any (fun t => needle.toLower.toList.isPrefixOf t)

/-- The relation `locations: { take: 1, orderBy: { timestamp: 'desc' } }` of an employee. -/
def latestLocations (s : Store) (employeeId : String) : List Location :=
  ((s.locations.filter (fun l => l.employeeId == employeeId)).mergeSort
    (fun a b => decide (b.timestamp ≤ a.timestamp))).take 1

/-- Result of `getAllEmployeesWithLocations`. -/
structure EmployeePage where
  employees : List EmployeeWithLocations
  page : Nat
  limit : Nat
  total : Nat
  pages : Nat
  deriving DecidableEq, Repr

/-- Embedding of `getAllEmployeesWithLocations` for a page number and a positive
limit: the active employees matching the search, ordered by full name, the page
cut out of them, each with its presence record and latest location. -/
def getAllEmployeesWithLocations (s : Store) (search : String) (page limit : Nat) :
    EmployeePage :=
  let skip := (page - 1) * limit
  let matching := s.employees.filter (fun e =>
    e.isActive && (search == "" || containsInsensitive e.fullName search ||
      containsInsensitive e.department search))
  let ordered := matching.mergeSort (fun a b => !decide (b.fullName < a.fullName))
  { employees := ((ordered.drop skip).take limit).map (fun e =>
      { employee := e, presence := presenceOf s e.id, locations := latestLocations s e.id })
    page := page
    limit := limit
    total := matching.length
    pages := (matching.length + limit - 1) / limit }

/-! ## Admission (`authenticateManager`, `authenticateEmployee`) -/

/-- Embedding of `authenticateManager`. The verification of the token
(`jwt.verify`: signature and expiry under the secret) is the parameter
`jwtVerify`, `none` when it throws. The result is the socket as the middleware
leaves it and the argument `next` is called with (`none`: admitted). -/
def authenticateManager (cfg : Config) (jwtVerify : String → String → Option Decoded)
    (s : Store) (socket : Socket) : Socket × Option String :=
  match socket.token with
  | none => (socket, some "Authentication error: No token provided")
  | some token =>
    if token = "" then
      (socket, some "Authentication error: No token provided")
    else
      match jwtVerify token cfg.jwtSecret with
      | none => (socket, some "Authentication error: Invalid token")
      | some decoded =>
        if decoded.role ≠ some "manager" then
          (socket, some "Authentication error: Invalid role")
        else
          match decoded.id with
          | none => (socket, some "Authentication error: Invalid token")
          | some id =>
            match s.managers.find? (fun m => m.id == id && m.isActive) with
            | none => (socket, some "Authentication error: Manager not found")
            | some manager =>
              ({ socket with managerId := some manager.id, manager := some manager }, none)

/-- The messages with which the admission middleware refuses a manager. -/
def managerAuthErrors : List String :=
  ["Authentication error: No token provided", "Authentication error: Invalid token",
   "Authentication error: Invalid role", "Authentication error: Manager not found"]

/-- Embedding of `authenticateEmployee`. A token without `deviceId` leaves the
`id` filter of `findFirst` out, so the first active device is found. -/
def authenticateEmployee (cfg : Config) (jwtVerify : String → String → Option Decoded)
    (s : Store) (socket : Socket) : Socket × Option String :=
  match socket.token with
  | none => (socket, some "Authentication error: No token provided")
  | some token =>
    if token = "" then
      (socket, some "Authentication error: No token provided")
    else
      match jwtVerify token cfg.jwtSecret with
      | none => (socket, some "Authentication error: Invalid token")
      | some decoded =>
        if decoded.role ≠ some "employee" then
          (socket, some "Authentication error: Invalid role")
        else
          match s.devices.find? (fun d =>
              (match decoded.deviceId with
                | none => true
                | some id => d.id == id) && d.isActive) with
          | none => (socket, some "Authentication error: Device or employee not found")
          | some device =>
            match s.employees.find? (fun e => e.id == device.employeeId) with
            | none => (socket, some "Authentication error: Invalid token")
            | some employee =>
              if !employee.isActive then
                (socket, some "Authentication error: Device or employee not found")
              else
                ({ socket with deviceId := some device.id, employeeId := some employee.id,
                               employee := some employee }, none)

/-! ## Connection handlers -/

/-- Put a socket into the table of connected sockets (replacing its entry). -/
def World.setSocket (w : World) (socket : Socket) : World :=
  { w with sockets := w.sockets.filter (fun x => x.id != socket.id) ++ [socket] }

/-- Take a socket out of the table of connected sockets. -/
def World.dropSocket (w : World) (socketId : String) : World :=
  { w with sockets := w.sockets.filter (fun x => x.id != socketId) }

/-- Embedding of `process.exit(1)` in the `unhandledRejection` handler of
`server.js`: the process ends, so its connections and its pending `setTimeout`
callbacks are gone; the database and what was emitted before stay as they are.
Events handled afterwards are those of the process started next on the same
database. -/
def processExit (w : World) : World :=
  { w with sockets := [], timers := [] }

/-- Embedding of `handleManagerConnection`: join the room `managers`, send the
snapshot to the socket, register the handlers. Without `socket.manager` the
first statement throws; the handler is an `async` function called without a
`catch`, so the rejection is unhandled and the process exits. -/
def handleManagerConnection (socket : Socket) (w : World) : Socket × World :=
  match socket.manager with
  | none => (socket, processExit w)
  | some _ =>
    let joined := { socket with rooms := socket.rooms ++ ["managers"] }
    let w1 := World.emit w (.socket socket.id)
      (.initialData (getAllEmployeesWithLocations w.store "" 1 100).employees)
    let listening :=
      { joined with handlers := joined.handlers ++ ["requestEmployeeUpdate", "disconnect"] }
    (listening, w1.setSocket listening)

/-- Embedding of `handleEmployeeConnection` up to the registration of the
handlers: presence online, `presenceUpdate` to the managers group. The
`await` of `updatePresence` is not inside a `try`, and the handler is called
without a `catch`: an error of `updatePresence` (or of the first statement,
without `socket.employee`) ends the handler before the emission and the
registration as an unhandled rejection, on which the process exits. -/
def handleEmployeeConnection (f : Faults) (now : Time) (socket : Socket) (w : World) :
    Socket × World :=
  match socket.employeeId, socket.employee with
  | some employeeId, some employee =>
    match updatePresence f now employeeId true w.store with
    | (.error _, s1) => (socket, processExit { w with store := s1 })
    | (.ok _, s1) =>
      let w1 := World.emit { w with store := s1 } managersGroup
        (.presenceUpdate employeeId employee.info true now)
      let listening := { socket with handlers := socket.handlers ++ ["heartbeat", "disconnect"] }
      (listening, w1.setSocket listening)
  | _, _ => (socket, processExit w)

/-- Embedding of `prisma.device.update` by id: it throws when the write fails
or no device has the id. -/
def deviceUpdate (f : Faults) (now : Time) (deviceId : Option String) (s : Store) :
    Except DbError Unit × Store :=
  match deviceId with
  | none => (.error (.missingArgument "id"), s)
  | some id =>
    if f.deviceUpdate then (.error (.writeFailed "device"), s)
    else if s.devices.any (fun d => d.id == id) then
      (.ok (), { s with devices := s.devices.map (fun d =>
        if d.id == id then { d with lastSeenAt := now } else d) })
    else (.error .recordNotFound, s)

/-- Embedding of the `heartbeat` handler: refresh the device, set the presence
online, acknowledge to the sender; an error is logged and ends the handler. -/
def onHeartbeat (f : Faults) (now : Time) (socket : Socket) (w : World) : World :=
  match deviceUpdate f now socket.deviceId w.store with
  | (.error _, s1) => { w with store := s1 }
  | (.ok _, s1) =>
    match socket.employeeId with
    | none => { w with store := s1 }
    | some employeeId =>
      match updatePresence f now employeeId true s1 with
      | (.error _, s2) => { w with store := s2 }
      | (.ok _, s2) => World.emit { w with store := s2 } (.socket socket.id) (.heartbeatAck now)

/-- Embedding of the `disconnect` handler of an employee socket: arm a timer
that is due `presenceTimeoutMs` later. -/
def onDisconnect (cfg : Config) (now : Time) (socket : Socket) (w : World) : World :=
  match socket.employee with
  | none => w
  | some _ =>
    { w with timers := w.timers ++ [{ fireAt := now + cfg.presenceTimeoutMs, socket := socket }] }

/-- Embedding of the callback given to `setTimeout` by the disconnect handler:
presence offline, `presenceUpdate` with `isOnline: false` to the managers group;
an error is logged. -/
def disconnectTimeout (f : Faults) (now : Time) (socket : Socket) (w : World) : World :=
  match socket.employeeId with
  | none => w
  | some employeeId =>
    match updatePresence f now employeeId false w.store with
    | (.error _, s1) => { w with store := s1 }
    | (.ok _, s1) =>
      match socket.employee with
      | none => { w with store := s1 }
      | some employee =>
        World.emit { w with store := s1 } managersGroup
          (.presenceUpdate employeeId employee.info false now)

/-- Successive `heartbeat` events of one socket, handled at the given instants. -/
def heartbeats (f : Faults) (socket : Socket) (times : List Time) (w : World) : World :=
  times.foldl (fun acc now => onHeartbeat f now socket acc) w

/-! ## The server as a machine over timed inputs -/

/-- What can happen to the server. -/
inductive Input where
  | managerConnect (socketId : String) (token : Option String)
  | employeeConnect (socketId : String) (token : Option String)
  | heartbeat (socketId : String)
  | disconnect (socketId : String)
  | postLocation (req : LocationRequest) (geo : HttpResult)
  | sweep
  | idle
  deriving DecidableEq, Repr

/-- An input with the instant at which it is handled and the database writes
that fail while it is handled. -/
structure Event where
  time : Time
  faults : Faults
  input : Input
  deriving DecidableEq, Repr

/-- Run the timer callbacks that are due at `now`, oldest first, each at the
instant it is due. -/
def fireTimers (f : Faults) (now : Time) (w : World) : World :=
  (w.timers.filter (fun t => decide (t.fireAt ≤ now))).foldl
    (fun acc t => disconnectTimeout f t.fireAt t.socket acc)
    { w with timers := w.timers.filter (fun t => !decide (t.fireAt ≤ now)) }

/-- Embedding of the two namespaces of `setupNamespaces` and of the background
task: the middleware decides whether the connection handler runs; an event of a
socket runs the handler registered for it. -/
def handle (cfg : Config) (jwtVerify : String → String → Option Decoded) (f : Faults)
    (now : Time) (input : Input) (w : World) : World :=
  match input with
  | .managerConnect socketId token =>
    match authenticateManager cfg jwtVerify w.store (Socket.fresh socketId "/manager" token) with
    | (_, some _) => w
    | (socket, none) => (handleManagerConnection socket (w.setSocket socket)).2
  | .employeeConnect socketId token =>
    match authenticateEmployee cfg jwtVerify w.store
        (Socket.fresh socketId "/employee" token) with
    | (_, some _) => w
    | (socket, none) => (handleEmployeeConnection f now socket (w.setSocket socket)).2
  | .heartbeat socketId =>
    match w.sockets.find? (fun x => x.id == socketId) with
    | none => w
    | some socket => if socket.handlers.contains "heartbeat" then onHeartbeat f now socket w else w
  | .disconnect socketId =>
    match w.sockets.find? (fun x => x.id == socketId) with
    | none => w
    | some socket =>
      if socket.nsp == "/employee" && socket.handlers.contains "disconnect" then
        onDisconnect cfg now socket (w.dropSocket socketId)
      else w.dropSocket socketId
  | .postLocation req geo => (postLocation f geo now req w).2
  | .sweep => { w with store := markInactiveEmployeesOffline cfg f now w.store }
  | .idle => w

/-- One step of the server: the timers that are due run first, then the input
is handled. -/
def step (cfg : Config) (jwtVerify : String → String → Option Decoded) (w : World)
    (e : Event) : World :=
  handle cfg jwtVerify e.faults e.time e.input (fireTimers e.faults e.time w)

/-- Run a trace of events. -/
def run (cfg : Config) (jwtVerify : String → String → Option Decoded) (w : World)
    (trace : List Event) : World :=
  trace.foldl (step cfg jwtVerify) w

/-! ## Store invariants -/

/-- The presence table is keyed by `employeeId`: at most one record per employee. -/
def UniquePresence (s : Store) : Prop :=
  ∀ e, presenceCount s e ≤ 1

/-- How an operation may change the store: the location rows it found are all
still there, in place and unchanged, with new rows only after them; and the
presence table stays keyed by `employeeId` when it was. -/
def Evolves (s s2 : Store) : Prop :=
  s.locations <+: s2.locations ∧ (UniquePresence s → UniquePresence s2)

/-! ## Presence query (`GET /api/employees/:id/presence`) -/

/-- Result of `getEmployeeById`: the employee with its active devices and its
presence record. -/
structure EmployeeDetails where
  employee : Employee
  devices : List Device
  presence : Option Presence
  deriving DecidableEq, Repr

/-- Embedding of `getEmployeeById`: the active employee with the id, with the
relations it includes. -/
def getEmployeeById (s : Store) (employeeId : String) : Option EmployeeDetails :=
  (s.employees.find? (fun e => e.id == employeeId && e.isActive)).map (fun e =>
    { employee := e
      devices := s.devices.filter (fun d => d.employeeId == e.id && d.isActive)
      presence := presenceOf s e.id })

/-- The JSON bodies the presence route answers with. -/
inductive PresenceBody where
  | presence (employeeId : String) (isOnline : Bool) (lastSeenAt : Option Time)
  | failure (error : String)
  deriving DecidableEq, Repr

/-- An HTTP response of the presence route. -/
structure PresenceResponse where
  status : Nat
  body : PresenceBody
  deriving DecidableEq, Repr

/-- Embedding of the handler of `GET /:id/presence`, reached after `verifyToken`,
`verifyManager` and `validateEmployeeId`: 404 when no active employee has the
id; otherwise `presence?.isOnline || false` and `presence?.lastSeenAt || null`
(a stored date is never falsy). -/
def getEmployeePresence (s : Store) (id : String) : PresenceResponse :=
  match getEmployeeById s id with
  | none => { status := 404, body := .failure "Employee not found" }
  | some details =>
    { status := 200
      body := .presence details.employee.id
        (match details.presence with
          | none => false
          | some p => p.isOnline || false)
        (match details.presence with
          | none => none
          | some p => some p.lastSeenAt) }

/-! ## Delivery of emissions -/

/-- The sockets an emission reaches: the sockets of the namespace that have
joined the room, or the one socket it is addressed to. -/
def recipients (sockets : List Socket) (target : Target) : List String :=
  match target with
  | .room nsp name =>
    (sockets.filter (fun x => x.nsp == nsp && x.rooms.contains name)).map (fun x => x.id)
  | .socket socketId => (sockets.filter (fun x => x.id == socketId)).map (fun x => x.id)

/-- The messages with which the admission middleware refuses an employee. -/
def employeeAuthErrors : List String :=
  ["Authentication error: No token provided", "Authentication error: Invalid token",
   "Authentication error: Invalid role", "Authentication error: Device or employee not found"]

/-- The filter of the `findFirst` of `authenticateEmployee`: the `id` condition
is present only when the token carries a `deviceId`. -/
def deviceFilter (deviceId : Option String) (d : Device) : Bool :=
  (match deviceId with
    | none => true
    | some id => d.id == id) && d.isActive

/-! ## Latest location and the request of a manager -/

/-- Embedding of `getLatestLocation`: the first of the location rows of the
employee in descending `timestamp` order, with the employee fields it includes,
`null` when there is none. An `employeeId` that is `undefined` leaves the filter
out. -/
def getLatestLocation (s : Store) (employeeId : Option String) : Option LatestLocation :=
  (((s.locations.filter (fun l =>
        match employeeId with
        | none => true
        | some e => l.employeeId == e)).mergeSort
      (fun a b => decide (b.timestamp ≤ a.timestamp))).head?).map (fun l =>
    { location := l
      employee := (s.employees.find? (fun e => e.id == l.employeeId)).map Employee.info })

/-- Payload of a `requestEmployeeUpdate` event, as far as it is read. -/
structure EmployeeUpdateRequest where
  employeeId : Option String
  deriving DecidableEq, Repr

/-- Embedding of the `requestEmployeeUpdate` handler of a manager socket: look
the latest location up and reply to the socket with `employeeUpdate`; an event
without payload makes the destructuring throw, which is logged. -/
def onRequestEmployeeUpdate (data : Option EmployeeUpdateRequest) (socket : Socket)
    (w : World) : World :=
  match data with
  | none => w
  | some request =>
    World.emit w (.socket socket.id)
      (.employeeUpdate request.employeeId (getLatestLocation w.store request.employeeId))

/-! ## The geocode request (`axios.get` in `reverseGeocode`) -/

/-- The request `reverseGeocode` hands to `axios.get`: the URL, the query
parameters, the `User-Agent` header, and the `timeout` option of the request
configuration (in milliseconds). -/
structure GeocodeRequest where
  url : String
  format : String
  lat : Option Rat
  lon : Option Rat
  zoom : Nat
  addressdetails : Nat
  userAgent : String
  timeout : Option Nat
  deriving DecidableEq, Repr

/-- What the geocoding provider does with a request: it answers after some
milliseconds, with the outcome the client then sees, or it never answers. -/
inductive Provider where
  | answers (afterMs : Nat) (result : HttpResult)
  | silent
  deriving DecidableEq, Repr

/-- How `axios.get` settles: a request whose `timeout` is absent or `0` is never
timed out by the client, so it settles when the provider answers and never
otherwise; with a positive `timeout` it is rejected once that time has passed
without an answer. `none`: the promise never settles. -/
def axiosGet (request : GeocodeRequest) (provider : Provider) : Option HttpResult :=
  match provider, request.timeout with
  | .silent, none => none
  | .silent, some t => if t = 0 then none else some .throws
  | .answers _ result, none => some result
  | .answers afterMs result, some t =>
    if t ≠ 0 ∧ t < afterMs then some .throws else some result

/-- Embedding of the request built by `reverseGeocode`: no `timeout` is given. -/
def geocodeRequest (nominatimApiUrl : String) (latitude longitude : Option Rat) :
    GeocodeRequest :=
  { url := nominatimApiUrl ++ "/reverse", format := "json", lat := latitude, lon := longitude,
    zoom := 18, addressdetails := 1, userAgent := "Newmap-Backend/1.0", timeout := none }

/-- The default of `config.nominatimApiUrl`. -/
def defaultNominatimApiUrl : String := "https://nominatim.openstreetmap.org"

/-- One call of `reverseGeocode` against a provider: the requests it issued and
its result, `none` when the call never returns. -/
structure GeocodeCall where
  requests : List GeocodeRequest
  result : Option (Option String)
  deriving DecidableEq, Repr

/-- Embedding of `reverseGeocode` with its HTTP call: one `axios.get`, awaited;
its outcome, once there is one, goes through `reverseGeocode`. -/
def reverseGeocodeCall (nominatimApiUrl : String) (latitude longitude : Option Rat)
    (provider : Provider) : GeocodeCall :=
  { requests := [geocodeRequest nominatimApiUrl latitude longitude]
    result := (axiosGet (geocodeRequest nominatimApiUrl latitude longitude) provider).map
      reverseGeocode }

/-- Embedding of `saveLocationUpdate` with its HTTP call: the writes happen once
the lookup has settled; `none` when it never does. -/
def saveLocationUpdateCall (f : Faults) (nominatimApiUrl : String) (provider : Provider)
    (now : Time) (employeeId : String) (d : LocationData) (s : Store) :
    Option (Except DbError Location × Store) :=
  (axiosGet (geocodeRequest nominatimApiUrl d.latitude d.longitude) provider).map
    (fun r => saveLocationUpdate f r now employeeId d s)

/-! ## Manager login (`loginManager`, `POST /api/auth/manager/login`) -/

/-- Row of the manager table, as far as the login reads it; `password` is the
stored hash. -/
structure ManagerAccount where
  id : String
  fullName : String
  email : String
  company : String
  password : String
  isActive : Bool
  deriving DecidableEq, Repr

/-- The settings of `src/config/index.js` that `generateTokens` reads. -/
structure JwtConfig where
  jwtSecret : String
  jwtExpiresIn : String
  jwtRefreshExpiresIn : String
  deriving DecidableEq, Repr

/-- The defaults of the token settings. -/
def defaultJwtConfig : JwtConfig :=
  { jwtSecret := "fallback-secret-key", jwtExpiresIn := "24h", jwtRefreshExpiresIn := "7d" }

/-- Result of `generateTokens`. -/
structure Tokens where
  accessToken : String
  refreshToken : String
  deriving DecidableEq, Repr

/-- Embedding of `generateTokens`: the payload is signed twice (`jwt.sign`, the
parameter `jwtSign`, with payload, secret and expiry), once per expiry. -/
def generateTokens (jwtSign : Decoded → String → String → String) (cfg : JwtConfig)
    (payload : Decoded) : Tokens :=
  { accessToken := jwtSign payload cfg.jwtSecret cfg.jwtExpiresIn
    refreshToken := jwtSign payload cfg.jwtSecret cfg.jwtRefreshExpiresIn }

/-- Result of a successful `loginManager`. -/
structure ManagerLogin where
  id : String
  fullName : String
  email : String
  company : String
  tokens : Tokens
  deriving DecidableEq, Repr

/-- Embedding of `loginManager`: the active manager with the email is looked up
and the password compared with its hash (`bcrypt.compare`, the parameter
`compare`); both failures throw `Invalid credentials`. -/
def loginManager (compare : String → String → Bool)
    (jwtSign : Decoded → String → String → String) (cfg : JwtConfig)
    (managers : List ManagerAccount) (email password : String) : Except String ManagerLogin :=
  match managers.find? (fun m => m.email == email && m.isActive) with
  | none => .error "Invalid credentials"
  | some manager =>
    if compare password manager.password then
      .ok { id := manager.id, fullName := manager.fullName, email := manager.email,
            company := manager.company
            tokens := generateTokens jwtSign cfg
              { id := some manager.id, role := some "manager", deviceId := none } }
    else .error "Invalid credentials"

/-- Body of a login request. -/
structure LoginBody where
  email : Option String
  password : Option String
  deriving DecidableEq, Repr

/-- The JSON bodies the login route answers with. -/
inductive LoginResponseBody where
  | validationFailed (details : List String)
  | loggedIn (data : ManagerLogin)
  | failure (error : String)
  deriving DecidableEq, Repr

/-- An HTTP response of the login route. -/
structure LoginResponse where
  status : Nat
  body : LoginResponseBody
  deriving DecidableEq, Repr

/-- Embedding of the chains of `validateManagerLogin`: the email must pass
`isEmail` (a parameter) and the password have at least 6 characters. -/
def validateManagerLogin (isEmail : String → Bool) (body : LoginBody) : List String :=
  (if (match body.email with
        | none => false
        | some email => isEmail email) then []
    else ["Valid email is required"]) ++
  (if (match body.password with
        | none => false
        | some password => decide (6 ≤ password.length)) then []
    else ["Password must be at least 6 characters"])

/-- Embedding of `POST /manager/login`: `handleValidationErrors` answers 400
when a check failed; otherwise the handler logs in with the email as
`normalizeEmail` (a parameter) left it and answers 200 with the result, or 401
with the message of the error. -/
def postManagerLogin (isEmail : String → Bool) (normalizeEmail : String → String)
    (compare : String → String → Bool) (jwtSign : Decoded → String → String → String)
    (cfg : JwtConfig) (managers : List ManagerAccount) (body : LoginBody) : LoginResponse :=
  if validateManagerLogin isEmail body ≠ [] then
    { status := 400, body := .validationFailed (validateManagerLogin isEmail body) }
  else
    match body.email, body.password with
    | some email, some password =>
      match loginManager compare jwtSign cfg managers (normalizeEmail email) password with
      | .ok data => { status := 200, body := .loggedIn data }
      | .error message => { status := 401, body := .failure message }
    | _, _ => { status := 401, body := .failure "Invalid credentials" }

/-! ## Manager-only routes (`verifyToken`, `verifyManager`) -/

/-- Where a request ends in a middleware chain: answered by a middleware with a
status and an error, or handed to the route handler with what the middlewares
attached to it. -/
inductive Gate where
  | rejected (status : Nat) (error : String)
  | handlerRuns (user : Decoded) (manager : Manager)
  deriving DecidableEq, Repr

/-- Embedding of `verifyToken`; `token` is the value of
`req.header('Authorization')?.replace('Bearer ', '')`. Without a token the
answer is 401, with a token that `jwt.verify` rejects it is 400; otherwise the
decoded payload becomes `req.user`. -/
def verifyToken (cfg : Config) (jwtVerify : String → String → Option Decoded)
    (token : Option String) : Except (Nat × String) Decoded :=
  match token with
  | none => .error (401, "Access denied. No token provided.")
  | some t =>
    if t = "" then .error (401, "Access denied. No token provided.")
    else
      match jwtVerify t cfg.jwtSecret with
      | none => .error (400, "Invalid token.")
      | some decoded => .ok decoded

/-- Embedding of `verifyManager`: the active manager whose id is `req.user.id`
is looked up; 403 when there is none, 500 when the lookup throws (no id). -/
def verifyManager (s : Store) (user : Decoded) : Except (Nat × String) Manager :=
  match user.id with
  | none => .error (500, "Error verifying manager.")
  | some id =>
    match s.managers.find? (fun m => m.id == id && m.isActive) with
    | none => .error (403, "Manager not found or inactive.")
    | some manager => .ok manager

/-- Embedding of the chain `verifyToken, verifyManager` in front of the routes
marked `Manager only`. -/
def managerOnly (cfg : Config) (jwtVerify : String → String → Option Decoded) (s : Store)
    (token : Option String) : Gate :=
  match verifyToken cfg jwtVerify token with
  | .error (status, error) => .rejected status error
  | .ok user =>
    match verifyManager s user with
    | .error (status, error) => .rejected status error
    | .ok manager => .handlerRuns user manager

/-- Embedding of the payload `loginEmployee` hands to `generateTokens`: the id
of the employee and the role `employee` (the email is not read again). -/
def loginEmployeePayload (employee : Employee) : Decoded :=
  { id := some employee.id, role := some "employee", deviceId := none }

/-- Embedding of the payload `registerDevice` hands to `generateTokens`: the id
of the employee, the id of the device and the role `employee`. -/
def registerDevicePayload (employee : Employee) (device : Device) : Decoded :=
  { id := some employee.id, role := some "employee", deviceId := some device.id }

/-! ## The root server (`server.js`): `POST /location` -/

/-- The `deviceStatus` object of a submission to the root server. -/
structure DeviceStatus where
  batteryLevel : Option Rat
  batteryState : Option String
  isOnline : Option Bool
  connectionType : Option String
  signalStrength : Option Rat
  deriving DecidableEq, Repr

/-- Body of a submission to the root server, as destructured by the handler. -/
structure RootLocationBody where
  latitude : Option Rat
  longitude : Option Rat
  accuracy : Option Rat
  altitude : Option Rat
  speed : Option Rat
  heading : Option Rat
  deviceStatus : Option DeviceStatus
  deriving DecidableEq, Repr

/-- Row of the `locations` table of the root server. -/
structure RootLocation where
  id : String
  employeeId : String
  latitude : Rat
  longitude : Rat
  accuracy : Option Rat
  altitude : Option Rat
  speed : Option Rat
  heading : Option Rat
  batteryLevel : Option Rat
  batteryState : Option String
  isOnline : Option Bool
  connectionType : Option String
  signalStrength : Option Rat
  timestamp : Time
  deriving DecidableEq, Repr

/-- Row of the `presence` table of the root server (primary key: `employeeId`). -/
structure RootPresence where
  employeeId : String
  online : Bool
  lastSeenAt : Time
  deriving DecidableEq, Repr

/-- The `locationUpdate` event of the root server. -/
structure RootLocationUpdate where
  employeeId : String
  latitude : Rat
  longitude : Rat
  accuracy : Option Rat
  timestamp : Time
  deviceStatus : Option DeviceStatus
  deriving DecidableEq, Repr

/-- The state of the root server: its two tables and what it emitted to the
room `managers`. -/
structure RootWorld where
  locations : List RootLocation
  presence : List RootPresence
  emitted : List RootLocationUpdate
  deriving DecidableEq, Repr

/-- An HTTP response of the root server: a status with an error, or the success
body with the id of the stored row. -/
inductive RootResponse where
  | error (status : Nat) (message : String)
  | success (id : String)
  deriving DecidableEq, Repr

/-- The test `!value` on a numeric body field: absent and `0` are falsy. -/
def isFalsy (value : Option Rat) : Bool :=
  match value with
  | none => true
  | some q => q == 0

/-- Embedding of the handler of `POST /location` of the root server, after
`authenticateToken` (`employeeId` is `req.user.employeeId`, `newId` the
`uuidv4()`): 400 when latitude or longitude is falsy; otherwise the row is
inserted (500 when the insert fails, as it does without an employee id), the
presence row is replaced (an error of that write is only logged), the
`locationUpdate` is emitted and the answer is the id of the row. -/
def rootPostLocation (insertFails presenceFails : Bool) (newId : String) (now : Time)
    (employeeId : Option String) (body : RootLocationBody) (w : RootWorld) :
    RootResponse × RootWorld :=
  if isFalsy body.latitude || isFalsy body.longitude then
    (.error 400 "Latitude and longitude are required", w)
  else
    match body.latitude, body.longitude, employeeId with
    | some latitude, some longitude, some e =>
      if insertFails then (.error 500 "Failed to save location", w)
      else
        let record : RootLocation :=
          { id := newId, employeeId := e, latitude := latitude, longitude := longitude
            accuracy := body.accuracy, altitude := body.altitude, speed := body.speed
            heading := body.heading
            batteryLevel := body.deviceStatus.bind (fun st => st.batteryLevel)
            batteryState := body.deviceStatus.bind (fun st => st.batteryState)
            isOnline := body.deviceStatus.bind (fun st => st.isOnline)
            connectionType := body.deviceStatus.bind (fun st => st.connectionType)
            signalStrength := body.deviceStatus.bind (fun st => st.signalStrength)
            timestamp := now }
        (.success newId,
          { locations := w.locations ++ [record]
            presence :=
              if presenceFails then w.presence
              else w.presence.filter (fun p => p.employeeId != e) ++
                [{ employeeId := e, online := true, lastSeenAt := now }]
            emitted := w.emitted ++
              [{ employeeId := e, latitude := latitude, longitude := longitude
                 accuracy := body.accuracy, timestamp := now
                 deviceStatus := body.deviceStatus }] })
    | _, _, _ => (.error 500 "Failed to save location", w)

/-! ## Fixtures

The sample data of `test-location.js` and a small database, used to evaluate the
definitions on concrete inputs. -/

/-- An active employee. -/
def sampleEmployee : Employee :=
  { id := "EMP001", fullName := "John Doe", department := "Sales", avatarUrl := none,
    isActive := true }

/-- An active device of `sampleEmployee`. -/
def sampleDevice : Device :=
  { id := "DEV001", employeeId := "EMP001", isActive := true, lastSeenAt := 0 }

/-- An active manager. -/
def sampleManager : Manager :=
  { id := "MGR001", fullName := "Admin Manager", isActive := true }

/-- The body sent by `testSendLocation`, without a client timestamp. -/
def sampleBody : LocationData :=
  { latitude := some 37.7749, longitude := some (-122.4194), accuracy := some 15.5,
    altitude := some 52, speed := some 2.5, heading := some 180, battery := some 85,
    timestamp := none }

/-- The request of `testSendLocation` after the authentication middleware. -/
def sampleRequest : LocationRequest :=
  { employee := sampleEmployee, device := sampleDevice, body := sampleBody }

/-- A token verification for the fixtures: under the default secret, the token
`manager-token` decodes to the sample manager, `employee-token` to the sample
employee on its device; every other token is rejected. -/
def sampleVerify (token secret : String) : Option Decoded :=
  if secret = "fallback-secret-key" then
    if token = "manager-token" then
      some { id := some "MGR001", role := some "manager", deviceId := none }
    else if token = "employee-token" then
      some { id := some "EMP001", role := some "employee", deviceId := some "DEV001" }
    else none
  else none

/-- A database with one manager, one employee and its device, no presence
record and no location. -/
def sampleStore : Store :=
  { managers := [sampleManager], employees := [sampleEmployee], devices := [sampleDevice],
    presences := [], locations := [] }

/-- The socket of the sample employee after admission and connection. -/
def sampleSocket : Socket :=
  { id := "s1", nsp := "/employee", token := some "employee-token", managerId := none,
    manager := none, deviceId := some "DEV001", employeeId := some "EMP001",
    employee := some sampleEmployee, rooms := [], handlers := ["heartbeat", "disconnect"] }

/-- A server on `sampleStore` on which the sample employee is connected and online. -/
def onlineWorld : World :=
  { store := { sampleStore with
      presences := [{ employeeId := "EMP001", isOnline := true, lastSeenAt := 1000 }] }
    sockets := [sampleSocket], emitted := [], timers := [] }

/-- A server on `sampleStore` on which the sample employee is connected while
its presence record is offline. -/
def offlineWorld : World :=
  { store := { sampleStore with
      presences := [{ employeeId := "EMP001", isOnline := false, lastSeenAt := 1000 }] }
    sockets := [sampleSocket], emitted := [], timers := [] }

/-- A server that has just started on `sampleStore`. -/
def sampleWorld : World :=
  { store := sampleStore, sockets := [], emitted := [], timers := [] }

/-- A trace with a quick reconnection: the sample employee connects at 0,
disconnects at 1000, reconnects at 2000 and sends a heartbeat at 3000; the
server is next active at 130000. -/
def reconnectTrace : List Event :=
  [{ time := 0, faults := noFaults, input := .employeeConnect "s1" (some "employee-token") },
   { time := 1000, faults := noFaults, input := .disconnect "s1" },
   { time := 2000, faults := noFaults, input := .employeeConnect "s2" (some "employee-token") },
   { time := 3000, faults := noFaults, input := .heartbeat "s2" },
   { time := 130000, faults := noFaults, input := .idle }]

/-- A second active employee, who has no device. -/
def secondEmployee : Employee :=
  { id := "EMP002", fullName := "Jane Smith", department := "Marketing", avatarUrl := none,
    isActive := true }

/-- A token verification for the fixtures: under the default secret, the token
`login-token` decodes to what `loginEmployee` signs for the second employee, a
payload with `id` and `role: 'employee'` and without `deviceId`. -/
def loginVerify (token secret : String) : Option Decoded :=
  if secret = "fallback-secret-key" then
    if token = "login-token" then
      some { id := some "EMP002", role := some "employee", deviceId := none }
    else none
  else none

/-- A server that has just started on a database with the sample employee and
its device and the second employee. -/
def twoEmployeeWorld : World :=
  { store := { sampleStore with employees := [sampleEmployee, secondEmployee] }
    sockets := [], emitted := [], timers := [] }

/-- The socket of the sample manager after admission and connection. -/
def managerSocket : Socket :=
  { id := "m1", nsp := "/manager", token := some "manager-token", managerId := some "MGR001",
    manager := some sampleManager, deviceId := none, employeeId := none, employee := none,
    rooms := ["managers"], handlers := ["requestEmployeeUpdate", "disconnect"] }

/-- A server on `sampleStore` on which the sample manager is connected. -/
def managerWorld : World :=
  { store := sampleStore, sockets := [managerSocket], emitted := [], timers := [] }

/-- The employee number `i` of a large fleet: active, with a name of `i + 1` letters. -/
def crowdEmployee (i : Nat) : Employee :=
  { id := String.mk (List.replicate (i + 1) 'e')
    fullName := String.mk (List.replicate (i + 1) 'e')
    department := "Field", avatarUrl := none, isActive := true }

/-- A server that has just started on a database with 101 active employees. -/
def crowdedWorld : World :=
  { store := { sampleStore with employees := (List.range 101).map crowdEmployee, devices := [] }
    sockets := [], emitted := [], timers := [] }

/-- A sample of the sample employee, stored with the timestamp 5000. -/
def earlierSample : Location :=
  { id := 1, employeeId := "EMP001", latitude := 37.7749, longitude := -122.4194,
    accuracy := some 15.5, altitude := some 52, speed := some 2.5, heading := some 180,
    battery := some 85, address := none, timestamp := 5000 }

/-- The sample database after `earlierSample` was ingested. -/
def historyStore : Store :=
  { sampleStore with
    presences := [{ employeeId := "EMP001", isOnline := true, lastSeenAt := 5000 }]
    locations := [earlierSample] }

/-- A stand-in for `isEmail` on the fixtures: the address has an `@`. -/
def sampleIsEmail (email : String) : Bool :=
  email.toList.contains '@'

/-- A stand-in for `bcrypt.compare` on the fixtures: the hash of a password is
the password behind `hash:`. -/
def sampleCompare (password hash : String) : Bool :=
  hash == "hash:" ++ password

/-- A stand-in for `jwt.sign` on the fixtures. -/
def sampleSign (payload : Decoded) (secret expiresIn : String) : String :=
  payload.id.getD "" ++ "." ++ payload.role.getD "" ++ "." ++ secret ++ "." ++ expiresIn

/-- The manager table of the fixtures: the account of `create-manager.js`, and an
account whose password, `ops12`, has five characters. -/
def sampleAccounts : List ManagerAccount :=
  [{ id := "MGR001", fullName := "Admin Manager", email := "admin@company.com",
     company := "Company Name", password := "hash:admin123", isActive := true },
   { id := "MGR002", fullName := "Ops Manager", email := "ops@company.com",
     company := "Company Name", password := "hash:ops12", isActive := true }]

/-- The body of Test 4 of `test-api.js`, without device status. -/
def rootBody : RootLocationBody :=
  { latitude := some 40.7128, longitude := some (-74.0060), accuracy := some 10.5,
    altitude := some 10, speed := some 0, heading := some 0, deviceStatus := none }

/-- The root server before any submission. -/
def rootWorld : RootWorld :=
  { locations := [], presence := [], emitted := [] }

/-! ## Lemmas on the presence store -/

theorem upsertPresence_eq (e : String) (b : Bool) (now : Time) (ps : List Presence) :
    upsertPresence e b now ps =
      if ps.any (fun p => p.employeeId == e) then ps.map (touch e b now)
      else ps ++ [{ employeeId := e, isOnline := b, lastSeenAt := now }] := rfl

theorem touch_self (e : String) (b : Bool) (now : Time) (p : Presence)
    (h : p.employeeId = e) :
    touch e b now p = { employeeId := e, isOnline := b, lastSeenAt := now } := by
  cases p
  simp_all [touch]

theorem touch_other (e : String) (b : Bool) (now : Time) (p : Presence)
    (h : p.employeeId ≠ e) : touch e b now p = p := by
  simp [touch, h]

theorem touch_employeeId (e : String) (b : Bool) (now : Time) (p : Presence) :
    (touch e b now p).employeeId = p.employeeId := by
  unfold touch
  split <;> rfl

theorem find_map_touch_self (e : String) (b : Bool) (now : Time) (ps : List Presence)
    (h : ps.any (fun p => p.employeeId == e) = true) :
    (ps.map (touch e b now)).find? (fun p => p.employeeId == e) =
      some { employeeId := e, isOnline := b, lastSeenAt := now } := by
  induction ps with
  | nil => simp at h
  | cons p ps ih =>
    rw [List.map_cons, List.find?_cons]
    by_cases hp : p.employeeId = e
    · rw [touch_self e b now p hp]
      simp
    · have h2 : ps.any (fun p => p.employeeId == e) = true := by
        simpa [hp] using h
      rw [touch_other e b now p hp]
      have : (p.employeeId == e) = false := by simpa using hp
      rw [this]
      exact ih h2

theorem find_map_touch_other (e e2 : String) (b : Bool) (now : Time) (ps : List Presence)
    (hne : e2 ≠ e) :
    (ps.map (touch e b now)).find? (fun p => p.employeeId == e2) =
      ps.find? (fun p => p.employeeId == e2) := by
  induction ps with
  | nil => rfl
  | cons p ps ih =>
    rw [List.map_cons, List.find?_cons, List.find?_cons, touch_employeeId]
    by_cases hq : p.employeeId = e2
    · have hp : p.employeeId ≠ e := fun h => hne (hq.symm.trans h)
      rw [touch_other e b now p hp]
      simp [hq]
    · have : (p.employeeId == e2) = false := by simpa using hq
      rw [this]
      exact ih

theorem find_upsertPresence_self (e : String) (b : Bool) (now : Time) (ps : List Presence) :
    (upsertPresence e b now ps).find? (fun p => p.employeeId == e) =
      some { employeeId := e, isOnline := b, lastSeenAt := now } := by
  rw [upsertPresence_eq]
  split
  · rename_i h
    exact find_map_touch_self e b now ps h
  · rename_i h
    have h2 : ps.find? (fun p => p.employeeId == e) = none := by
      simpa using h
    rw [List.find?_append, h2]
    simp

theorem find_upsertPresence_other (e e2 : String) (b : Bool) (now : Time)
    (ps : List Presence) (hne : e2 ≠ e) :
    (upsertPresence e b now ps).find? (fun p => p.employeeId == e2) =
      ps.find? (fun p => p.employeeId == e2) := by
  rw [upsertPresence_eq]
  split
  · exact find_map_touch_other e e2 b now ps hne
  · have hne2 : (e == e2) = false := by simpa using fun h : e = e2 => hne h.symm
    rw [List.find?_append, List.find?_cons, hne2]
    simp

theorem presenceOf_updatePresence (now : Time) (e : String) (b : Bool) (s : Store) :
    presenceOf (updatePresence noFaults now e b s).2 e =
      some { employeeId := e, isOnline := b, lastSeenAt := now } := by
  simp [updatePresence, noFaults, presenceOf, find_upsertPresence_self]

/-! ## Location ingest -/

theorem validateLocationUpdate_nil_iff (d : LocationData) :
    validateLocationUpdate d = [] ↔
      isFloat (some (-90)) (some 90) d.latitude = true ∧
      isFloat (some (-180)) (some 180) d.longitude = true ∧
      optionalCheck (isFloat (some 0) none) d.accuracy = true ∧
      optionalCheck (isInt 0 100) d.battery = true := by
  unfold validateLocationUpdate
  constructor
  · intro h
    simp only [List.append_eq_nil] at h
    obtain ⟨⟨⟨h1, h2⟩, h3⟩, h4⟩ := h
    refine ⟨?_, ?_, ?_, ?_⟩
    · by_contra hc; simp [hc] at h1
    · by_contra hc; simp [hc] at h2
    · by_contra hc; simp [hc] at h3
    · by_contra hc; simp [hc] at h4
  · rintro ⟨h1, h2, h3, h4⟩
    simp [h1, h2, h3, h4]

theorem saveLocationUpdate_ok (f : Faults) (geo : HttpResult) (now : Time) (e : String)
    (d : LocationData) (s : Store) (lat lon : Rat)
    (hlat : d.latitude = some lat) (hlon : d.longitude = some lon)
    (hcreate : f.locationCreate = false) (hupsert : f.presenceUpsert = false) :
    saveLocationUpdate f geo now e d s =
      (.ok { id := s.locations.length + 1, employeeId := e, latitude := lat,
             longitude := lon, accuracy := d.accuracy, altitude := d.altitude,
             speed := d.speed, heading := d.heading, battery := d.battery,
             address := reverseGeocode geo, timestamp := d.timestamp.getD now },
       { s with
         locations := s.locations ++
           [{ id := s.locations.length + 1, employeeId := e, latitude := lat,
              longitude := lon, accuracy := d.accuracy, altitude := d.altitude,
              speed := d.speed, heading := d.heading, battery := d.battery,
              address := reverseGeocode geo, timestamp := d.timestamp.getD now }]
         presences := upsertPresence e true now s.presences }) := by
  simp [saveLocationUpdate, createLocation, updatePresence, hlat, hlon, hcreate, hupsert]

theorem isFloat_bounds (lo hi q : Rat) (h1 : lo ≤ q) (h2 : q ≤ hi) :
    isFloat (some lo) (some hi) (some q) = true := by
  simp [isFloat, h1, h2]

theorem isFloat_false_of_outside (lo hi : Rat) (v : Option Rat)
    (h : v = none ∨ ∃ q, v = some q ∧ (q < lo ∨ hi < q)) :
    isFloat (some lo) (some hi) v = false := by
  rcases h with h | ⟨q, hq, hout⟩
  · subst h
    rfl
  · subst hq
    rcases hout with hout | hout
    · simp [isFloat, not_le.mpr hout]
    · simp [isFloat, not_le.mpr hout]

/-- C1: a submission whose latitude lies in [-90, 90] and whose longitude lies
in [-180, 180], with valid optional fields, passes `validateLocationUpdate`;
when the two database writes succeed, `saveLocationUpdate` returns a sample with
exactly the submitted latitude and longitude, that sample is the one row added
to the location table, and the route answers 200 with its id, whatever the
geocode lookup returned. -/
theorem ingest_valid_coordinates_roundtrip (f : Faults) (geo : HttpResult) (now : Time)
    (req : LocationRequest) (w : World) (lat lon : Rat)
    (hlat : req.body.latitude = some lat) (hlatlo : -90 ≤ lat) (hlathi : lat ≤ 90)
    (hlon : req.body.longitude = some lon) (hlonlo : -180 ≤ lon) (hlonhi : lon ≤ 180)
    (hacc : ∀ a, req.body.accuracy = some a → 0 ≤ a)
    (hbat : ∀ b, req.body.battery = some b → b.den = 1 ∧ 0 ≤ b ∧ b ≤ 100)
    (hcreate : f.locationCreate = false) (hupsert : f.presenceUpsert = false) :
    validateLocationUpdate req.body = [] ∧
    ∃ location : Location,
      (saveLocationUpdate f geo now req.employee.id req.body w.store).1 = .ok location ∧
      location.latitude = lat ∧ location.longitude = lon ∧
      (saveLocationUpdate f geo now req.employee.id req.body w.store).2.locations =
        w.store.locations ++ [location] ∧
      (postLocation f geo now req w).1 =
        { status := 200, body := .locationUpdated location.id location.timestamp } ∧
      (postLocation f geo now req w).2.store.locations = w.store.locations ++ [location] := by
  have hvalid : validateLocationUpdate req.body = [] := by
    rw [validateLocationUpdate_nil_iff]
    refine ⟨?_, ?_, ?_, ?_⟩
    · rw [hlat]; exact isFloat_bounds _ _ _ hlatlo hlathi
    · rw [hlon]; exact isFloat_bounds _ _ _ hlonlo hlonhi
    · cases hA : req.body.accuracy with
      | none => rfl
      | some a => simp [optionalCheck, isFloat, hacc a hA]
    · cases hB : req.body.battery with
      | none => rfl
      | some b =>
        obtain ⟨h1, h2, h3⟩ := hbat b hB
        simp [optionalCheck, isInt, h1, h2, h3]
  refine ⟨hvalid,
    { id := w.store.locations.length + 1, employeeId := req.employee.id, latitude := lat,
      longitude := lon, accuracy := req.body.accuracy, altitude := req.body.altitude,
      speed := req.body.speed, heading := req.body.heading, battery := req.body.battery,
      address := reverseGeocode geo, timestamp := req.body.timestamp.getD now },
    ?_, rfl, rfl, ?_, ?_, ?_⟩
  · rw [saveLocationUpdate_ok f geo now _ _ _ lat lon hlat hlon hcreate hupsert]
  · rw [saveLocationUpdate_ok f geo now _ _ _ lat lon hlat hlon hcreate hupsert]
  · simp only [postLocation, hvalid]
    rw [saveLocationUpdate_ok f geo now _ _ _ lat lon hlat hlon hcreate hupsert]
    simp
  · simp only [postLocation, hvalid]
    rw [saveLocationUpdate_ok f geo now _ _ _ lat lon hlat hlon hcreate hupsert]
    simp [World.emit, updateDeviceLastSeen]
    split <;> rfl

/-- Witness of C1 on the sample of `test-location.js` with a failing geocode lookup. -/
theorem ingest_valid_coordinates_roundtrip_witness :
    validateLocationUpdate sampleRequest.body = [] ∧
    ∃ location : Location,
      (saveLocationUpdate noFaults .throws 1000 sampleRequest.employee.id sampleRequest.body
        sampleWorld.store).1 = .ok location ∧
      location.latitude = 37.7749 ∧ location.longitude = -122.4194 ∧
      (saveLocationUpdate noFaults .throws 1000 sampleRequest.employee.id sampleRequest.body
        sampleWorld.store).2.locations = sampleWorld.store.locations ++ [location] ∧
      (postLocation noFaults .throws 1000 sampleRequest sampleWorld).1 =
        { status := 200, body := .locationUpdated location.id location.timestamp } ∧
      (postLocation noFaults .throws 1000 sampleRequest sampleWorld).2.store.locations =
        sampleWorld.store.locations ++ [location] :=
  ingest_valid_coordinates_roundtrip noFaults .throws 1000 sampleRequest sampleWorld
    37.7749 (-122.4194) rfl (by norm_num) (by norm_num) rfl (by norm_num) (by norm_num)
    (by intro a h; simp [sampleRequest, sampleBody] at h; subst h; norm_num)
    (by
      intro b h
      simp [sampleRequest, sampleBody] at h
      subst h
      refine ⟨?_, by norm_num, by norm_num⟩
      rfl)
    rfl rfl

/-- C2: a submission whose latitude is missing or outside [-90, 90], or whose
longitude is missing or outside [-180, 180], is answered by
`handleValidationErrors` with status 400 and the list of failed checks, and the
server state is left exactly as it was: `saveLocationUpdate` does not run, so no
location row is created, no presence record is created or changed, and nothing
is emitted. -/
theorem invalid_coordinates_rejected (f : Faults) (geo : HttpResult) (now : Time)
    (req : LocationRequest) (w : World)
    (h : (req.body.latitude = none ∨
            ∃ lat, req.body.latitude = some lat ∧ (lat < -90 ∨ 90 < lat)) ∨
         (req.body.longitude = none ∨
            ∃ lon, req.body.longitude = some lon ∧ (lon < -180 ∨ 180 < lon))) :
    validateLocationUpdate req.body ≠ [] ∧
    postLocation f geo now req w =
      ({ status := 400, body := .validationFailed (validateLocationUpdate req.body) }, w) ∧
    (postLocation f geo now req w).2.store.locations = w.store.locations ∧
    (postLocation f geo now req w).2.store.presences = w.store.presences ∧
    (postLocation f geo now req w).2.emitted = w.emitted := by
  have hne : validateLocationUpdate req.body ≠ [] := by
    intro hnil
    rw [validateLocationUpdate_nil_iff] at hnil
    obtain ⟨h1, h2, _, _⟩ := hnil
    rcases h with h | h
    · rw [isFloat_false_of_outside _ _ _ h] at h1
      exact Bool.false_ne_true h1
    · rw [isFloat_false_of_outside _ _ _ h] at h2
      exact Bool.false_ne_true h2
  have hpost : postLocation f geo now req w =
      ({ status := 400, body := .validationFailed (validateLocationUpdate req.body) }, w) := by
    simp [postLocation, hne]
  refine ⟨hne, hpost, ?_, ?_, ?_⟩ <;> rw [hpost]

/-- Witness of C2: latitude 91 is rejected on the sample world. -/
theorem invalid_coordinates_rejected_witness :
    validateLocationUpdate { sampleBody with latitude := some 91 } ≠ [] ∧
    postLocation noFaults .throws 1000
        { sampleRequest with body := { sampleBody with latitude := some 91 } } sampleWorld =
      ({ status := 400,
         body := .validationFailed
           (validateLocationUpdate { sampleBody with latitude := some 91 }) }, sampleWorld) ∧
    (postLocation noFaults .throws 1000
        { sampleRequest with body := { sampleBody with latitude := some 91 } }
        sampleWorld).2.store.locations = sampleWorld.store.locations ∧
    (postLocation noFaults .throws 1000
        { sampleRequest with body := { sampleBody with latitude := some 91 } }
        sampleWorld).2.store.presences = sampleWorld.store.presences ∧
    (postLocation noFaults .throws 1000
        { sampleRequest with body := { sampleBody with latitude := some 91 } }
        sampleWorld).2.emitted = sampleWorld.emitted :=
  invalid_coordinates_rejected noFaults .throws 1000
    { sampleRequest with body := { sampleBody with latitude := some 91 } } sampleWorld
    (Or.inl (Or.inr ⟨91, rfl, Or.inr (by norm_num)⟩))

theorem sampleBody_valid : validateLocationUpdate sampleBody = [] := by
  rw [validateLocationUpdate_nil_iff]
  refine ⟨?_, ?_, ?_, ?_⟩
  · simp [sampleBody, isFloat]; norm_num
  · simp [sampleBody, isFloat]; norm_num
  · simp [sampleBody, optionalCheck, isFloat]; norm_num
  · simp [sampleBody, optionalCheck, isInt]
    norm_num

/-- Counterexample to C3: the lookup for the valid sample of `test-location.js`
goes to a provider that never answers, which is how a lookup times out; the
request of `reverseGeocode` carries no timeout, so the lookup never settles and
`saveLocationUpdate`, which awaits it before its first write, never returns:
no sample is returned, with or without an address. -/
theorem geocode_timeout_blocks_ingest_counterexample :
    validateLocationUpdate sampleBody = [] ∧
    (geocodeRequest defaultNominatimApiUrl sampleBody.latitude sampleBody.longitude).timeout =
      none ∧
    axiosGet (geocodeRequest defaultNominatimApiUrl sampleBody.latitude sampleBody.longitude)
      .silent = none ∧
    ¬ ∃ outcome, saveLocationUpdateCall noFaults defaultNominatimApiUrl .silent 1000 "EMP001"
      sampleBody sampleStore = some outcome := by
  refine ⟨sampleBody_valid, rfl, rfl, ?_⟩
  rintro ⟨outcome, h⟩
  exact Option.noConfusion h

/-- C3, as the code has it: for a valid sample, when the lookup settles with a
failure, after whatever delay (the request throws, as on a network error, an
error status or a timeout raised by the transport; the response has no payload;
the payload has no or an empty `display_name`) and the database writes succeed,
`saveLocationUpdate` returns a sample with `address = null` without an error,
that sample is the one row added to the location table, and the presence of the
employee is online at `now`. When the provider never answers, the call never
returns. -/
theorem geocode_failure_keeps_ingest (nominatimApiUrl : String) (afterMs : Nat)
    (geo : HttpResult) (now : Time) (e : String) (d : LocationData) (s : Store)
    (hvalid : validateLocationUpdate d = [])
    (hgeo : geo = .throws ∨ geo = .response none ∨
      geo = .response (some { display_name := none }) ∨
      geo = .response (some { display_name := some "" })) :
    (∃ (location : Location) (s2 : Store),
      saveLocationUpdateCall noFaults nominatimApiUrl (.answers afterMs geo) now e d s =
        some (.ok location, s2) ∧
      location.address = none ∧
      s2.locations = s.locations ++ [location] ∧
      presenceOf s2 e = some { employeeId := e, isOnline := true, lastSeenAt := now }) ∧
    saveLocationUpdateCall noFaults nominatimApiUrl .silent now e d s = none := by
  rw [validateLocationUpdate_nil_iff] at hvalid
  obtain ⟨h1, h2, _, _⟩ := hvalid
  have hgeo2 : reverseGeocode geo = none := by
    rcases hgeo with h | h | h | h <;> subst h <;> rfl
  refine ⟨?_, rfl⟩
  cases hlat : d.latitude with
  | none => rw [hlat] at h1; exact absurd h1 (by simp [isFloat])
  | some lat =>
    cases hlon : d.longitude with
    | none => rw [hlon] at h2; exact absurd h2 (by simp [isFloat])
    | some lon =>
      have hcall : saveLocationUpdateCall noFaults nominatimApiUrl (.answers afterMs geo)
          now e d s = some (saveLocationUpdate noFaults geo now e d s) := rfl
      rw [hcall, saveLocationUpdate_ok noFaults geo now e d s lat lon hlat hlon rfl rfl]
      refine ⟨_, _, rfl, hgeo2, rfl, ?_⟩
      simp [presenceOf, find_upsertPresence_self]

/-- Witness of C3 on the sample of `test-location.js` with a lookup that throws
after 30 seconds. -/
theorem geocode_failure_keeps_ingest_witness :
    (∃ (location : Location) (s2 : Store),
      saveLocationUpdateCall noFaults defaultNominatimApiUrl (.answers 30000 .throws) 1000
        "EMP001" sampleBody sampleStore = some (.ok location, s2) ∧
      location.address = none ∧
      s2.locations = sampleStore.locations ++ [location] ∧
      presenceOf s2 "EMP001" =
        some { employeeId := "EMP001", isOnline := true, lastSeenAt := 1000 }) ∧
    saveLocationUpdateCall noFaults defaultNominatimApiUrl .silent 1000 "EMP001" sampleBody
      sampleStore = none :=
  geocode_failure_keeps_ingest defaultNominatimApiUrl 30000 .throws 1000 "EMP001" sampleBody
    sampleStore sampleBody_valid (Or.inl rfl)

/-! ## Staleness sweep -/

/-- C5: after `markInactiveEmployeesOffline` at `now` (its `updateMany`
succeeding) the presence table has the same records in the same places, each
with its `employeeId` and `lastSeenAt` unchanged; a record is offline afterwards
if and only if it was offline before or it was online with
`now - lastSeenAt > presenceTimeoutMs`; a record that was online inside the
window is left as it was; no other table changes. -/
theorem sweep_marks_exactly_stale (cfg : Config) (now : Time) (s : Store) :
    List.Forall₂
      (fun p q : Presence =>
        q.employeeId = p.employeeId ∧ q.lastSeenAt = p.lastSeenAt ∧
        (q.isOnline = false ↔
          (p.isOnline = false ∨
            (p.isOnline = true ∧ now - p.lastSeenAt > cfg.presenceTimeoutMs))) ∧
        ((p.isOnline = true ∧ now - p.lastSeenAt ≤ cfg.presenceTimeoutMs) → q = p))
      s.presences (markInactiveEmployeesOffline cfg noFaults now s).presences ∧
    (markInactiveEmployeesOffline cfg noFaults now s).locations = s.locations ∧
    (markInactiveEmployeesOffline cfg noFaults now s).devices = s.devices ∧
    (markInactiveEmployeesOffline cfg noFaults now s).employees = s.employees ∧
    (markInactiveEmployeesOffline cfg noFaults now s).managers = s.managers := by
  refine ⟨?_, rfl, rfl, rfl, rfl⟩
  simp only [markInactiveEmployeesOffline, noFaults, Bool.false_eq_true, if_false]
  rw [List.forall₂_map_right_iff, List.forall₂_same]
  intro p _
  by_cases hon : p.isOnline = true
  · by_cases hst : p.lastSeenAt < now - cfg.presenceTimeoutMs
    · have hgt : now - p.lastSeenAt > cfg.presenceTimeoutMs := by linarith
      simp [hon, hst, hgt]
      intro hle
      exact absurd hle (by linarith)
    · have hle : ¬ now - p.lastSeenAt > cfg.presenceTimeoutMs := by
        intro h
        apply hst
        linarith
      simp [hon, hst, hle]
  · have hoff : p.isOnline = false := by simpa using hon
    simp [hoff]

/-! ## Presence on connection -/

theorem countP_map_touch (e e2 : String) (b : Bool) (now : Time) (ps : List Presence) :
    (ps.map (touch e b now)).countP (fun p => p.employeeId == e2) =
      ps.countP (fun p => p.employeeId == e2) := by
  rw [List.countP_map]
  congr 1
  funext p
  simp [Function.comp, touch_employeeId]

theorem countP_upsertPresence_self (e : String) (b : Bool) (now : Time) (ps : List Presence)
    (h : ps.countP (fun p => p.employeeId == e) ≤ 1) :
    (upsertPresence e b now ps).countP (fun p => p.employeeId == e) = 1 := by
  rw [upsertPresence_eq]
  split
  · rename_i hany
    rw [countP_map_touch]
    have hpos : 0 < ps.countP (fun p => p.employeeId == e) := by
      rw [List.countP_pos_iff]
      simpa using hany
    omega
  · rename_i hany
    have hzero : ps.countP (fun p => p.employeeId == e) = 0 := by
      rw [List.countP_eq_zero]
      simpa using hany
    rw [List.countP_append, hzero]
    simp [List.countP_cons]

theorem countP_upsertPresence_other (e e2 : String) (b : Bool) (now : Time)
    (ps : List Presence) (hne : e2 ≠ e) :
    (upsertPresence e b now ps).countP (fun p => p.employeeId == e2) =
      ps.countP (fun p => p.employeeId == e2) := by
  rw [upsertPresence_eq]
  split
  · exact countP_map_touch e e2 b now ps
  · have hne2 : ¬ e = e2 := fun h => hne h.symm
    rw [List.countP_append]
    simp [List.countP_cons, hne2]

theorem authenticateEmployee_admitted (cfg : Config)
    (jwtVerify : String → String → Option Decoded) (s : Store) (socket0 socket : Socket)
    (h : authenticateEmployee cfg jwtVerify s socket0 = (socket, none)) :
    ∃ (device : Device) (employee : Employee),
      socket = { socket0 with deviceId := some device.id, employeeId := some employee.id,
                              employee := some employee } := by
  unfold authenticateEmployee at h
  cases htok : socket0.token with
  | none => simp [htok] at h
  | some token =>
    simp only [htok] at h
    by_cases hempty : token = ""
    · simp [hempty] at h
    · simp only [hempty, if_false] at h
      cases hver : jwtVerify token cfg.jwtSecret with
      | none => simp [hver] at h
      | some decoded =>
        simp only [hver] at h
        by_cases hrole : decoded.role ≠ some "employee"
        · simp [hrole] at h
        · simp only [hrole, if_false] at h
          cases hdev : s.devices.find? (fun d =>
              (match decoded.deviceId with
                | none => true
                | some id => d.id == id) && d.isActive) with
          | none => simp [hdev] at h
          | some device =>
            simp only [hdev] at h
            cases hemp : s.employees.find? (fun e => e.id == device.employeeId) with
            | none => simp [hemp] at h
            | some employee =>
              simp only [hemp] at h
              by_cases hact : employee.isActive = true
              · simp only [hact, Bool.not_true, Bool.false_eq_true, if_false, Prod.mk.injEq,
                  and_true] at h
                exact ⟨device, employee, h.symm⟩
              · simp [hact] at h

/-- C7: for a session admitted by `authenticateEmployee` and a presence table
with at most one record per employee (so the employee's record is absent,
offline or online), `handleEmployeeConnection`, its upsert succeeding, leaves
exactly one presence record of that employee, online with `lastSeenAt = now`,
and appends exactly one emission to the log: a `presenceUpdate` with that
`employeeId` and `isOnline: true`, addressed to the managers group. -/
theorem employee_connection_sets_online (cfg : Config)
    (jwtVerify : String → String → Option Decoded) (now : Time) (w : World)
    (socket0 socket : Socket)
    (hadm : authenticateEmployee cfg jwtVerify w.store socket0 = (socket, none))
    (hkey : ∀ e, presenceCount w.store e ≤ 1) :
    ∃ e employee,
      socket.employeeId = some e ∧ socket.employee = some employee ∧ employee.id = e ∧
      presenceCount (handleEmployeeConnection noFaults now socket w).2.store e = 1 ∧
      presenceOf (handleEmployeeConnection noFaults now socket w).2.store e =
        some { employeeId := e, isOnline := true, lastSeenAt := now } ∧
      (handleEmployeeConnection noFaults now socket w).2.emitted =
        w.emitted ++ [{ target := managersGroup,
                        payload := .presenceUpdate e employee.info true now }] := by
  obtain ⟨device, employee, hs⟩ := authenticateEmployee_admitted _ _ _ _ _ hadm
  refine ⟨employee.id, employee, by rw [hs], by rw [hs], rfl, ?_, ?_, ?_⟩
  · rw [hs]
    simp only [handleEmployeeConnection, updatePresence, noFaults, presenceCount,
      World.setSocket, World.emit]
    exact countP_upsertPresence_self _ _ _ _ (hkey employee.id)
  · rw [hs]
    simp only [handleEmployeeConnection, updatePresence, noFaults, presenceOf,
      World.setSocket, World.emit]
    exact find_upsertPresence_self _ _ _ _
  · rw [hs]
    simp [handleEmployeeConnection, updatePresence, noFaults, World.setSocket, World.emit]

/-- Witness of C7: the sample employee connects to the freshly started server. -/
theorem employee_connection_sets_online_witness :
    ∃ e employee,
      (authenticateEmployee defaultConfig sampleVerify sampleWorld.store
        (Socket.fresh "s1" "/employee" (some "employee-token"))).1.employeeId = some e ∧
      (authenticateEmployee defaultConfig sampleVerify sampleWorld.store
        (Socket.fresh "s1" "/employee" (some "employee-token"))).1.employee = some employee ∧
      employee.id = e ∧
      presenceCount (handleEmployeeConnection noFaults 1000
        (authenticateEmployee defaultConfig sampleVerify sampleWorld.store
          (Socket.fresh "s1" "/employee" (some "employee-token"))).1 sampleWorld).2.store e = 1 ∧
      presenceOf (handleEmployeeConnection noFaults 1000
        (authenticateEmployee defaultConfig sampleVerify sampleWorld.store
          (Socket.fresh "s1" "/employee" (some "employee-token"))).1 sampleWorld).2.store e =
        some { employeeId := e, isOnline := true, lastSeenAt := 1000 } ∧
      (handleEmployeeConnection noFaults 1000
        (authenticateEmployee defaultConfig sampleVerify sampleWorld.store
          (Socket.fresh "s1" "/employee" (some "employee-token"))).1 sampleWorld).2.emitted =
        sampleWorld.emitted ++ [{ target := managersGroup,
                                  payload := .presenceUpdate e employee.info true 1000 }] :=
  employee_connection_sets_online defaultConfig sampleVerify 1000 sampleWorld
    (Socket.fresh "s1" "/employee" (some "employee-token"))
    (authenticateEmployee defaultConfig sampleVerify sampleWorld.store
      (Socket.fresh "s1" "/employee" (some "employee-token"))).1
    (by decide) (by intro e; simp [presenceCount, sampleWorld, sampleStore])

/-! ## Heartbeats -/

theorem presenceUpdates_emit_other (w : World) (target : Target) (payload : Payload)
    (h : payload.isPresenceUpdate = false) :
    presenceUpdates (World.emit w target payload).emitted = presenceUpdates w.emitted := by
  simp [presenceUpdates, World.emit, List.filter_append, List.filter_cons, h]

theorem onHeartbeat_ok (now : Time) (socket : Socket) (w : World) (d e : String)
    (hdev : socket.deviceId = some d) (hemp : socket.employeeId = some e)
    (hex : w.store.devices.any (fun x => x.id == d) = true) :
    onHeartbeat noFaults now socket w =
      World.emit
        { w with store :=
          { w.store with
            devices := w.store.devices.map (fun x =>
              if x.id == d then { x with lastSeenAt := now } else x)
            presences := upsertPresence e true now w.store.presences } }
        (.socket socket.id) (.heartbeatAck now) := by
  simp only [onHeartbeat, deviceUpdate, hdev, hemp, noFaults, hex, updatePresence,
    Bool.false_eq_true, if_false, if_true]

theorem onHeartbeat_devices_any (now : Time) (socket : Socket) (w : World) (d e : String)
    (hdev : socket.deviceId = some d) (hemp : socket.employeeId = some e)
    (hex : w.store.devices.any (fun x => x.id == d) = true) :
    (onHeartbeat noFaults now socket w).store.devices.any (fun x => x.id == d) = true := by
  rw [onHeartbeat_ok now socket w d e hdev hemp hex]
  simp only [World.emit, List.any_map]
  rw [List.any_eq_true] at hex ⊢
  obtain ⟨x, hx, hxd⟩ := hex
  refine ⟨x, hx, ?_⟩
  simp only [Function.comp]
  split <;> simpa using hxd

theorem heartbeats_invariant (socket : Socket) (d e : String)
    (hdev : socket.deviceId = some d) (hemp : socket.employeeId = some e)
    (times : List Time) :
    ∀ w : World, w.store.devices.any (fun x => x.id == d) = true →
      (heartbeats noFaults socket times w).store.devices.any (fun x => x.id == d) = true ∧
      presenceUpdates (heartbeats noFaults socket times w).emitted =
        presenceUpdates w.emitted := by
  induction times with
  | nil => intro w hex; exact ⟨hex, rfl⟩
  | cons t ts ih =>
    intro w hex
    have h1 := onHeartbeat_devices_any t socket w d e hdev hemp hex
    obtain ⟨h2, h3⟩ := ih (onHeartbeat noFaults t socket w) h1
    refine ⟨h2, ?_⟩
    show presenceUpdates (heartbeats noFaults socket ts (onHeartbeat noFaults t socket w)).emitted
      = presenceUpdates w.emitted
    rw [h3, onHeartbeat_ok t socket w d e hdev hemp hex]
    exact presenceUpdates_emit_other _ _ _ rfl

/-- C8: for a session admitted on an existing device, any number of successive
heartbeats (their writes succeeding) adds no `presenceUpdate` to the log of
emissions, hence at most one, and after each of them (the last of any run
`times ++ [t]`) the presence of the employee is online with `lastSeenAt` equal
to the instant of that heartbeat. -/
theorem heartbeats_broadcast_nothing (socket : Socket) (w : World) (d e : String)
    (times : List Time) (t : Time)
    (hdev : socket.deviceId = some d) (hemp : socket.employeeId = some e)
    (hex : w.store.devices.any (fun x => x.id == d) = true) :
    presenceUpdates (heartbeats noFaults socket (times ++ [t]) w).emitted =
      presenceUpdates w.emitted ∧
    (presenceUpdates (heartbeats noFaults socket (times ++ [t]) w).emitted).length ≤
      (presenceUpdates w.emitted).length + 1 ∧
    presenceOf (heartbeats noFaults socket (times ++ [t]) w).store e =
      some { employeeId := e, isOnline := true, lastSeenAt := t } := by
  have hinv := (heartbeats_invariant socket d e hdev hemp (times ++ [t]) w hex).2
  refine ⟨hinv, by rw [hinv]; exact Nat.le_succ _, ?_⟩
  have hpre := (heartbeats_invariant socket d e hdev hemp times w hex).1
  have hsplit : heartbeats noFaults socket (times ++ [t]) w =
      onHeartbeat noFaults t socket (heartbeats noFaults socket times w) := by
    simp [heartbeats, List.foldl_append]
  rw [hsplit, onHeartbeat_ok t socket _ d e hdev hemp hpre]
  simp only [World.emit, presenceOf]
  exact find_upsertPresence_self _ _ _ _

/-- Witness of C8: three heartbeats of the sample employee while online. -/
theorem heartbeats_broadcast_nothing_witness :
    presenceUpdates (heartbeats noFaults sampleSocket ([2000, 3000] ++ [4000])
      onlineWorld).emitted = presenceUpdates onlineWorld.emitted ∧
    (presenceUpdates (heartbeats noFaults sampleSocket ([2000, 3000] ++ [4000])
      onlineWorld).emitted).length ≤ (presenceUpdates onlineWorld.emitted).length + 1 ∧
    presenceOf (heartbeats noFaults sampleSocket ([2000, 3000] ++ [4000]) onlineWorld).store
        "EMP001" =
      some { employeeId := "EMP001", isOnline := true, lastSeenAt := 4000 } :=
  heartbeats_broadcast_nothing sampleSocket onlineWorld "DEV001" "EMP001" [2000, 3000] 4000
    rfl rfl (by decide)

/-! ## Admission of managers -/

theorem find_manager_some_iff (managers : List Manager) (id : String) :
    (∃ m, managers.find? (fun m => m.id == id && m.isActive) = some m) ↔
      ∃ m ∈ managers, m.id = id ∧ m.isActive = true := by
  constructor
  · rintro ⟨m, hm⟩
    have h1 := List.mem_of_find?_eq_some hm
    have h2 := List.find?_some hm
    simp only [Bool.and_eq_true, beq_iff_eq] at h2
    exact ⟨m, h1, h2⟩
  · rintro ⟨m, hm, hid, hact⟩
    cases hf : managers.find? (fun m => m.id == id && m.isActive) with
    | some x => exact ⟨x, rfl⟩
    | none =>
      rw [List.find?_eq_none] at hf
      have := hf m hm
      simp [hid, hact] at this

theorem authenticateManager_cases (cfg : Config)
    (jwtVerify : String → String → Option Decoded) (s : Store) (socket : Socket) :
    (∃ token decoded id manager,
        socket.token = some token ∧ token ≠ "" ∧
        jwtVerify token cfg.jwtSecret = some decoded ∧ decoded.role = some "manager" ∧
        decoded.id = some id ∧
        s.managers.find? (fun m => m.id == id && m.isActive) = some manager ∧
        authenticateManager cfg jwtVerify s socket =
          ({ socket with managerId := some manager.id, manager := some manager }, none)) ∨
    ((¬ ∃ token decoded id manager,
        socket.token = some token ∧ token ≠ "" ∧
        jwtVerify token cfg.jwtSecret = some decoded ∧ decoded.role = some "manager" ∧
        decoded.id = some id ∧
        s.managers.find? (fun m => m.id == id && m.isActive) = some manager) ∧
      ∃ msg, msg ∈ managerAuthErrors ∧
        authenticateManager cfg jwtVerify s socket = (socket, some msg)) := by
  unfold authenticateManager
  cases htok : socket.token with
  | none =>
    right
    exact ⟨by simp, _, by simp [managerAuthErrors], rfl⟩
  | some token =>
    by_cases hempty : token = ""
    · right
      refine ⟨?_, "Authentication error: No token provided", by simp [managerAuthErrors], ?_⟩
      · rintro ⟨t, _, _, _, ht, hne, _⟩
        simp only [Option.some.injEq] at ht
        exact hne (ht ▸ hempty)
      · simp [hempty]
    · cases hver : jwtVerify token cfg.jwtSecret with
      | none =>
        right
        refine ⟨?_, "Authentication error: Invalid token", by simp [managerAuthErrors], ?_⟩
        · rintro ⟨t, _, _, _, ht, _, hv, _⟩
          simp only [Option.some.injEq] at ht
          subst ht
          rw [hver] at hv
          exact Option.noConfusion hv
        · simp [hempty, hver]
      | some decoded =>
        by_cases hrole : decoded.role = some "manager"
        · cases hid : decoded.id with
          | none =>
            right
            refine ⟨?_, "Authentication error: Invalid token",
              by simp [managerAuthErrors], ?_⟩
            · rintro ⟨t, dec, i, _, ht, _, hv, _, hi, _⟩
              simp only [Option.some.injEq] at ht
              subst ht
              rw [hver] at hv
              simp only [Option.some.injEq] at hv
              subst hv
              rw [hid] at hi
              exact Option.noConfusion hi
            · simp [hempty, hrole, hver, hid]
          | some id =>
            cases hfind : s.managers.find? (fun m => m.id == id && m.isActive) with
            | none =>
              right
              refine ⟨?_, "Authentication error: Manager not found",
                by simp [managerAuthErrors], ?_⟩
              · rintro ⟨t, dec, i, m, ht, _, hv, _, hi, hf⟩
                simp only [Option.some.injEq] at ht
                subst ht
                rw [hver] at hv
                simp only [Option.some.injEq] at hv
                subst hv
                rw [hid] at hi
                simp only [Option.some.injEq] at hi
                subst hi
                rw [hfind] at hf
                exact Option.noConfusion hf
              · simp [hempty, hrole, hver, hid, hfind]
            | some manager =>
              left
              refine ⟨token, decoded, id, manager, rfl, hempty, hver, hrole, hid, hfind, ?_⟩
              simp [hempty, hrole, hver, hid, hfind]
        · right
          refine ⟨?_, "Authentication error: Invalid role", by simp [managerAuthErrors], ?_⟩
          · rintro ⟨t, dec, _, _, ht, _, hv, hr, _⟩
            simp only [Option.some.injEq] at ht
            subst ht
            rw [hver] at hv
            simp only [Option.some.injEq] at hv
            subst hv
            exact hrole hr
          · simp [hempty, hrole, hver]

/-- C10: `authenticateManager` calls `next` without an error if and only if a
non-empty token is supplied, `jwt.verify` accepts it under the signing secret,
the decoded role is exactly `manager`, and an active manager with the decoded id
exists. In every other case `next` gets one of the authentication errors and the
socket is left as it was, so `managerId` is not set; a verified token whose role
is `employee` is refused with `Invalid role`; and the namespace then does not
run the connection handler: the server state is unchanged, no socket has joined
the `managers` room. -/
theorem authenticateManager_admits_iff (cfg : Config)
    (jwtVerify : String → String → Option Decoded) (s : Store) (socket : Socket) :
    ((authenticateManager cfg jwtVerify s socket).2 = none ↔
      ∃ token decoded id,
        socket.token = some token ∧ token ≠ "" ∧
        jwtVerify token cfg.jwtSecret = some decoded ∧ decoded.role = some "manager" ∧
        decoded.id = some id ∧ ∃ m ∈ s.managers, m.id = id ∧ m.isActive = true) ∧
    ((authenticateManager cfg jwtVerify s socket).2 ≠ none →
      (∃ msg ∈ managerAuthErrors, (authenticateManager cfg jwtVerify s socket).2 = some msg) ∧
      (authenticateManager cfg jwtVerify s socket).1 = socket ∧
      (authenticateManager cfg jwtVerify s socket).1.managerId = socket.managerId) ∧
    (∀ token decoded,
      socket.token = some token → token ≠ "" →
      jwtVerify token cfg.jwtSecret = some decoded → decoded.role = some "employee" →
      authenticateManager cfg jwtVerify s socket =
        (socket, some "Authentication error: Invalid role")) ∧
    (∀ (w : World) (socketId : String) (token : Option String) (f : Faults) (now : Time),
      (authenticateManager cfg jwtVerify w.store (Socket.fresh socketId "/manager" token)).2
          ≠ none →
      handle cfg jwtVerify f now (.managerConnect socketId token) w = w) := by
  refine ⟨?_, ?_, ?_, ?_⟩
  · rcases authenticateManager_cases cfg jwtVerify s socket with
      ⟨token, decoded, id, manager, h1, h2, h3, h4, h5, h6, h7⟩ | ⟨hnot, msg, _, hrej⟩
    · rw [h7]
      refine ⟨fun _ => ⟨token, decoded, id, h1, h2, h3, h4, h5, ?_⟩, fun _ => rfl⟩
      exact (find_manager_some_iff s.managers id).mp ⟨manager, h6⟩
    · rw [hrej]
      refine ⟨fun h => absurd h (by simp), ?_⟩
      rintro ⟨token, decoded, id, h1, h2, h3, h4, h5, hm⟩
      obtain ⟨manager, h6⟩ := (find_manager_some_iff s.managers id).mpr hm
      exact absurd ⟨token, decoded, id, manager, h1, h2, h3, h4, h5, h6⟩ hnot
  · intro hne
    rcases authenticateManager_cases cfg jwtVerify s socket with
      ⟨_, _, _, _, _, _, _, _, _, _, h7⟩ | ⟨_, msg, hmsg, hrej⟩
    · rw [h7] at hne
      exact absurd rfl hne
    · rw [hrej]
      exact ⟨⟨msg, hmsg, rfl⟩, rfl, rfl⟩
  · intro token decoded htok hne hver hrole
    have hrole2 : decoded.role ≠ some "manager" := by
      rw [hrole]
      decide
    simp [authenticateManager, htok, hne, hver, hrole2]
  · intro w socketId token f now hne
    rcases authenticateManager_cases cfg jwtVerify w.store
        (Socket.fresh socketId "/manager" token) with
      ⟨_, _, _, _, _, _, _, _, _, _, h7⟩ | ⟨_, msg, _, hrej⟩
    · rw [h7] at hne
      exact absurd rfl hne
    · simp only [handle, hrej]

/-- Witness of C10: the token of an employee is refused on the manager namespace. -/
theorem authenticateManager_admits_iff_witness :
    authenticateManager defaultConfig sampleVerify sampleStore
        (Socket.fresh "m1" "/manager" (some "employee-token")) =
      (Socket.fresh "m1" "/manager" (some "employee-token"),
        some "Authentication error: Invalid role") :=
  (authenticateManager_admits_iff defaultConfig sampleVerify sampleStore
    (Socket.fresh "m1" "/manager" (some "employee-token"))).2.2.1
    "employee-token" { id := some "EMP001", role := some "employee", deviceId := some "DEV001" }
    rfl (by decide) (by decide) rfl

/-! ## Offline transitions and their broadcasts -/

/-- Counterexample to C6: a sweep at 200000 turns the sample employee, online
and last seen at 1000, offline, and emits nothing. -/
theorem sweep_broadcasts_nothing_counterexample :
    presenceOf onlineWorld.store "EMP001" =
      some { employeeId := "EMP001", isOnline := true, lastSeenAt := 1000 } ∧
    presenceOf (step defaultConfig sampleVerify onlineWorld
        { time := 200000, faults := noFaults, input := .sweep }).store "EMP001" =
      some { employeeId := "EMP001", isOnline := false, lastSeenAt := 1000 } ∧
    (step defaultConfig sampleVerify onlineWorld
        { time := 200000, faults := noFaults, input := .sweep }).emitted = [] := by
  decide

/-- Counterexample to C4: the employee reconnects 1000 ms after the disconnect,
well inside the timeout of 120000 ms, and sends a heartbeat; when the timeout has
elapsed the timer armed by the disconnect still writes the presence offline and
broadcasts `presenceUpdate` with `isOnline: false` to the managers group, while
the second session is still connected. -/
theorem reconnect_still_goes_offline_counterexample :
    (run defaultConfig sampleVerify sampleWorld reconnectTrace).emitted =
      [{ target := managersGroup,
         payload := .presenceUpdate "EMP001" sampleEmployee.info true 0 },
       { target := managersGroup,
         payload := .presenceUpdate "EMP001" sampleEmployee.info true 2000 },
       { target := .socket "s2", payload := .heartbeatAck 3000 },
       { target := managersGroup,
         payload := .presenceUpdate "EMP001" sampleEmployee.info false 121000 }] ∧
    presenceOf (run defaultConfig sampleVerify sampleWorld reconnectTrace).store "EMP001" =
      some { employeeId := "EMP001", isOnline := false, lastSeenAt := 121000 } ∧
    ((run defaultConfig sampleVerify sampleWorld reconnectTrace).sockets.map
      (fun x => x.id)) = ["s2"] := by
  decide

/-! ### Timers are never cancelled -/

theorem disconnectTimeout_timers (f : Faults) (now : Time) (socket : Socket) (w : World) :
    (disconnectTimeout f now socket w).timers = w.timers ∧
    (disconnectTimeout f now socket w).sockets = w.sockets := by
  unfold disconnectTimeout
  cases socket.employeeId with
  | none => exact ⟨rfl, rfl⟩
  | some e =>
    cases hf : f.presenceUpsert <;> cases socket.employee <;>
      simp [updatePresence, World.emit, hf]

theorem disconnectTimeout_emitted (f : Faults) (now : Time) (socket : Socket) (w : World) :
    w.emitted <+: (disconnectTimeout f now socket w).emitted := by
  unfold disconnectTimeout
  cases socket.employeeId with
  | none => exact List.prefix_refl _
  | some e =>
    cases hf : f.presenceUpsert <;> cases socket.employee <;>
      simp [updatePresence, World.emit, hf]

theorem foldl_disconnectTimeout_frame (f : Faults) (l : List Timer) :
    ∀ w : World,
      (l.foldl (fun acc t => disconnectTimeout f t.fireAt t.socket acc) w).timers = w.timers ∧
      (l.foldl (fun acc t => disconnectTimeout f t.fireAt t.socket acc) w).sockets = w.sockets ∧
      w.emitted <+: (l.foldl (fun acc t => disconnectTimeout f t.fireAt t.socket acc) w).emitted := by
  induction l with
  | nil => intro w; exact ⟨rfl, rfl, List.prefix_refl _⟩
  | cons t ts ih =>
    intro w
    obtain ⟨h1, h2, h3⟩ := ih (disconnectTimeout f t.fireAt t.socket w)
    obtain ⟨g1, g2⟩ := disconnectTimeout_timers f t.fireAt t.socket w
    have g3 := disconnectTimeout_emitted f t.fireAt t.socket w
    exact ⟨h1.trans g1, h2.trans g2, g3.trans h3⟩

theorem fireTimers_frame (f : Faults) (now : Time) (w : World) :
    (fireTimers f now w).timers = w.timers.filter (fun t => !decide (t.fireAt ≤ now)) ∧
    (fireTimers f now w).sockets = w.sockets ∧
    w.emitted <+: (fireTimers f now w).emitted := by
  obtain ⟨h1, h2, h3⟩ := foldl_disconnectTimeout_frame f
    (w.timers.filter (fun t => decide (t.fireAt ≤ now)))
    { w with timers := w.timers.filter (fun t => !decide (t.fireAt ≤ now)) }
  exact ⟨h1, h2, h3⟩

theorem disconnectTimeout_keeps_offline (f : Faults) (now : Time) (socket : Socket)
    (w : World) (e : String) (h : IsOffline w.store e) :
    IsOffline (disconnectTimeout f now socket w).store e := by
  unfold disconnectTimeout
  cases socket.employeeId with
  | none => exact h
  | some e2 =>
    cases hf : f.presenceUpsert with
    | true => simpa [updatePresence, hf] using h
    | false =>
      have hstore : IsOffline
          { w.store with presences := upsertPresence e2 false now w.store.presences } e := by
        by_cases he : e = e2
        · subst he
          exact ⟨_, find_upsertPresence_self _ _ _ _, rfl⟩
        · obtain ⟨p, hp, hoff⟩ := h
          refine ⟨p, ?_, hoff⟩
          simp only [presenceOf] at hp ⊢
          rw [find_upsertPresence_other e2 e false now _ he]
          exact hp
      cases socket.employee <;> simpa [updatePresence, hf, World.emit] using hstore

theorem foldl_disconnectTimeout_keeps_offline (f : Faults) (e : String) (l : List Timer) :
    ∀ w : World, IsOffline w.store e →
      IsOffline (l.foldl (fun acc t => disconnectTimeout f t.fireAt t.socket acc) w).store e := by
  induction l with
  | nil => intro w h; exact h
  | cons t ts ih =>
    intro w h
    exact ih _ (disconnectTimeout_keeps_offline f t.fireAt t.socket w e h)

theorem disconnectTimeout_fires (f : Faults) (now : Time) (socket : Socket) (w : World)
    (e : String) (employee : Employee) (hok : f.presenceUpsert = false)
    (he : socket.employeeId = some e) (hemp : socket.employee = some employee) :
    (disconnectTimeout f now socket w).emitted =
      w.emitted ++ [{ target := managersGroup,
                      payload := .presenceUpdate e employee.info false now }] ∧
    presenceOf (disconnectTimeout f now socket w).store e =
      some { employeeId := e, isOnline := false, lastSeenAt := now } := by
  simp only [disconnectTimeout, he, hemp, updatePresence, hok, World.emit, presenceOf,
    Bool.false_eq_true, if_false, true_and]
  exact find_upsertPresence_self _ _ _ _

theorem fireTimers_fires (f : Faults) (now : Time) (w : World) (tm : Timer) (e : String)
    (employee : Employee) (hok : f.presenceUpsert = false)
    (hmem : tm ∈ w.timers) (hdue : tm.fireAt ≤ now)
    (he : tm.socket.employeeId = some e) (hemp : tm.socket.employee = some employee) :
    { target := managersGroup, payload := .presenceUpdate e employee.info false tm.fireAt }
      ∈ (fireTimers f now w).emitted ∧
    IsOffline (fireTimers f now w).store e := by
  have hin : tm ∈ w.timers.filter (fun t => decide (t.fireAt ≤ now)) := by
    rw [List.mem_filter]
    exact ⟨hmem, by simpa using hdue⟩
  obtain ⟨l1, l2, hsplit⟩ := List.append_of_mem hin
  unfold fireTimers
  rw [hsplit, List.foldl_append, List.foldl_cons]
  generalize List.foldl (fun acc t => disconnectTimeout f t.fireAt t.socket acc)
    { w with timers := w.timers.filter (fun t => !decide (t.fireAt ≤ now)) } l1 = acc
  obtain ⟨h1, h2⟩ := disconnectTimeout_fires f tm.fireAt tm.socket acc e employee hok he hemp
  obtain ⟨_, _, h3⟩ := foldl_disconnectTimeout_frame f l2
    (disconnectTimeout f tm.fireAt tm.socket acc)
  refine ⟨?_, ?_⟩
  · apply h3.subset
    rw [h1]
    simp
  · exact foldl_disconnectTimeout_keeps_offline f e l2 _ ⟨_, h2, rfl⟩

theorem handleManagerConnection_frame (socket : Socket) (w : World) :
    (socket.manager ≠ none → (handleManagerConnection socket w).2.timers = w.timers) ∧
    w.emitted <+: (handleManagerConnection socket w).2.emitted := by
  unfold handleManagerConnection
  cases socket.manager <;> simp [World.emit, World.setSocket, processExit]

theorem handleEmployeeConnection_frame (f : Faults) (now : Time) (socket : Socket) (w : World) :
    (f.presenceUpsert = false → socket.employeeId ≠ none → socket.employee ≠ none →
      (handleEmployeeConnection f now socket w).2.timers = w.timers) ∧
    w.emitted <+: (handleEmployeeConnection f now socket w).2.emitted := by
  unfold handleEmployeeConnection
  cases socket.employeeId <;> cases socket.employee <;> cases hf : f.presenceUpsert <;>
    simp [updatePresence, World.emit, World.setSocket, processExit, hf]

theorem onHeartbeat_frame (f : Faults) (now : Time) (socket : Socket) (w : World) :
    (onHeartbeat f now socket w).timers = w.timers ∧
    w.emitted <+: (onHeartbeat f now socket w).emitted := by
  unfold onHeartbeat deviceUpdate
  cases socket.deviceId with
  | none => simp
  | some d =>
    cases hf : f.deviceUpdate with
    | true => simp
    | false =>
      cases hany : w.store.devices.any (fun x => x.id == d) with
      | false => simp [hany]
      | true =>
        cases socket.employeeId with
        | none => simp [hany]
        | some e =>
          cases hf2 : f.presenceUpsert <;> simp [hany, updatePresence, hf2, World.emit]

theorem postLocation_frame (f : Faults) (geo : HttpResult) (now : Time)
    (req : LocationRequest) (w : World) :
    (postLocation f geo now req w).2.timers = w.timers ∧
    w.emitted <+: (postLocation f geo now req w).2.emitted := by
  unfold postLocation
  by_cases herr : validateLocationUpdate req.body ≠ []
  · simp [herr]
  · simp only [herr, if_false]
    rcases hsave : saveLocationUpdate f geo now req.employee.id req.body w.store with ⟨r, s1⟩
    cases r <;> simp [World.emit]

theorem onDisconnect_frame (cfg : Config) (now : Time) (socket : Socket) (w : World) :
    (∀ tm ∈ w.timers, tm ∈ (onDisconnect cfg now socket w).timers) ∧
    (onDisconnect cfg now socket w).emitted = w.emitted ∧
    (onDisconnect cfg now socket w).store = w.store := by
  unfold onDisconnect
  cases socket.employee with
  | none => exact ⟨fun _ h => h, rfl, rfl⟩
  | some _ => exact ⟨fun _ h => List.mem_append_left _ h, rfl, rfl⟩

/-- What handling one input leaves in place: the log of emissions is only
extended; the pending timers all stay, unless the input is a connection of an
employee whose presence write fails (then the process exits). -/
theorem handle_frame (cfg : Config) (jwtVerify : String → String → Option Decoded)
    (f : Faults) (now : Time) (input : Input) (w : World) :
    ((∀ socketId token, input = .employeeConnect socketId token → f.presenceUpsert = false) →
      ∀ tm ∈ w.timers, tm ∈ (handle cfg jwtVerify f now input w).timers) ∧
    w.emitted <+: (handle cfg jwtVerify f now input w).emitted := by
  cases input with
  | managerConnect socketId token =>
    simp only [handle]
    rcases authenticateManager_cases cfg jwtVerify w.store
      (Socket.fresh socketId "/manager" token) with
      ⟨_, _, _, manager, _, _, _, _, _, _, hauth⟩ | ⟨_, msg, _, hauth⟩
    · rw [hauth]
      obtain ⟨h1, h2⟩ := handleManagerConnection_frame
        { Socket.fresh socketId "/manager" token with
          managerId := some manager.id, manager := some manager }
        (w.setSocket { Socket.fresh socketId "/manager" token with
          managerId := some manager.id, manager := some manager })
      exact ⟨fun _ tm h => by rw [h1 (by simp)]; exact h, h2⟩
    · rw [hauth]
      exact ⟨fun _ _ h => h, List.prefix_refl _⟩
  | employeeConnect socketId token =>
    simp only [handle]
    rcases hauth : authenticateEmployee cfg jwtVerify w.store
      (Socket.fresh socketId "/employee" token) with ⟨socket, err⟩
    cases err with
    | some _ => exact ⟨fun _ _ h => h, List.prefix_refl _⟩
    | none =>
      obtain ⟨device, employee, hsock⟩ := authenticateEmployee_admitted cfg jwtVerify w.store
        _ socket hauth
      obtain ⟨h1, h2⟩ := handleEmployeeConnection_frame f now socket (w.setSocket socket)
      refine ⟨fun hok tm h => ?_, h2⟩
      rw [h1 (hok socketId token rfl) (by rw [hsock]; simp) (by rw [hsock]; simp)]
      exact h
  | heartbeat socketId =>
    simp only [handle]
    cases w.sockets.find? (fun x => x.id == socketId) with
    | none => exact ⟨fun _ _ h => h, List.prefix_refl _⟩
    | some socket =>
      by_cases hh : socket.handlers.contains "heartbeat" = true
      · obtain ⟨h1, h2⟩ := onHeartbeat_frame f now socket w
        simp only [hh, if_true]
        exact ⟨fun _ tm h => by rw [h1]; exact h, h2⟩
      · simp only [hh]
        exact ⟨fun _ _ h => h, List.prefix_refl _⟩
  | disconnect socketId =>
    simp only [handle]
    cases w.sockets.find? (fun x => x.id == socketId) with
    | none => exact ⟨fun _ _ h => h, List.prefix_refl _⟩
    | some socket =>
      by_cases hh : (socket.nsp == "/employee" && socket.handlers.contains "disconnect") = true
      · obtain ⟨h1, h2, _⟩ := onDisconnect_frame cfg now socket (w.dropSocket socketId)
        simp only [hh, if_true]
        exact ⟨fun _ tm h => h1 tm h, by rw [h2]; exact List.prefix_refl _⟩
      · simp only [hh]
        exact ⟨fun _ _ h => h, List.prefix_refl _⟩
  | postLocation req geo =>
    obtain ⟨h1, h2⟩ := postLocation_frame f geo now req w
    exact ⟨fun _ tm h => by simp only [handle]; rw [h1]; exact h, h2⟩
  | sweep => exact ⟨fun _ _ h => h, List.prefix_refl _⟩
  | idle => exact ⟨fun _ _ h => h, List.prefix_refl _⟩

theorem step_keeps_timer (cfg : Config) (jwtVerify : String → String → Option Decoded)
    (w : World) (ev : Event) (tm : Timer) (hmem : tm ∈ w.timers)
    (hearly : ev.time < tm.fireAt)
    (hconn : ∀ socketId token, ev.input = .employeeConnect socketId token →
      ev.faults.presenceUpsert = false) :
    tm ∈ (step cfg jwtVerify w ev).timers := by
  unfold step
  apply (handle_frame cfg jwtVerify ev.faults ev.time ev.input _).1 hconn
  rw [(fireTimers_frame ev.faults ev.time w).1, List.mem_filter]
  exact ⟨hmem, by simpa using hearly⟩

theorem run_keeps_timer (cfg : Config) (jwtVerify : String → String → Option Decoded)
    (tm : Timer) (trace : List Event) :
    ∀ w : World, tm ∈ w.timers → (∀ ev ∈ trace, ev.time < tm.fireAt) →
      (∀ ev ∈ trace, ∀ socketId token, ev.input = .employeeConnect socketId token →
        ev.faults.presenceUpsert = false) →
      tm ∈ (run cfg jwtVerify w trace).timers := by
  induction trace with
  | nil => intro w h _ _; exact h
  | cons ev rest ih =>
    intro w h hall hconn
    have h1 := step_keeps_timer cfg jwtVerify w ev tm h (hall ev (List.mem_cons_self _ _))
      (hconn ev (List.mem_cons_self _ _))
    exact ih (step cfg jwtVerify w ev) h1 (fun e he => hall e (List.mem_cons_of_mem _ he))
      (fun e he => hconn e (List.mem_cons_of_mem _ he))

theorem step_disconnect (cfg : Config) (jwtVerify : String → String → Option Decoded)
    (w : World) (f : Faults) (t : Time) (socketId : String) (socket : Socket)
    (employee : Employee)
    (hfind : w.sockets.find? (fun x => x.id == socketId) = some socket)
    (hnsp : socket.nsp = "/employee")
    (hh : socket.handlers.contains "disconnect" = true)
    (hemp : socket.employee = some employee) :
    (step cfg jwtVerify w { time := t, faults := f, input := .disconnect socketId }).timers =
      (fireTimers f t w).timers ++ [{ fireAt := t + cfg.presenceTimeoutMs, socket := socket }] ∧
    (step cfg jwtVerify w { time := t, faults := f, input := .disconnect socketId }).store =
      (fireTimers f t w).store ∧
    (step cfg jwtVerify w { time := t, faults := f, input := .disconnect socketId }).emitted =
      (fireTimers f t w).emitted := by
  have hs := (fireTimers_frame f t w).2.1
  simp only [step, handle, hs, hfind, hnsp, hh, onDisconnect, hemp, World.dropSocket,
    beq_self_eq_true, Bool.and_self, if_true, and_self]

theorem disconnect_then_fire (cfg : Config) (jwtVerify : String → String → Option Decoded)
    (w : World) (f : Faults) (t : Time) (socketId : String) (socket : Socket) (e : String)
    (employee : Employee) (mid : List Event) (last : Event)
    (hfind : w.sockets.find? (fun x => x.id == socketId) = some socket)
    (hnsp : socket.nsp = "/employee")
    (hh : socket.handlers.contains "disconnect" = true)
    (he : socket.employeeId = some e) (hemp : socket.employee = some employee)
    (hmid : ∀ ev ∈ mid, ev.time < t + cfg.presenceTimeoutMs)
    (hconn : ∀ ev ∈ mid, ∀ id token, ev.input = .employeeConnect id token →
      ev.faults.presenceUpsert = false)
    (hlast : t + cfg.presenceTimeoutMs ≤ last.time)
    (hok : last.faults.presenceUpsert = false) :
    { fireAt := t + cfg.presenceTimeoutMs, socket := socket } ∈
      (run cfg jwtVerify w
        ({ time := t, faults := f, input := .disconnect socketId } :: mid)).timers ∧
    { target := managersGroup,
      payload := .presenceUpdate e employee.info false (t + cfg.presenceTimeoutMs) } ∈
      (run cfg jwtVerify w
        ({ time := t, faults := f, input := .disconnect socketId } :: mid ++ [last])).emitted ∧
    IsOffline (fireTimers last.faults last.time
      (run cfg jwtVerify w
        ({ time := t, faults := f, input := .disconnect socketId } :: mid))).store e := by
  obtain ⟨h1, _, _⟩ := step_disconnect cfg jwtVerify w f t socketId socket employee
    hfind hnsp hh hemp
  have hmem1 : ({ fireAt := t + cfg.presenceTimeoutMs, socket := socket } : Timer) ∈
      (step cfg jwtVerify w { time := t, faults := f, input := .disconnect socketId }).timers := by
    rw [h1]
    simp
  have hmem2 := run_keeps_timer cfg jwtVerify _ mid _ hmem1 hmid hconn
  have hrun : run cfg jwtVerify w
      ({ time := t, faults := f, input := .disconnect socketId } :: mid) =
      run cfg jwtVerify
        (step cfg jwtVerify w { time := t, faults := f, input := .disconnect socketId }) mid := rfl
  have hfire := fireTimers_fires last.faults last.time _ _ e employee hok hmem2 hlast he hemp
  refine ⟨by rw [hrun]; exact hmem2, ?_, by rw [hrun]; exact hfire.2⟩
  have hrun2 : run cfg jwtVerify w
      ({ time := t, faults := f, input := .disconnect socketId } :: mid ++ [last]) =
      step cfg jwtVerify (run cfg jwtVerify
        (step cfg jwtVerify w { time := t, faults := f, input := .disconnect socketId }) mid)
        last := by
    simp [run, List.foldl_append]
  rw [hrun2]
  unfold step
  exact (handle_frame cfg jwtVerify last.faults last.time last.input _).2.subset hfire.1

/-- C4, as the code has it: the timer armed by the disconnect handler is never
cancelled. The handler itself writes nothing to the store and emits nothing;
whatever the server handles before `presenceTimeoutMs` has elapsed since the
disconnect (a reconnection, heartbeats or location submissions of the same
employee included) leaves the timer pending, as long as the process lives, that
is, as long as no connection of an employee handled in between has its presence
write fail; and at the first event handled at or after the disconnect instant
plus `presenceTimeoutMs`, the presence write succeeding, the callback writes the
presence of the employee offline and emits `presenceUpdate` with
`isOnline: false` to the managers group. -/
theorem disconnect_timer_fires_regardless (cfg : Config)
    (jwtVerify : String → String → Option Decoded)
    (w : World) (f : Faults) (t : Time) (socketId : String) (socket : Socket) (e : String)
    (employee : Employee) (mid : List Event) (last : Event)
    (hfind : w.sockets.find? (fun x => x.id == socketId) = some socket)
    (hnsp : socket.nsp = "/employee")
    (hh : socket.handlers.contains "disconnect" = true)
    (he : socket.employeeId = some e) (hemp : socket.employee = some employee)
    (hmid : ∀ ev ∈ mid, ev.time < t + cfg.presenceTimeoutMs)
    (hconn : ∀ ev ∈ mid, ∀ id token, ev.input = .employeeConnect id token →
      ev.faults.presenceUpsert = false)
    (hlast : t + cfg.presenceTimeoutMs ≤ last.time)
    (hok : last.faults.presenceUpsert = false) :
    (step cfg jwtVerify w { time := t, faults := f, input := .disconnect socketId }).store =
      (fireTimers f t w).store ∧
    (step cfg jwtVerify w { time := t, faults := f, input := .disconnect socketId }).emitted =
      (fireTimers f t w).emitted ∧
    { fireAt := t + cfg.presenceTimeoutMs, socket := socket } ∈
      (run cfg jwtVerify w
        ({ time := t, faults := f, input := .disconnect socketId } :: mid)).timers ∧
    { target := managersGroup,
      payload := .presenceUpdate e employee.info false (t + cfg.presenceTimeoutMs) } ∈
      (run cfg jwtVerify w
        ({ time := t, faults := f, input := .disconnect socketId } :: mid ++ [last])).emitted ∧
    IsOffline (fireTimers last.faults last.time
      (run cfg jwtVerify w
        ({ time := t, faults := f, input := .disconnect socketId } :: mid))).store e := by
  obtain ⟨_, h2, h3⟩ := step_disconnect cfg jwtVerify w f t socketId socket employee
    hfind hnsp hh hemp
  exact ⟨h2, h3, disconnect_then_fire cfg jwtVerify w f t socketId socket e employee mid last
    hfind hnsp hh he hemp hmid hconn hlast hok⟩

/-- Witness of the amended C4: the sample employee disconnects at 2000,
reconnects at 3000 and sends a heartbeat at 4000; the server is next active at
130000. -/
theorem disconnect_timer_fires_regardless_witness :
    (step defaultConfig sampleVerify onlineWorld
      { time := 2000, faults := noFaults, input := .disconnect "s1" }).store =
      (fireTimers noFaults 2000 onlineWorld).store ∧
    (step defaultConfig sampleVerify onlineWorld
      { time := 2000, faults := noFaults, input := .disconnect "s1" }).emitted =
      (fireTimers noFaults 2000 onlineWorld).emitted ∧
    { fireAt := 2000 + defaultConfig.presenceTimeoutMs, socket := sampleSocket } ∈
      (run defaultConfig sampleVerify onlineWorld
        ({ time := 2000, faults := noFaults, input := .disconnect "s1" } ::
          [{ time := 3000, faults := noFaults,
             input := .employeeConnect "s2" (some "employee-token") },
           { time := 4000, faults := noFaults, input := .heartbeat "s2" }])).timers ∧
    { target := managersGroup,
      payload := .presenceUpdate "EMP001" sampleEmployee.info false
        (2000 + defaultConfig.presenceTimeoutMs) } ∈
      (run defaultConfig sampleVerify onlineWorld
        ({ time := 2000, faults := noFaults, input := .disconnect "s1" } ::
          [{ time := 3000, faults := noFaults,
             input := .employeeConnect "s2" (some "employee-token") },
           { time := 4000, faults := noFaults, input := .heartbeat "s2" }] ++
          [{ time := 130000, faults := noFaults, input := .idle }])).emitted ∧
    IsOffline (fireTimers noFaults 130000
      (run defaultConfig sampleVerify onlineWorld
        ({ time := 2000, faults := noFaults, input := .disconnect "s1" } ::
          [{ time := 3000, faults := noFaults,
             input := .employeeConnect "s2" (some "employee-token") },
           { time := 4000, faults := noFaults, input := .heartbeat "s2" }]))).store "EMP001" :=
  disconnect_timer_fires_regardless defaultConfig sampleVerify onlineWorld noFaults 2000 "s1"
    sampleSocket "EMP001" sampleEmployee
    [{ time := 3000, faults := noFaults, input := .employeeConnect "s2" (some "employee-token") },
     { time := 4000, faults := noFaults, input := .heartbeat "s2" }]
    { time := 130000, faults := noFaults, input := .idle }
    (by decide) rfl (by decide) rfl rfl (by decide)
    (by
      intro ev hev _ _ _
      simp only [List.mem_cons, List.mem_singleton, List.not_mem_nil, or_false] at hev
      rcases hev with h | h <;> subst h <;> rfl)
    (by decide) rfl

/-- Why the connections handled in between must not fail: a reconnection at
3000 whose presence write fails is an unhandled rejection, the process exits and
the timer armed at 2000 goes with it; when the timeout has elapsed nothing is
written and nothing is emitted, and the presence stays online as of 1000. -/
theorem failed_reconnect_ends_process :
    (run defaultConfig sampleVerify onlineWorld
      [{ time := 2000, faults := noFaults, input := .disconnect "s1" },
       { time := 3000, faults := { noFaults with presenceUpsert := true },
         input := .employeeConnect "s2" (some "employee-token") }]).timers = [] ∧
    (run defaultConfig sampleVerify onlineWorld
      [{ time := 2000, faults := noFaults, input := .disconnect "s1" },
       { time := 3000, faults := { noFaults with presenceUpsert := true },
         input := .employeeConnect "s2" (some "employee-token") }]).sockets = [] ∧
    (run defaultConfig sampleVerify onlineWorld
      [{ time := 2000, faults := noFaults, input := .disconnect "s1" },
       { time := 3000, faults := { noFaults with presenceUpsert := true },
         input := .employeeConnect "s2" (some "employee-token") },
       { time := 130000, faults := noFaults, input := .idle }]).emitted = [] ∧
    presenceOf (run defaultConfig sampleVerify onlineWorld
      [{ time := 2000, faults := noFaults, input := .disconnect "s1" },
       { time := 3000, faults := { noFaults with presenceUpsert := true },
         input := .employeeConnect "s2" (some "employee-token") },
       { time := 130000, faults := noFaults, input := .idle }]).store "EMP001" =
      some { employeeId := "EMP001", isOnline := true, lastSeenAt := 1000 } := by
  decide

/-- C6, as the code has it: a sweep pass changes the presence table only and
emits nothing. The `presenceUpdate` with `isOnline: false` for an employee who
disconnects and stays silent comes from the disconnect timer: at the first event
the server handles once `presenceTimeoutMs` has elapsed since the disconnect,
the presence write succeeding, a `presenceUpdate` with the `employeeId` and
`isOnline: false` is emitted to the managers group. -/
theorem sweep_is_silent_timer_broadcasts (cfg : Config)
    (jwtVerify : String → String → Option Decoded)
    (w : World) (f : Faults) (t : Time) (socketId : String) (socket : Socket) (e : String)
    (employee : Employee) (last : Event) (now : Time)
    (hfind : w.sockets.find? (fun x => x.id == socketId) = some socket)
    (hnsp : socket.nsp = "/employee")
    (hh : socket.handlers.contains "disconnect" = true)
    (he : socket.employeeId = some e) (hemp : socket.employee = some employee)
    (hlast : t + cfg.presenceTimeoutMs ≤ last.time)
    (hok : last.faults.presenceUpsert = false) :
    (handle cfg jwtVerify f now .sweep w).emitted = w.emitted ∧
    (handle cfg jwtVerify f now .sweep w).store = markInactiveEmployeesOffline cfg f now w.store ∧
    (step cfg jwtVerify w { time := now, faults := f, input := .sweep }).emitted =
      (fireTimers f now w).emitted ∧
    { target := managersGroup,
      payload := .presenceUpdate e employee.info false (t + cfg.presenceTimeoutMs) } ∈
      (run cfg jwtVerify w
        [{ time := t, faults := f, input := .disconnect socketId }, last]).emitted := by
  refine ⟨rfl, rfl, rfl, ?_⟩
  exact (disconnect_then_fire cfg jwtVerify w f t socketId socket e employee [] last
      hfind hnsp hh he hemp (fun _ h => absurd h (List.not_mem_nil _))
      (fun _ h => absurd h (List.not_mem_nil _)) hlast hok).2.1

/-- Witness of the amended C6: the sample employee disconnects at 2000 and the
server is next active at 130000. -/
theorem sweep_is_silent_timer_broadcasts_witness :
    (handle defaultConfig sampleVerify noFaults 200000 .sweep onlineWorld).emitted =
      onlineWorld.emitted ∧
    (handle defaultConfig sampleVerify noFaults 200000 .sweep onlineWorld).store =
      markInactiveEmployeesOffline defaultConfig noFaults 200000 onlineWorld.store ∧
    (step defaultConfig sampleVerify onlineWorld
      { time := 200000, faults := noFaults, input := .sweep }).emitted =
      (fireTimers noFaults 200000 onlineWorld).emitted ∧
    { target := managersGroup,
      payload := .presenceUpdate "EMP001" sampleEmployee.info false
        (2000 + defaultConfig.presenceTimeoutMs) } ∈
      (run defaultConfig sampleVerify onlineWorld
        [{ time := 2000, faults := noFaults, input := .disconnect "s1" },
         { time := 130000, faults := noFaults, input := .idle }]).emitted :=
  sweep_is_silent_timer_broadcasts defaultConfig sampleVerify onlineWorld noFaults 2000 "s1"
    sampleSocket "EMP001" sampleEmployee { time := 130000, faults := noFaults, input := .idle }
    200000 (by decide) rfl (by decide) rfl rfl (by decide) rfl

/-! ## Heartbeat and ingest of an offline employee -/

theorem valid_has_coordinates (d : LocationData) (h : validateLocationUpdate d = []) :
    ∃ lat lon, d.latitude = some lat ∧ d.longitude = some lon := by
  rw [validateLocationUpdate_nil_iff] at h
  obtain ⟨h1, h2, _, _⟩ := h
  cases hlat : d.latitude with
  | none => rw [hlat] at h1; exact absurd h1 (by simp [isFloat])
  | some lat =>
    cases hlon : d.longitude with
    | none => rw [hlon] at h2; exact absurd h2 (by simp [isFloat])
    | some lon => exact ⟨lat, lon, rfl, rfl⟩

theorem postLocation_ok (geo : HttpResult) (now : Time) (req : LocationRequest) (w : World)
    (h : validateLocationUpdate req.body = []) :
    (postLocation noFaults geo now req w).2.store.presences =
      upsertPresence req.employee.id true now w.store.presences ∧
    (postLocation noFaults geo now req w).2.emitted =
      w.emitted ++ [{ target := .room "/" "managers",
                      payload := .locationUpdate req.employee.id req.employee.info
                        req.body.latitude req.body.longitude req.body.accuracy
                        req.body.battery (reverseGeocode geo) (req.body.timestamp.getD now) }] := by
  obtain ⟨lat, lon, hlat, hlon⟩ := valid_has_coordinates req.body h
  simp only [postLocation, h]
  rw [saveLocationUpdate_ok noFaults geo now _ _ _ lat lon hlat hlon rfl rfl]
  simp [World.emit, updateDeviceLastSeen, noFaults]

/-- Counterexample to C9: the sample employee is recorded offline; a heartbeat
sets the presence online and emits only the acknowledgement to the sender, and a
location submission sets the presence online and emits only a `locationUpdate`:
no `presenceUpdate` is broadcast for the flip from offline to online. -/
theorem offline_heartbeat_no_broadcast_counterexample :
    presenceOf offlineWorld.store "EMP001" =
      some { employeeId := "EMP001", isOnline := false, lastSeenAt := 1000 } ∧
    presenceOf (step defaultConfig sampleVerify offlineWorld
        { time := 5000, faults := noFaults, input := .heartbeat "s1" }).store "EMP001" =
      some { employeeId := "EMP001", isOnline := true, lastSeenAt := 5000 } ∧
    (step defaultConfig sampleVerify offlineWorld
        { time := 5000, faults := noFaults, input := .heartbeat "s1" }).emitted =
      [{ target := .socket "s1", payload := .heartbeatAck 5000 }] ∧
    presenceOf (postLocation noFaults .throws 5000 sampleRequest offlineWorld).2.store
        "EMP001" =
      some { employeeId := "EMP001", isOnline := true, lastSeenAt := 5000 } ∧
    presenceUpdates (postLocation noFaults .throws 5000 sampleRequest offlineWorld).2.emitted
      = [] := by
  refine ⟨by decide, by decide, by decide, ?_, ?_⟩
  · rw [presenceOf, (postLocation_ok .throws 5000 sampleRequest offlineWorld sampleBody_valid).1]
    decide
  · rw [(postLocation_ok .throws 5000 sampleRequest offlineWorld sampleBody_valid).2]
    simp [presenceUpdates, offlineWorld, Payload.isPresenceUpdate]

/-- C9, as the code has it: a heartbeat of an admitted session on an existing
device, and a location submission that passes validation, the writes succeeding,
leave the presence of the employee online with `lastSeenAt = now` whatever it
was before, and neither broadcasts a `presenceUpdate`, whether the employee was
offline or already online: the heartbeat emits only `heartbeatAck` to the
sender, the submission only `locationUpdate`. -/
theorem heartbeat_and_ingest_refresh_without_broadcast (socket : Socket) (w : World)
    (d e : String) (now : Time) (geo : HttpResult) (req : LocationRequest)
    (hdev : socket.deviceId = some d) (hemp : socket.employeeId = some e)
    (hex : w.store.devices.any (fun x => x.id == d) = true)
    (hvalid : validateLocationUpdate req.body = []) :
    presenceOf (onHeartbeat noFaults now socket w).store e =
      some { employeeId := e, isOnline := true, lastSeenAt := now } ∧
    (onHeartbeat noFaults now socket w).emitted =
      w.emitted ++ [{ target := .socket socket.id, payload := .heartbeatAck now }] ∧
    presenceUpdates (onHeartbeat noFaults now socket w).emitted = presenceUpdates w.emitted ∧
    presenceOf (postLocation noFaults geo now req w).2.store req.employee.id =
      some { employeeId := req.employee.id, isOnline := true, lastSeenAt := now } ∧
    (postLocation noFaults geo now req w).2.emitted =
      w.emitted ++ [{ target := .room "/" "managers",
                      payload := .locationUpdate req.employee.id req.employee.info
                        req.body.latitude req.body.longitude req.body.accuracy
                        req.body.battery (reverseGeocode geo) (req.body.timestamp.getD now) }] ∧
    presenceUpdates (postLocation noFaults geo now req w).2.emitted =
      presenceUpdates w.emitted := by
  obtain ⟨hp, hem⟩ := postLocation_ok geo now req w hvalid
  refine ⟨?_, ?_, ?_, ?_, hem, ?_⟩
  · rw [onHeartbeat_ok now socket w d e hdev hemp hex]
    simp only [World.emit, presenceOf]
    exact find_upsertPresence_self _ _ _ _
  · rw [onHeartbeat_ok now socket w d e hdev hemp hex]
    rfl
  · rw [onHeartbeat_ok now socket w d e hdev hemp hex]
    exact presenceUpdates_emit_other _ _ _ rfl
  · rw [presenceOf, hp]
    exact find_upsertPresence_self _ _ _ _
  · rw [hem]
    simp [presenceUpdates, List.filter_append, Payload.isPresenceUpdate]

/-- Witness of the amended C9: the sample employee, recorded offline, sends a
heartbeat and the sample location. -/
theorem heartbeat_and_ingest_refresh_without_broadcast_witness :
    presenceOf (onHeartbeat noFaults 5000 sampleSocket offlineWorld).store "EMP001" =
      some { employeeId := "EMP001", isOnline := true, lastSeenAt := 5000 } ∧
    (onHeartbeat noFaults 5000 sampleSocket offlineWorld).emitted =
      offlineWorld.emitted ++
        [{ target := .socket sampleSocket.id, payload := .heartbeatAck 5000 }] ∧
    presenceUpdates (onHeartbeat noFaults 5000 sampleSocket offlineWorld).emitted =
      presenceUpdates offlineWorld.emitted ∧
    presenceOf (postLocation noFaults .throws 5000 sampleRequest offlineWorld).2.store
        sampleRequest.employee.id =
      some { employeeId := sampleRequest.employee.id, isOnline := true, lastSeenAt := 5000 } ∧
    (postLocation noFaults .throws 5000 sampleRequest offlineWorld).2.emitted =
      offlineWorld.emitted ++
        [{ target := .room "/" "managers",
           payload := .locationUpdate sampleRequest.employee.id sampleRequest.employee.info
             sampleRequest.body.latitude sampleRequest.body.longitude
             sampleRequest.body.accuracy sampleRequest.body.battery (reverseGeocode .throws)
             (sampleRequest.body.timestamp.getD 5000) }] ∧
    presenceUpdates (postLocation noFaults .throws 5000 sampleRequest offlineWorld).2.emitted =
      presenceUpdates offlineWorld.emitted :=
  heartbeat_and_ingest_refresh_without_broadcast sampleSocket offlineWorld "DEV001" "EMP001"
    5000 .throws sampleRequest rfl rfl (by decide) sampleBody_valid

/-! ## Geocode lookup, timestamps and persistence failures -/

/-- C15: `reverseGeocode` is a total function of the outcome of the HTTP lookup
into `string | null`, so nothing is raised to its caller. It returns a name
exactly when the request resolved with a payload whose `display_name` is that
name and is not empty; it returns `null` exactly when the request threw, the
payload is absent, or `display_name` is missing or empty. -/
theorem reverseGeocode_total (r : HttpResult) :
    (∀ name, reverseGeocode r = some name ↔
      ∃ d, r = .response (some d) ∧ d.display_name = some name ∧ name ≠ "") ∧
    (reverseGeocode r = none ↔
      r = .throws ∨ r = .response none ∨
        ∃ d, r = .response (some d) ∧ (d.display_name = none ∨ d.display_name = some "")) ∧
    (reverseGeocode r = none ∨ ∃ name, reverseGeocode r = some name) := by
  cases r with
  | throws => simp [reverseGeocode]
  | response data =>
    cases data with
    | none => simp [reverseGeocode]
    | some d =>
      cases hd : d.display_name with
      | none => simp [reverseGeocode, hd]
      | some n =>
        by_cases hn : n = ""
        · subst hn
          simp [reverseGeocode, hd]
        · refine ⟨fun name => ?_, ?_, ?_⟩
          · simp only [reverseGeocode, hd, hn, if_false, Option.some.injEq,
              HttpResult.response.injEq]
            constructor
            · intro h
              subst h
              exact ⟨d, rfl, hd, hn⟩
            · rintro ⟨d2, hd2, hname, _⟩
              subst hd2
              rw [hd] at hname
              exact Option.some.inj hname
          · simp only [reverseGeocode, hd, hn, if_false]
            constructor
            · intro h
              exact absurd h (by simp)
            · rintro (h | h | ⟨d2, hd2, h⟩)
              · exact absurd h (by simp)
              · exact absurd h (by simp)
              · simp only [HttpResult.response.injEq, Option.some.injEq] at hd2
                subst hd2
                rw [hd] at h
                rcases h with h | h
                · exact absurd h (by simp)
                · exact absurd (Option.some.inj h) hn
          · right
            exact ⟨n, by simp [reverseGeocode, hd, hn]⟩

/-- C20: the staleness sweep is idempotent: a second run of
`markInactiveEmployeesOffline` at the same instant (under the same outcome of
its `updateMany`) leaves the store as the first run left it. -/
theorem sweep_idempotent (cfg : Config) (f : Faults) (now : Time) (s : Store) :
    markInactiveEmployeesOffline cfg f now (markInactiveEmployeesOffline cfg f now s) =
      markInactiveEmployeesOffline cfg f now s := by
  unfold markInactiveEmployeesOffline
  cases hf : f.presenceUpdateMany with
  | true => simp
  | false =>
    simp only [Bool.false_eq_true, if_false, List.map_map]
    congr 1
    apply List.map_congr_left
    intro p _
    simp only [Function.comp]
    by_cases h : (p.isOnline && decide (p.lastSeenAt < now - cfg.presenceTimeoutMs)) = true
    · simp [h]
    · simp [h]

theorem saveLocationUpdate_ok_inv (f : Faults) (geo : HttpResult) (now : Time) (e : String)
    (d : LocationData) (s : Store) (location : Location)
    (h : (saveLocationUpdate f geo now e d s).1 = .ok location) :
    ∃ lat lon, d.latitude = some lat ∧ d.longitude = some lon ∧
      f.locationCreate = false ∧ f.presenceUpsert = false := by
  cases hlat : d.latitude with
  | none => simp [saveLocationUpdate, createLocation, hlat] at h
  | some lat =>
    cases hlon : d.longitude with
    | none => simp [saveLocationUpdate, createLocation, hlat, hlon] at h
    | some lon =>
      cases hc : f.locationCreate with
      | true => simp [saveLocationUpdate, createLocation, hlat, hlon, hc] at h
      | false =>
        cases hu : f.presenceUpsert with
        | true =>
          simp [saveLocationUpdate, createLocation, updatePresence, hlat, hlon, hc, hu] at h
        | false => exact ⟨lat, lon, rfl, rfl, rfl, rfl⟩

/-- C16: when `saveLocationUpdate` accepts a sample, the timestamp of the row it
persists and returns is the timestamp the client supplied, as it is, when the
sample carries one, and the server's `now` when it carries none; validation does
not look at the timestamp, and replacing it by any other instant is accepted
too and stored as it is. -/
theorem timestamp_stored_as_supplied (f : Faults) (geo : HttpResult) (now : Time)
    (e : String) (d : LocationData) (s : Store) (location : Location)
    (h : (saveLocationUpdate f geo now e d s).1 = .ok location) :
    (∀ t, d.timestamp = some t → location.timestamp = t) ∧
    (d.timestamp = none → location.timestamp = now) ∧
    (saveLocationUpdate f geo now e d s).2.locations = s.locations ++ [location] ∧
    (∀ t : Time,
      validateLocationUpdate { d with timestamp := some t } = validateLocationUpdate d ∧
      ∃ other : Location,
        (saveLocationUpdate f geo now e { d with timestamp := some t } s).1 = .ok other ∧
        other.timestamp = t) := by
  obtain ⟨lat, lon, hlat, hlon, hc, hu⟩ := saveLocationUpdate_ok_inv f geo now e d s location h
  rw [saveLocationUpdate_ok f geo now e d s lat lon hlat hlon hc hu] at h ⊢
  simp only [Except.ok.injEq] at h
  subst h
  refine ⟨?_, ?_, rfl, fun t => ⟨rfl, ?_⟩⟩
  · intro t ht
    simp [ht]
  · intro ht
    simp [ht]
  · rw [saveLocationUpdate_ok f geo now e { d with timestamp := some t } s lat lon hlat hlon
      hc hu]
    exact ⟨_, rfl, rfl⟩

/-- Witness of C16: the sample of `test-location.js` with a client timestamp far
in the past. -/
theorem timestamp_stored_as_supplied_witness :
    (∀ t, ({ sampleBody with timestamp := some (-86400000) } : LocationData).timestamp = some t →
      (-86400000 : Time) = t) ∧
    (({ sampleBody with timestamp := some (-86400000) } : LocationData).timestamp = none →
      (-86400000 : Time) = 1000) ∧
    (saveLocationUpdate noFaults .throws 1000 "EMP001"
      { sampleBody with timestamp := some (-86400000) } sampleStore).2.locations =
      sampleStore.locations ++
        [{ id := 1, employeeId := "EMP001", latitude := 37.7749, longitude := -122.4194,
           accuracy := some 15.5, altitude := some 52, speed := some 2.5,
           heading := some 180, battery := some 85, address := none,
           timestamp := -86400000 }] ∧
    (∀ t : Time,
      validateLocationUpdate
          { ({ sampleBody with timestamp := some (-86400000) } : LocationData) with
            timestamp := some t } =
        validateLocationUpdate { sampleBody with timestamp := some (-86400000) } ∧
      ∃ other : Location,
        (saveLocationUpdate noFaults .throws 1000 "EMP001"
          { ({ sampleBody with timestamp := some (-86400000) } : LocationData) with
            timestamp := some t } sampleStore).1 = .ok other ∧
        other.timestamp = t) :=
  timestamp_stored_as_supplied noFaults .throws 1000 "EMP001"
    { sampleBody with timestamp := some (-86400000) } sampleStore
    { id := 1, employeeId := "EMP001", latitude := 37.7749, longitude := -122.4194,
      accuracy := some 15.5, altitude := some 52, speed := some 2.5,
      heading := some 180, battery := some 85, address := none,
      timestamp := -86400000 }
    (by
      rw [saveLocationUpdate_ok noFaults .throws 1000 "EMP001" _ sampleStore 37.7749
        (-122.4194) rfl rfl rfl rfl]
      rfl)

/-- C13: for a valid sample, when the write of the location row fails,
`saveLocationUpdate` raises the error and leaves the store as it was, and the
route answers 500 with its failure body and leaves the whole server state as it
was: the presence of the employee is not modified and nothing is emitted. -/
theorem persist_failure_surfaces (f : Faults) (geo : HttpResult) (now : Time)
    (req : LocationRequest) (w : World)
    (hvalid : validateLocationUpdate req.body = [])
    (hfail : f.locationCreate = true) :
    saveLocationUpdate f geo now req.employee.id req.body w.store =
      (.error (.writeFailed "location"), w.store) ∧
    postLocation f geo now req w =
      ({ status := 500, body := .failure "Error updating location" }, w) ∧
    (postLocation f geo now req w).2.store.presences = w.store.presences ∧
    (postLocation f geo now req w).2.emitted = w.emitted := by
  obtain ⟨lat, lon, hlat, hlon⟩ := valid_has_coordinates req.body hvalid
  have hsave : saveLocationUpdate f geo now req.employee.id req.body w.store =
      (.error (.writeFailed "location"), w.store) := by
    simp [saveLocationUpdate, createLocation, hlat, hlon, hfail]
  have hpost : postLocation f geo now req w =
      ({ status := 500, body := .failure "Error updating location" }, w) := by
    simp only [postLocation, hvalid, hsave]
    rfl
  exact ⟨hsave, hpost, by rw [hpost], by rw [hpost]⟩

/-- Witness of C13: the sample submission while the location table rejects writes. -/
theorem persist_failure_surfaces_witness :
    saveLocationUpdate { noFaults with locationCreate := true } .throws 1000
        sampleRequest.employee.id sampleRequest.body onlineWorld.store =
      (.error (.writeFailed "location"), onlineWorld.store) ∧
    postLocation { noFaults with locationCreate := true } .throws 1000 sampleRequest
        onlineWorld =
      ({ status := 500, body := .failure "Error updating location" }, onlineWorld) ∧
    (postLocation { noFaults with locationCreate := true } .throws 1000 sampleRequest
        onlineWorld).2.store.presences = onlineWorld.store.presences ∧
    (postLocation { noFaults with locationCreate := true } .throws 1000 sampleRequest
        onlineWorld).2.emitted = onlineWorld.emitted :=
  persist_failure_surfaces { noFaults with locationCreate := true } .throws 1000 sampleRequest
    onlineWorld sampleBody_valid rfl

/-! ## Invariants of the store -/

theorem Evolves.refl (s : Store) : Evolves s s :=
  ⟨List.prefix_refl _, fun h => h⟩

theorem Evolves.trans {s1 s2 s3 : Store} (h12 : Evolves s1 s2) (h23 : Evolves s2 s3) :
    Evolves s1 s3 :=
  ⟨h12.1.trans h23.1, fun h => h23.2 (h12.2 h)⟩

theorem evolves_of_eq (s s2 : Store) (hl : s2.locations = s.locations)
    (hp : s2.presences = s.presences) : Evolves s s2 := by
  refine ⟨by rw [hl], fun h e => ?_⟩
  have := h e
  simpa [presenceCount, hp] using this

theorem uniquePresence_upsert (e : String) (b : Bool) (now : Time) (s : Store)
    (h : UniquePresence s) :
    UniquePresence { s with presences := upsertPresence e b now s.presences } := by
  intro e2
  by_cases he : e2 = e
  · subst he
    exact le_of_eq (countP_upsertPresence_self e2 b now s.presences (h e2))
  · have := countP_upsertPresence_other e e2 b now s.presences he
    simp only [presenceCount] at *
    rw [this]
    exact h e2

theorem updatePresence_evolves (f : Faults) (now : Time) (e : String) (b : Bool) (s : Store) :
    Evolves s (updatePresence f now e b s).2 := by
  unfold updatePresence
  cases f.presenceUpsert with
  | true => exact Evolves.refl s
  | false => exact ⟨List.prefix_refl _, uniquePresence_upsert e b now s⟩

theorem sweep_keys (cfg : Config) (f : Faults) (now : Time) (s : Store) :
    (markInactiveEmployeesOffline cfg f now s).presences.map (fun p => p.employeeId) =
      s.presences.map (fun p => p.employeeId) := by
  unfold markInactiveEmployeesOffline
  cases f.presenceUpdateMany with
  | true => rfl
  | false =>
    simp only [Bool.false_eq_true, if_false, List.map_map]
    apply List.map_congr_left
    intro p _
    simp only [Function.comp]
    split <;> rfl

theorem presenceCount_eq_of_keys (s s2 : Store)
    (h : s2.presences.map (fun p => p.employeeId) = s.presences.map (fun p => p.employeeId))
    (e : String) : presenceCount s2 e = presenceCount s e := by
  have key : ∀ l : List Presence, l.countP (fun p => p.employeeId == e) =
      (l.map (fun p => p.employeeId)).countP (fun k => k == e) := by
    intro l
    rw [List.countP_map]
    rfl
  simp only [presenceCount]
  rw [key, key, h]

theorem sweep_evolves (cfg : Config) (f : Faults) (now : Time) (s : Store) :
    Evolves s (markInactiveEmployeesOffline cfg f now s) := by
  refine ⟨?_, fun h e => ?_⟩
  · unfold markInactiveEmployeesOffline
    split <;> exact List.prefix_refl _
  · rw [presenceCount_eq_of_keys _ _ (sweep_keys cfg f now s) e]
    exact h e

theorem createLocation_evolves (f : Faults) (e : String) (d : LocationData)
    (address : Option String) (now : Time) (s : Store) :
    Evolves s (createLocation f e d address now s).2 := by
  unfold createLocation
  cases d.latitude with
  | none => exact Evolves.refl s
  | some lat =>
    cases d.longitude with
    | none => exact Evolves.refl s
    | some lon =>
      cases f.locationCreate with
      | true => exact Evolves.refl s
      | false =>
        refine ⟨List.prefix_append _ _, fun h e2 => ?_⟩
        have := h e2
        simpa [presenceCount] using this

theorem saveLocationUpdate_evolves (f : Faults) (geo : HttpResult) (now : Time) (e : String)
    (d : LocationData) (s : Store) : Evolves s (saveLocationUpdate f geo now e d s).2 := by
  have h1 := createLocation_evolves f e d (reverseGeocode geo) now s
  simp only [saveLocationUpdate]
  rcases hc : createLocation f e d (reverseGeocode geo) now s with ⟨r, s1⟩
  rw [hc] at h1
  cases r with
  | error err => exact h1
  | ok location =>
    have h2 := updatePresence_evolves f now e true s1
    dsimp only
    rcases hu : updatePresence f now e true s1 with ⟨r2, s2⟩
    rw [hu] at h2
    cases r2 with
    | error err => exact Evolves.trans h1 h2
    | ok u => exact Evolves.trans h1 h2

theorem updateDeviceLastSeen_evolves (f : Faults) (now : Time) (deviceId : String) (s : Store) :
    Evolves s (updateDeviceLastSeen f now deviceId s) := by
  unfold updateDeviceLastSeen
  split
  · exact Evolves.refl s
  · exact evolves_of_eq _ _ rfl rfl

theorem deviceUpdate_evolves (f : Faults) (now : Time) (deviceId : Option String) (s : Store) :
    Evolves s (deviceUpdate f now deviceId s).2 := by
  unfold deviceUpdate
  cases deviceId with
  | none => exact Evolves.refl s
  | some id =>
    cases f.deviceUpdate with
    | true => exact Evolves.refl s
    | false =>
      cases hany : s.devices.any (fun d => d.id == id) with
      | true => simpa [hany] using evolves_of_eq s _ rfl rfl
      | false => simpa [hany] using Evolves.refl s

theorem handleManagerConnection_store (socket : Socket) (w : World) :
    (handleManagerConnection socket w).2.store = w.store := by
  unfold handleManagerConnection
  cases socket.manager <;> rfl

theorem handleEmployeeConnection_evolves (f : Faults) (now : Time) (socket : Socket)
    (w : World) : Evolves w.store (handleEmployeeConnection f now socket w).2.store := by
  unfold handleEmployeeConnection
  cases socket.employeeId with
  | none => exact Evolves.refl _
  | some e =>
    cases socket.employee with
    | none => exact Evolves.refl _
    | some employee =>
      have h := updatePresence_evolves f now e true w.store
      dsimp only
      rcases hu : updatePresence f now e true w.store with ⟨r, s1⟩
      rw [hu] at h
      cases r <;> exact h

theorem onHeartbeat_evolves (f : Faults) (now : Time) (socket : Socket) (w : World) :
    Evolves w.store (onHeartbeat f now socket w).store := by
  unfold onHeartbeat
  have h1 := deviceUpdate_evolves f now socket.deviceId w.store
  rcases hd : deviceUpdate f now socket.deviceId w.store with ⟨r, s1⟩
  rw [hd] at h1
  cases r with
  | error err => exact h1
  | ok u =>
    dsimp only
    cases socket.employeeId with
    | none => exact h1
    | some e =>
      have h2 := updatePresence_evolves f now e true s1
      dsimp only
      rcases hu : updatePresence f now e true s1 with ⟨r2, s2⟩
      rw [hu] at h2
      cases r2 <;> exact Evolves.trans h1 h2

theorem disconnectTimeout_evolves (f : Faults) (now : Time) (socket : Socket) (w : World) :
    Evolves w.store (disconnectTimeout f now socket w).store := by
  unfold disconnectTimeout
  cases socket.employeeId with
  | none => exact Evolves.refl _
  | some e =>
    have h := updatePresence_evolves f now e false w.store
    dsimp only
    rcases hu : updatePresence f now e false w.store with ⟨r, s1⟩
    rw [hu] at h
    cases r with
    | error err => exact h
    | ok u => cases socket.employee <;> exact h

theorem foldl_disconnectTimeout_evolves (f : Faults) (l : List Timer) :
    ∀ w : World, Evolves w.store
      (l.foldl (fun acc t => disconnectTimeout f t.fireAt t.socket acc) w).store := by
  induction l with
  | nil => intro w; exact Evolves.refl _
  | cons t ts ih =>
    intro w
    exact Evolves.trans (disconnectTimeout_evolves f t.fireAt t.socket w) (ih _)

theorem fireTimers_evolves (f : Faults) (now : Time) (w : World) :
    Evolves w.store (fireTimers f now w).store :=
  foldl_disconnectTimeout_evolves f (w.timers.filter (fun t => decide (t.fireAt ≤ now)))
    { w with timers := w.timers.filter (fun t => !decide (t.fireAt ≤ now)) }

theorem postLocation_evolves (f : Faults) (geo : HttpResult) (now : Time)
    (req : LocationRequest) (w : World) :
    Evolves w.store (postLocation f geo now req w).2.store := by
  unfold postLocation
  by_cases herr : validateLocationUpdate req.body ≠ []
  · rw [if_pos herr]
    exact Evolves.refl _
  · rw [if_neg herr]
    have h1 := saveLocationUpdate_evolves f geo now req.employee.id req.body w.store
    rcases hsave : saveLocationUpdate f geo now req.employee.id req.body w.store with ⟨r, s1⟩
    rw [hsave] at h1
    cases r with
    | error err => exact h1
    | ok location =>
      exact Evolves.trans h1 (updateDeviceLastSeen_evolves f now req.device.id s1)

theorem handle_evolves (cfg : Config) (jwtVerify : String → String → Option Decoded)
    (f : Faults) (now : Time) (input : Input) (w : World) :
    Evolves w.store (handle cfg jwtVerify f now input w).store := by
  cases input with
  | managerConnect socketId token =>
    simp only [handle]
    rcases hauth : authenticateManager cfg jwtVerify w.store
      (Socket.fresh socketId "/manager" token) with ⟨socket, err⟩
    cases err with
    | some _ => exact Evolves.refl _
    | none =>
      dsimp only
      rw [handleManagerConnection_store]
      exact Evolves.refl _
  | employeeConnect socketId token =>
    simp only [handle]
    rcases hauth : authenticateEmployee cfg jwtVerify w.store
      (Socket.fresh socketId "/employee" token) with ⟨socket, err⟩
    cases err with
    | some _ => exact Evolves.refl _
    | none => exact handleEmployeeConnection_evolves f now socket (w.setSocket socket)
  | heartbeat socketId =>
    simp only [handle]
    cases w.sockets.find? (fun x => x.id == socketId) with
    | none => exact Evolves.refl _
    | some socket =>
      by_cases hh : socket.handlers.contains "heartbeat" = true
      · simp only [hh, if_true]
        exact onHeartbeat_evolves f now socket w
      · simp only [hh]
        exact Evolves.refl _
  | disconnect socketId =>
    simp only [handle]
    cases w.sockets.find? (fun x => x.id == socketId) with
    | none => exact Evolves.refl _
    | some socket =>
      by_cases hh : (socket.nsp == "/employee" && socket.handlers.contains "disconnect") = true
      · simp only [hh, if_true]
        rw [(onDisconnect_frame cfg now socket (w.dropSocket socketId)).2.2]
        exact Evolves.refl _
      · simp only [hh]
        exact Evolves.refl _
  | postLocation req geo => exact postLocation_evolves f geo now req w
  | sweep => exact sweep_evolves cfg f now w.store
  | idle => exact Evolves.refl _

theorem step_evolves (cfg : Config) (jwtVerify : String → String → Option Decoded)
    (w : World) (ev : Event) : Evolves w.store (step cfg jwtVerify w ev).store :=
  Evolves.trans (fireTimers_evolves ev.faults ev.time w)
    (handle_evolves cfg jwtVerify ev.faults ev.time ev.input _)

theorem run_evolves (cfg : Config) (jwtVerify : String → String → Option Decoded)
    (trace : List Event) :
    ∀ w : World, Evolves w.store (run cfg jwtVerify w trace).store := by
  induction trace with
  | nil => intro w; exact Evolves.refl _
  | cons ev rest ih =>
    intro w
    exact Evolves.trans (step_evolves cfg jwtVerify w ev) (ih _)

/-- C18: in a store with at most one presence record per employee,
`updatePresence e b` (its write succeeding) leaves exactly one record of `e`,
with `isOnline = b` and `lastSeenAt = now`, and the record of every other
employee as it was; failing or not, it keeps the table keyed by employee;
`markInactiveEmployeesOffline` leaves the keys of the table as they were, in
place; and every state the server reaches from such a store, whatever the trace
of events, has at most one presence record per employee. -/
theorem presence_keyed_by_employee (cfg : Config)
    (jwtVerify : String → String → Option Decoded) (w : World) (trace : List Event)
    (f : Faults) (now : Time) (e : String) (b : Bool)
    (h : UniquePresence w.store) :
    presenceCount (updatePresence noFaults now e b w.store).2 e = 1 ∧
    presenceOf (updatePresence noFaults now e b w.store).2 e =
      some { employeeId := e, isOnline := b, lastSeenAt := now } ∧
    (∀ e2, e2 ≠ e →
      presenceOf (updatePresence noFaults now e b w.store).2 e2 = presenceOf w.store e2 ∧
      presenceCount (updatePresence noFaults now e b w.store).2 e2 =
        presenceCount w.store e2) ∧
    UniquePresence (updatePresence f now e b w.store).2 ∧
    (markInactiveEmployeesOffline cfg f now w.store).presences.map (fun p => p.employeeId) =
      w.store.presences.map (fun p => p.employeeId) ∧
    UniquePresence (markInactiveEmployeesOffline cfg f now w.store) ∧
    UniquePresence (run cfg jwtVerify w trace).store := by
  refine ⟨?_, presenceOf_updatePresence now e b w.store, ?_,
    (updatePresence_evolves f now e b w.store).2 h, sweep_keys cfg f now w.store,
    (sweep_evolves cfg f now w.store).2 h, (run_evolves cfg jwtVerify trace w).2 h⟩
  · simp only [updatePresence, noFaults, presenceCount, Bool.false_eq_true, if_false]
    exact countP_upsertPresence_self e b now _ (h e)
  · intro e2 hne
    simp only [updatePresence, noFaults, presenceCount, presenceOf, Bool.false_eq_true,
      if_false]
    exact ⟨find_upsertPresence_other e e2 b now _ hne,
      countP_upsertPresence_other e e2 b now _ hne⟩

/-- Witness of C18: the server on which the sample employee is online, over the
trace with a quick reconnection. -/
theorem presence_keyed_by_employee_witness :
    presenceCount (updatePresence noFaults 5000 "EMP001" false onlineWorld.store).2 "EMP001"
      = 1 ∧
    presenceOf (updatePresence noFaults 5000 "EMP001" false onlineWorld.store).2 "EMP001" =
      some { employeeId := "EMP001", isOnline := false, lastSeenAt := 5000 } ∧
    (∀ e2, e2 ≠ "EMP001" →
      presenceOf (updatePresence noFaults 5000 "EMP001" false onlineWorld.store).2 e2 =
        presenceOf onlineWorld.store e2 ∧
      presenceCount (updatePresence noFaults 5000 "EMP001" false onlineWorld.store).2 e2 =
        presenceCount onlineWorld.store e2) ∧
    UniquePresence (updatePresence noFaults 5000 "EMP001" false onlineWorld.store).2 ∧
    (markInactiveEmployeesOffline defaultConfig noFaults 5000 onlineWorld.store).presences.map
        (fun p => p.employeeId) =
      onlineWorld.store.presences.map (fun p => p.employeeId) ∧
    UniquePresence (markInactiveEmployeesOffline defaultConfig noFaults 5000
      onlineWorld.store) ∧
    UniquePresence (run defaultConfig sampleVerify onlineWorld reconnectTrace).store :=
  presence_keyed_by_employee defaultConfig sampleVerify onlineWorld reconnectTrace noFaults
    5000 "EMP001" false (fun _ => List.countP_le_length _)

/-- C19: the location history is append-only. Every event the server handles,
every trace of them, and each operation of the location service
(`saveLocationUpdate`, failing or not, `updatePresence`,
`markInactiveEmployeesOffline`) leaves the rows it found in place and unchanged,
new rows coming after them; a successful `saveLocationUpdate` adds exactly one
row, of the submitting employee; so the history of each employee only grows. -/
theorem location_history_append_only (cfg : Config)
    (jwtVerify : String → String → Option Decoded) (w : World) (trace : List Event)
    (f : Faults) (geo : HttpResult) (now : Time) (e : String) (b : Bool)
    (d : LocationData) :
    (∀ ev, w.store.locations <+: (step cfg jwtVerify w ev).store.locations) ∧
    w.store.locations <+: (run cfg jwtVerify w trace).store.locations ∧
    (∀ e2, w.store.locations.filter (fun l => l.employeeId == e2) <+:
      (run cfg jwtVerify w trace).store.locations.filter (fun l => l.employeeId == e2)) ∧
    w.store.locations <+: (saveLocationUpdate f geo now e d w.store).2.locations ∧
    (∀ location, (saveLocationUpdate f geo now e d w.store).1 = .ok location →
      (saveLocationUpdate f geo now e d w.store).2.locations =
        w.store.locations ++ [location] ∧
      location.employeeId = e) ∧
    (updatePresence f now e b w.store).2.locations = w.store.locations ∧
    (markInactiveEmployeesOffline cfg f now w.store).locations = w.store.locations := by
  refine ⟨fun ev => (step_evolves cfg jwtVerify w ev).1, (run_evolves cfg jwtVerify trace w).1,
    fun e2 => List.IsPrefix.filter _ (run_evolves cfg jwtVerify trace w).1,
    (saveLocationUpdate_evolves f geo now e d w.store).1, ?_, ?_, ?_⟩
  · intro location hok
    obtain ⟨lat, lon, hlat, hlon, hc, hu⟩ :=
      saveLocationUpdate_ok_inv f geo now e d w.store location hok
    rw [saveLocationUpdate_ok f geo now e d w.store lat lon hlat hlon hc hu] at hok ⊢
    simp only [Except.ok.injEq] at hok
    subst hok
    exact ⟨rfl, rfl⟩
  · unfold updatePresence
    split <;> rfl
  · unfold markInactiveEmployeesOffline
    split <;> rfl

/-! ## Presence query -/

theorem find_active_employee (s : Store) (e : Employee) (he : e ∈ s.employees)
    (hact : e.isActive = true) (huniq : ∀ e2 ∈ s.employees, e2.id = e.id → e2 = e) :
    s.employees.find? (fun x => x.id == e.id && x.isActive) = some e := by
  cases hf : s.employees.find? (fun x => x.id == e.id && x.isActive) with
  | none =>
    rw [List.find?_eq_none] at hf
    have := hf e he
    simp [hact] at this
  | some x =>
    have hx := List.mem_of_find?_eq_some hf
    have hp := List.find?_some hf
    simp only [Bool.and_eq_true, beq_iff_eq] at hp
    rw [huniq x hx hp.1]

/-- C17: for an active employee (employee ids being unique), the presence route
answers 200 with `isOnline = false` and `lastSeenAt = null` when the employee
has no presence record, and otherwise with exactly the `isOnline` and the
`lastSeenAt` of the record of that employee. -/
theorem presence_route_reports_record (s : Store) (e : Employee) (he : e ∈ s.employees)
    (hact : e.isActive = true) (huniq : ∀ e2 ∈ s.employees, e2.id = e.id → e2 = e) :
    (presenceOf s e.id = none →
      getEmployeePresence s e.id = { status := 200, body := .presence e.id false none }) ∧
    (∀ p, presenceOf s e.id = some p →
      getEmployeePresence s e.id =
        { status := 200, body := .presence e.id p.isOnline (some p.lastSeenAt) }) := by
  have hfind := find_active_employee s e he hact huniq
  constructor
  · intro hnone
    simp [getEmployeePresence, getEmployeeById, hfind, hnone]
  · intro p hp
    simp [getEmployeePresence, getEmployeeById, hfind, hp]

/-- Witness of C17: the sample employee, without a presence record and online. -/
theorem presence_route_reports_record_witness :
    (presenceOf onlineWorld.store sampleEmployee.id = none →
      getEmployeePresence onlineWorld.store sampleEmployee.id =
        { status := 200, body := .presence sampleEmployee.id false none }) ∧
    (∀ p, presenceOf onlineWorld.store sampleEmployee.id = some p →
      getEmployeePresence onlineWorld.store sampleEmployee.id =
        { status := 200,
          body := .presence sampleEmployee.id p.isOnline (some p.lastSeenAt) }) :=
  presence_route_reports_record onlineWorld.store sampleEmployee (by decide) rfl
    (by
      intro e2 h2 _
      simpa [onlineWorld, sampleStore] using h2)

/-! ## Admission of employees -/

theorem authenticateEmployee_cases (cfg : Config)
    (jwtVerify : String → String → Option Decoded) (s : Store) (socket : Socket) :
    (∃ (token : String) (decoded : Decoded) (device : Device) (employee : Employee),
        socket.token = some token ∧ token ≠ "" ∧
        jwtVerify token cfg.jwtSecret = some decoded ∧ decoded.role = some "employee" ∧
        s.devices.find? (deviceFilter decoded.deviceId) = some device ∧
        s.employees.find? (fun e => e.id == device.employeeId) = some employee ∧
        employee.isActive = true ∧
        authenticateEmployee cfg jwtVerify s socket =
          ({ socket with deviceId := some device.id, employeeId := some employee.id,
                         employee := some employee }, none)) ∨
    (∃ msg, msg ∈ employeeAuthErrors ∧
      authenticateEmployee cfg jwtVerify s socket = (socket, some msg) ∧
      ∀ (token : String) (decoded : Decoded) (device : Device) (employee : Employee),
        socket.token = some token → token ≠ "" →
        jwtVerify token cfg.jwtSecret = some decoded → decoded.role = some "employee" →
        s.devices.find? (deviceFilter decoded.deviceId) = some device →
        s.employees.find? (fun e => e.id == device.employeeId) = some employee →
        employee.isActive = true → False) := by
  have hfilter : ∀ deviceId : Option String,
      (fun d : Device =>
        (match deviceId with
          | none => true
          | some id => d.id == id) && d.isActive) = deviceFilter deviceId := fun _ => rfl
  unfold authenticateEmployee
  cases htok : socket.token with
  | none =>
    right
    refine ⟨_, by simp [employeeAuthErrors], rfl, ?_⟩
    intro token _ _ _ h
    exact Option.noConfusion h
  | some token =>
    by_cases hempty : token = ""
    · right
      refine ⟨"Authentication error: No token provided", by simp [employeeAuthErrors],
        by simp [hempty], ?_⟩
      intro t _ _ _ ht hne
      simp only [Option.some.injEq] at ht
      exact absurd (ht ▸ hempty) hne
    · cases hver : jwtVerify token cfg.jwtSecret with
      | none =>
        right
        refine ⟨"Authentication error: Invalid token", by simp [employeeAuthErrors],
          by simp [hempty, hver], ?_⟩
        intro t _ _ _ ht _ hv
        simp only [Option.some.injEq] at ht
        subst ht
        rw [hver] at hv
        exact Option.noConfusion hv
      | some decoded =>
        by_cases hrole : decoded.role = some "employee"
        · cases hdev : s.devices.find? (deviceFilter decoded.deviceId) with
          | none =>
            right
            refine ⟨"Authentication error: Device or employee not found",
              by simp [employeeAuthErrors], by simp [hempty, hver, hrole, hfilter, hdev], ?_⟩
            intro t dec dv _ ht _ hv _ hd
            simp only [Option.some.injEq] at ht
            subst ht
            rw [hver] at hv
            simp only [Option.some.injEq] at hv
            subst hv
            rw [hdev] at hd
            exact Option.noConfusion hd
          | some device =>
            cases hemp : s.employees.find? (fun e => e.id == device.employeeId) with
            | none =>
              right
              refine ⟨"Authentication error: Invalid token", by simp [employeeAuthErrors],
                by simp [hempty, hver, hrole, hfilter, hdev, hemp], ?_⟩
              intro t dec dv em ht _ hv _ hd he
              simp only [Option.some.injEq] at ht
              subst ht
              rw [hver] at hv
              simp only [Option.some.injEq] at hv
              subst hv
              rw [hdev] at hd
              simp only [Option.some.injEq] at hd
              subst hd
              rw [hemp] at he
              exact Option.noConfusion he
            | some employee =>
              by_cases hact : employee.isActive = true
              · left
                exact ⟨token, decoded, device, employee, rfl, hempty, hver, hrole, hdev, hemp,
                  hact, by simp [hempty, hver, hrole, hfilter, hdev, hemp, hact]⟩
              · right
                refine ⟨"Authentication error: Device or employee not found",
                  by simp [employeeAuthErrors],
                  by simp [hempty, hver, hrole, hfilter, hdev, hemp, hact], ?_⟩
                intro t dec dv em ht _ hv _ hd he ha
                simp only [Option.some.injEq] at ht
                subst ht
                rw [hver] at hv
                simp only [Option.some.injEq] at hv
                subst hv
                rw [hdev] at hd
                simp only [Option.some.injEq] at hd
                subst hd
                rw [hemp] at he
                simp only [Option.some.injEq] at he
                subst he
                exact hact ha
        · right
          refine ⟨"Authentication error: Invalid role", by simp [employeeAuthErrors],
            by simp [hempty, hver, hrole], ?_⟩
          intro t dec _ _ ht _ hv hr
          simp only [Option.some.injEq] at ht
          subst ht
          rw [hver] at hv
          simp only [Option.some.injEq] at hv
          subst hv
          exact absurd hr hrole

theorem authenticateEmployee_with_deviceId (cfg : Config)
    (jwtVerify : String → String → Option Decoded) (s : Store) (socket : Socket)
    (token : String) (decoded : Decoded) (d : String)
    (htok : socket.token = some token) (hne : token ≠ "")
    (hver : jwtVerify token cfg.jwtSecret = some decoded)
    (hd : decoded.deviceId = some d) :
    ((authenticateEmployee cfg jwtVerify s socket).2 = none ↔
      decoded.role = some "employee" ∧
      ∃ device employee,
        s.devices.find? (fun x => x.id == d && x.isActive) = some device ∧
        s.employees.find? (fun e => e.id == device.employeeId) = some employee ∧
        employee.isActive = true) ∧
    ((authenticateEmployee cfg jwtVerify s socket).2 = none →
      ∃ device employee,
        device ∈ s.devices ∧ device.id = d ∧ device.isActive = true ∧
        employee ∈ s.employees ∧ employee.id = device.employeeId ∧
        employee.isActive = true ∧
        (authenticateEmployee cfg jwtVerify s socket).1.employeeId = some device.employeeId ∧
        (authenticateEmployee cfg jwtVerify s socket).1.deviceId = some d) := by
  have hfilter : deviceFilter decoded.deviceId = fun x => x.id == d && x.isActive := by
    funext x
    simp [deviceFilter, hd]
  rcases authenticateEmployee_cases cfg jwtVerify s socket with
    ⟨t, dec, device, employee, h1, _, h3, h4, h5, h6, h7, h8⟩ | ⟨msg, _, hrej, hnot⟩
  · rw [htok] at h1
    simp only [Option.some.injEq] at h1
    subst h1
    rw [hver] at h3
    simp only [Option.some.injEq] at h3
    subst h3
    rw [hfilter] at h5
    have hdev := List.find?_some h5
    simp only [Bool.and_eq_true, beq_iff_eq] at hdev
    have hemp := List.find?_some h6
    simp only [beq_iff_eq] at hemp
    rw [h8]
    refine ⟨⟨fun _ => ⟨h4, device, employee, h5, h6, h7⟩, fun _ => rfl⟩, fun _ => ?_⟩
    exact ⟨device, employee, List.mem_of_find?_eq_some h5, hdev.1, hdev.2,
      List.mem_of_find?_eq_some h6, hemp, h7, by simp [hemp], by simp [hdev.1]⟩
  · rw [hrej]
    refine ⟨⟨fun h => absurd h (by simp), ?_⟩, fun h => absurd h (by simp)⟩
    rintro ⟨hrole, device, employee, h5, h6, h7⟩
    rw [← hfilter] at h5
    exact absurd (hnot token decoded device employee htok hne hver hrole h5 h6 h7) id

theorem authenticateEmployee_rejection (cfg : Config)
    (jwtVerify : String → String → Option Decoded) (w : World) (socketId : String)
    (token : Option String) (f : Faults) (now : Time)
    (h : (authenticateEmployee cfg jwtVerify w.store
      (Socket.fresh socketId "/employee" token)).2 ≠ none) :
    (∃ msg ∈ employeeAuthErrors,
      authenticateEmployee cfg jwtVerify w.store (Socket.fresh socketId "/employee" token) =
        (Socket.fresh socketId "/employee" token, some msg)) ∧
    handle cfg jwtVerify f now (.employeeConnect socketId token) w = w := by
  rcases authenticateEmployee_cases cfg jwtVerify w.store
      (Socket.fresh socketId "/employee" token) with
    ⟨_, _, _, _, _, _, _, _, _, _, _, h8⟩ | ⟨msg, hmsg, hrej, _⟩
  · rw [h8] at h
    exact absurd rfl h
  · exact ⟨⟨msg, hmsg, hrej⟩, by simp only [handle, hrej]⟩

/-- C11 at its failing input: the token that `loginEmployee` signs for the second
employee carries no `deviceId`; `authenticateEmployee` then looks for any active
device, finds the device of the sample employee and admits the connection as
that employee, whose presence is set online and broadcast. -/
theorem login_token_admitted_as_first_device :
    loginVerify "login-token" defaultConfig.jwtSecret =
      some { id := some "EMP002", role := some "employee", deviceId := none } ∧
    authenticateEmployee defaultConfig loginVerify twoEmployeeWorld.store
        (Socket.fresh "s9" "/employee" (some "login-token")) =
      ({ Socket.fresh "s9" "/employee" (some "login-token") with
          deviceId := some "DEV001", employeeId := some "EMP001",
          employee := some sampleEmployee }, none) ∧
    (step defaultConfig loginVerify twoEmployeeWorld
        { time := 1000, faults := noFaults,
          input := .employeeConnect "s9" (some "login-token") }).emitted =
      [{ target := managersGroup,
         payload := .presenceUpdate "EMP001" sampleEmployee.info true 1000 }] ∧
    presenceOf (step defaultConfig loginVerify twoEmployeeWorld
        { time := 1000, faults := noFaults,
          input := .employeeConnect "s9" (some "login-token") }).store "EMP001" =
      some { employeeId := "EMP001", isOnline := true, lastSeenAt := 1000 } := by
  decide

/-! ## Delivery of `locationUpdate` -/

theorem postLocation_status (geo : HttpResult) (now : Time) (req : LocationRequest) (w : World)
    (h : validateLocationUpdate req.body = []) :
    (postLocation noFaults geo now req w).1.status = 200 ∧
    (postLocation noFaults geo now req w).2.sockets = w.sockets := by
  obtain ⟨lat, lon, hlat, hlon⟩ := valid_has_coordinates req.body h
  simp only [postLocation, h]
  rw [saveLocationUpdate_ok noFaults geo now _ _ _ lat lon hlat hlon rfl rfl]
  simp [World.emit]

/-- C12 at its failing input: the sample manager is connected, its socket being
the one left by the admission on the `/manager` namespace, in the room
`managers` of that namespace; the sample employee then submits the location of
`test-location.js`. The route answers 200 and emits exactly one
`locationUpdate` with the employee id and the submitted coordinates, but
through `io.to('managers')`, the room of the root namespace, which no socket has
joined: the connected manager is not among its recipients. -/
theorem locationUpdate_misses_managers :
    (handle defaultConfig sampleVerify noFaults 0
      (.managerConnect "m1" (some "manager-token")) sampleWorld).sockets =
      managerWorld.sockets ∧
    (postLocation noFaults .throws 5000 sampleRequest managerWorld).1.status = 200 ∧
    (postLocation noFaults .throws 5000 sampleRequest managerWorld).2.emitted =
      [{ target := .room "/" "managers",
         payload := .locationUpdate "EMP001" sampleEmployee.info (some 37.7749)
           (some (-122.4194)) (some 15.5) (some 85) none 5000 }] ∧
    recipients (postLocation noFaults .throws 5000 sampleRequest managerWorld).2.sockets
      (.room "/" "managers") = [] ∧
    recipients (postLocation noFaults .throws 5000 sampleRequest managerWorld).2.sockets
      managersGroup = ["m1"] := by
  have hs := (postLocation_status .throws 5000 sampleRequest managerWorld sampleBody_valid)
  refine ⟨by decide, hs.1, ?_, ?_, ?_⟩
  · rw [(postLocation_ok .throws 5000 sampleRequest managerWorld sampleBody_valid).2]
    rfl
  · rw [hs.2]
    decide
  · rw [hs.2]
    decide

/-! ## Snapshot sent to a manager -/

theorem latestLocations_spec (s : Store) (e : String) :
    (latestLocations s e = [] ∧ ∀ l ∈ s.locations, l.employeeId ≠ e) ∨
    (∃ l, latestLocations s e = [l] ∧ l ∈ s.locations ∧ l.employeeId = e ∧
      ∀ l2 ∈ s.locations, l2.employeeId = e → l2.timestamp ≤ l.timestamp) := by
  have hsorted := @List.sorted_mergeSort Location
    (fun a b : Location => decide (b.timestamp ≤ a.timestamp))
    (fun a b c hab hbc => by
      simp only [decide_eq_true_eq] at hab hbc ⊢
      exact le_trans hbc hab)
    (fun a b => by
      simp only [Bool.or_eq_true, decide_eq_true_eq]
      exact le_total b.timestamp a.timestamp)
    (s.locations.filter (fun l => l.employeeId == e))
  have hmem : ∀ l, l ∈ (s.locations.filter (fun l => l.employeeId == e)).mergeSort
        (fun a b => decide (b.timestamp ≤ a.timestamp)) ↔
      l ∈ s.locations ∧ l.employeeId = e := by
    intro l
    rw [List.mem_mergeSort, List.mem_filter]
    simp
  unfold latestLocations
  cases hs : (s.locations.filter (fun l => l.employeeId == e)).mergeSort
      (fun a b => decide (b.timestamp ≤ a.timestamp)) with
  | nil =>
    left
    refine ⟨rfl, fun l hl he => ?_⟩
    have := (hmem l).mpr ⟨hl, he⟩
    rw [hs] at this
    exact absurd this (List.not_mem_nil _)
  | cons l rest =>
    right
    rw [hs] at hsorted
    have hl := (hmem l).mp (by rw [hs]; exact List.mem_cons_self _ _)
    refine ⟨l, rfl, hl.1, hl.2, fun l2 h2 he2 => ?_⟩
    have hin := (hmem l2).mpr ⟨h2, he2⟩
    rw [hs] at hin
    rcases List.mem_cons.mp hin with heq | hrest
    · rw [heq]
    · have := (List.pairwise_cons.mp hsorted).1 l2 hrest
      simpa using this

theorem snapshot_eq (s : Store) :
    (getAllEmployeesWithLocations s "" 1 100).employees =
      (((s.employees.filter (fun e => e.isActive)).mergeSort
          (fun a b => !decide (b.fullName < a.fullName))).take 100).map
        (fun e => { employee := e, presence := presenceOf s e.id,
                    locations := latestLocations s e.id }) := by
  have hf : (fun e : Employee =>
      e.isActive && ("" == "" || containsInsensitive e.fullName "" ||
        containsInsensitive e.department "")) = fun e => e.isActive := by
    funext e
    simp
  simp only [getAllEmployeesWithLocations, hf]
  rfl

theorem handleManagerConnection_emitted (socket : Socket) (m : Manager) (w : World)
    (hm : socket.manager = some m) :
    (handleManagerConnection socket w).2.emitted =
      w.emitted ++ [{ target := .socket socket.id,
                      payload := .initialData
                        (getAllEmployeesWithLocations w.store "" 1 100).employees }] := by
  simp [handleManagerConnection, hm, World.emit, World.setSocket]

/-- C14, as the code has it: a manager session that is admitted is sent exactly
one `initialData` event, to its own socket. Its list holds at most 100 entries,
the first 100 of the active employees in `fullName` order; each entry is an
active employee with its current presence record and its latest-timestamp
location (none when it has no sample); when there are at most 100 active
employees every one of them is in the list, so that an employee who connected
before the manager appears in it with its online presence record. -/
theorem initialData_snapshot (socket : Socket) (m : Manager) (w : World)
    (hm : socket.manager = some m) :
    ∃ (details : List EmployeeWithLocations) (ordered : List Employee),
      (handleManagerConnection socket w).2.emitted =
        w.emitted ++ [{ target := .socket socket.id, payload := .initialData details }] ∧
      ordered.Perm (w.store.employees.filter (fun e => e.isActive)) ∧
      ordered.Pairwise (fun a b => ¬ b.fullName < a.fullName) ∧
      details.map (fun x => x.employee) = ordered.take 100 ∧
      details.length ≤ 100 ∧
      (∀ x ∈ details,
        x.employee ∈ w.store.employees ∧ x.employee.isActive = true ∧
        x.presence = presenceOf w.store x.employee.id ∧
        x.locations = latestLocations w.store x.employee.id) ∧
      ((w.store.employees.filter (fun e => e.isActive)).length ≤ 100 →
        ∀ e ∈ w.store.employees, e.isActive = true →
          ∃ x ∈ details, x.employee = e ∧ x.presence = presenceOf w.store e.id ∧
            x.locations = latestLocations w.store e.id) ∧
      (∀ e : String,
        (latestLocations w.store e = [] ∧ ∀ l ∈ w.store.locations, l.employeeId ≠ e) ∨
        (∃ l, latestLocations w.store e = [l] ∧ l ∈ w.store.locations ∧ l.employeeId = e ∧
          ∀ l2 ∈ w.store.locations, l2.employeeId = e → l2.timestamp ≤ l.timestamp)) := by
  have hperm := List.mergeSort_perm (w.store.employees.filter (fun e => e.isActive))
    (fun a b => !decide (b.fullName < a.fullName))
  have hsorted := @List.sorted_mergeSort Employee
    (fun a b : Employee => !decide (b.fullName < a.fullName))
    (fun a b c hab hbc => by
      simp only [Bool.not_eq_true', decide_eq_false_iff_not, not_lt] at hab hbc ⊢
      exact le_trans hab hbc)
    (fun a b => by
      simp only [Bool.or_eq_true, Bool.not_eq_true', decide_eq_false_iff_not, not_lt]
      exact le_total a.fullName b.fullName)
    (w.store.employees.filter (fun e => e.isActive))
  refine ⟨(((w.store.employees.filter (fun e => e.isActive)).mergeSort
      (fun a b => !decide (b.fullName < a.fullName))).take 100).map
      (fun e => { employee := e, presence := presenceOf w.store e.id,
                  locations := latestLocations w.store e.id }),
    (w.store.employees.filter (fun e => e.isActive)).mergeSort
      (fun a b => !decide (b.fullName < a.fullName)),
    ?_, hperm, ?_, ?_, ?_, ?_, ?_, latestLocations_spec w.store⟩
  · rw [handleManagerConnection_emitted socket m w hm, snapshot_eq]
  · exact hsorted.imp (fun h => by simpa using h)
  · rw [List.map_map]
    have hid : ((fun x : EmployeeWithLocations => x.employee) ∘ fun e : Employee =>
        ({ employee := e, presence := presenceOf w.store e.id,
           locations := latestLocations w.store e.id } : EmployeeWithLocations)) = id := rfl
    rw [hid, List.map_id]
  · rw [List.length_map, List.length_take]
    exact Nat.min_le_left _ _
  · intro x hx
    simp only [List.mem_map] at hx
    obtain ⟨e, he, rfl⟩ := hx
    have hin := hperm.subset (List.mem_of_mem_take he)
    rw [List.mem_filter] at hin
    exact ⟨hin.1, hin.2, rfl, rfl⟩
  · intro hle e he hact
    have hlen : ((w.store.employees.filter (fun e => e.isActive)).mergeSort
        (fun a b => !decide (b.fullName < a.fullName))).length ≤ 100 := by
      rw [List.length_mergeSort]
      exact hle
    refine ⟨{ employee := e, presence := presenceOf w.store e.id,
              locations := latestLocations w.store e.id }, ?_, rfl, rfl, rfl⟩
    rw [List.take_of_length_le hlen]
    apply List.mem_map_of_mem
    rw [List.mem_mergeSort, List.mem_filter]
    exact ⟨he, hact⟩

/-- Witness of the amended C14: the sample manager connects while the sample
employee is online. -/
theorem initialData_snapshot_witness :
    ∃ (details : List EmployeeWithLocations) (ordered : List Employee),
      (handleManagerConnection managerSocket onlineWorld).2.emitted =
        onlineWorld.emitted ++
          [{ target := .socket managerSocket.id, payload := .initialData details }] ∧
      ordered.Perm (onlineWorld.store.employees.filter (fun e => e.isActive)) ∧
      ordered.Pairwise (fun a b => ¬ b.fullName < a.fullName) ∧
      details.map (fun x => x.employee) = ordered.take 100 ∧
      details.length ≤ 100 ∧
      (∀ x ∈ details,
        x.employee ∈ onlineWorld.store.employees ∧ x.employee.isActive = true ∧
        x.presence = presenceOf onlineWorld.store x.employee.id ∧
        x.locations = latestLocations onlineWorld.store x.employee.id) ∧
      ((onlineWorld.store.employees.filter (fun e => e.isActive)).length ≤ 100 →
        ∀ e ∈ onlineWorld.store.employees, e.isActive = true →
          ∃ x ∈ details, x.employee = e ∧ x.presence = presenceOf onlineWorld.store e.id ∧
            x.locations = latestLocations onlineWorld.store e.id) ∧
      (∀ e : String,
        (latestLocations onlineWorld.store e = [] ∧
          ∀ l ∈ onlineWorld.store.locations, l.employeeId ≠ e) ∨
        (∃ l, latestLocations onlineWorld.store e = [l] ∧ l ∈ onlineWorld.store.locations ∧
          l.employeeId = e ∧
          ∀ l2 ∈ onlineWorld.store.locations, l2.employeeId = e →
            l2.timestamp ≤ l.timestamp)) :=
  initialData_snapshot managerSocket sampleManager onlineWorld rfl

theorem crowdEmployee_injective : Function.Injective crowdEmployee := by
  intro i j h
  have h2 := congrArg (fun e : Employee => e.id.data.length) h
  simpa [crowdEmployee] using h2

/-- Counterexample to C14: with 101 active employees in the database, the
`initialData` event sent to the manager that connects lists 100 of them; one
active employee is not in it. -/
theorem initialData_omits_employee_counterexample :
    crowdedWorld.store.employees.length = 101 ∧
    crowdedWorld.store.employees.Nodup ∧
    (∀ e ∈ crowdedWorld.store.employees, e.isActive = true) ∧
    ∃ details : List EmployeeWithLocations,
      (handleManagerConnection managerSocket crowdedWorld).2.emitted =
        [{ target := .socket "m1", payload := .initialData details }] ∧
      details.length = 100 ∧
      ∃ e ∈ crowdedWorld.store.employees, e.isActive = true ∧
        ∀ x ∈ details, x.employee ≠ e := by
  have hlen : crowdedWorld.store.employees.length = 101 := by
    simp [crowdedWorld]
  have hnodup : crowdedWorld.store.employees.Nodup :=
    (List.nodup_range 101).map crowdEmployee_injective
  have hact : ∀ e ∈ crowdedWorld.store.employees, e.isActive = true := by
    intro e he
    simp only [crowdedWorld, List.mem_map] at he
    obtain ⟨i, _, rfl⟩ := he
    rfl
  have hfilter : crowdedWorld.store.employees.filter (fun e => e.isActive) =
      crowdedWorld.store.employees :=
    List.filter_eq_self.mpr hact
  have hdet : ((getAllEmployeesWithLocations crowdedWorld.store "" 1 100).employees).length
      = 100 := by
    rw [snapshot_eq, hfilter, List.length_map, List.length_take, List.length_mergeSort, hlen]
    rfl
  refine ⟨hlen, hnodup, hact, _,
    handleManagerConnection_emitted managerSocket sampleManager crowdedWorld rfl, hdet, ?_⟩
  by_contra hall
  push_neg at hall
  have hsub : crowdedWorld.store.employees ⊆
      ((getAllEmployeesWithLocations crowdedWorld.store "" 1 100).employees).map
        (fun x => x.employee) := by
    intro e he
    obtain ⟨x, hx, hxe⟩ := hall e he (hact e he)
    exact List.mem_map.mpr ⟨x, hx, hxe⟩
  have hle := (List.subperm_of_subset hnodup hsub).length_le
  rw [List.length_map, hdet, hlen] at hle
  exact absurd hle (by decide)

/-! ## Manager sessions -/

theorem handleManagerConnection_presenceUpdates (socket : Socket) (w : World) :
    presenceUpdates (handleManagerConnection socket w).2.emitted = presenceUpdates w.emitted := by
  unfold handleManagerConnection
  cases socket.manager with
  | none => rfl
  | some m =>
    simp [presenceUpdates, World.emit, World.setSocket, List.filter_append,
      Payload.isPresenceUpdate]

/-- C21: a manager session has no presence effect. The connection of a manager
(admitted or refused), a `requestEmployeeUpdate` it sends (with or without
payload) and the disconnection of a socket of the `/manager` namespace leave the
whole database, presence table and location history included, as it was, and add
no `presenceUpdate` to the emissions; the disconnection emits nothing and arms
no timer. -/
theorem manager_session_has_no_presence_effect (cfg : Config)
    (jwtVerify : String → String → Option Decoded) (f : Faults) (now : Time) (w : World)
    (socketId : String) (token : Option String) (data : Option EmployeeUpdateRequest)
    (socket : Socket) :
    (handle cfg jwtVerify f now (.managerConnect socketId token) w).store = w.store ∧
    presenceUpdates (handle cfg jwtVerify f now (.managerConnect socketId token) w).emitted =
      presenceUpdates w.emitted ∧
    (onRequestEmployeeUpdate data socket w).store = w.store ∧
    presenceUpdates (onRequestEmployeeUpdate data socket w).emitted =
      presenceUpdates w.emitted ∧
    (w.sockets.find? (fun x => x.id == socketId) = some socket → socket.nsp = "/manager" →
      (handle cfg jwtVerify f now (.disconnect socketId) w).store = w.store ∧
      (handle cfg jwtVerify f now (.disconnect socketId) w).emitted = w.emitted ∧
      (handle cfg jwtVerify f now (.disconnect socketId) w).timers = w.timers) := by
  refine ⟨?_, ?_, ?_, ?_, ?_⟩
  · simp only [handle]
    rcases hauth : authenticateManager cfg jwtVerify w.store
      (Socket.fresh socketId "/manager" token) with ⟨s1, err⟩
    cases err with
    | some _ => rfl
    | none =>
      dsimp only
      rw [handleManagerConnection_store]
      rfl
  · simp only [handle]
    rcases hauth : authenticateManager cfg jwtVerify w.store
      (Socket.fresh socketId "/manager" token) with ⟨s1, err⟩
    cases err with
    | some _ => rfl
    | none =>
      dsimp only
      rw [handleManagerConnection_presenceUpdates]
      rfl
  · cases data <;> rfl
  · cases data with
    | none => rfl
    | some request =>
      simp [onRequestEmployeeUpdate, presenceUpdates, World.emit, List.filter_append,
        Payload.isPresenceUpdate]
  · intro hfind hnsp
    have hne : (socket.nsp == "/employee") = false := by
      rw [hnsp]
      decide
    simp only [handle, hfind, hne, Bool.false_and, Bool.false_eq_true, if_false,
      World.dropSocket, and_self]

theorem getLatestLocation_eq (s : Store) (e : String) :
    getLatestLocation s (some e) =
      (latestLocations s e).head?.map (fun l =>
        { location := l
          employee := (s.employees.find? (fun x => x.id == l.employeeId)).map Employee.info }) := by
  unfold getLatestLocation latestLocations
  cases (s.locations.filter (fun l => l.employeeId == e)).mergeSort
    (fun a b => decide (b.timestamp ≤ a.timestamp)) <;> rfl

theorem getLatestLocation_spec (s : Store) (e : String) :
    (getLatestLocation s (some e) = none ↔ ∀ l ∈ s.locations, l.employeeId ≠ e) ∧
    (∀ r, getLatestLocation s (some e) = some r →
      r.location ∈ s.locations ∧ r.location.employeeId = e ∧
      ∀ l2 ∈ s.locations, l2.employeeId = e → l2.timestamp ≤ r.location.timestamp) := by
  rw [getLatestLocation_eq]
  rcases latestLocations_spec s e with ⟨hnil, hnone⟩ | ⟨l, hl, hmem, he, hmax⟩
  · rw [hnil]
    refine ⟨⟨fun _ => hnone, fun _ => rfl⟩, fun r hr => ?_⟩
    simp at hr
  · rw [hl]
    refine ⟨⟨fun h => ?_, fun h => absurd he (h l hmem)⟩, fun r hr => ?_⟩
    · simp at h
    · simp only [List.head?_cons, Option.map_some', Option.some.injEq] at hr
      subst hr
      exact ⟨hmem, he, hmax⟩

/-- C22: a `requestEmployeeUpdate` that carries an `employeeId` is answered with
exactly one emission: an `employeeUpdate` with that `employeeId` and the result
of `getLatestLocation`, addressed to the requesting socket, which is not the
managers group and reaches no other socket; the result is `null` exactly when
the employee has no sample; the store is not changed. -/
theorem employeeUpdate_reply (socket : Socket) (w : World) (e : String) :
    (onRequestEmployeeUpdate (some { employeeId := some e }) socket w).emitted =
      w.emitted ++ [{ target := .socket socket.id,
                      payload := .employeeUpdate (some e)
                        (getLatestLocation w.store (some e)) }] ∧
    Target.socket socket.id ≠ managersGroup ∧
    (∀ x ∈ recipients w.sockets (.socket socket.id), x = socket.id) ∧
    (getLatestLocation w.store (some e) = none ↔
      ∀ l ∈ w.store.locations, l.employeeId ≠ e) ∧
    (onRequestEmployeeUpdate (some { employeeId := some e }) socket w).store = w.store := by
  refine ⟨rfl, by simp [managersGroup], ?_, (getLatestLocation_spec w.store e).1, rfl⟩
  intro x hx
  simp only [recipients, List.mem_map, List.mem_filter, beq_iff_eq] at hx
  obtain ⟨y, ⟨_, hy⟩, rfl⟩ := hx
  exact hy

/-- C23: a heartbeat of an admitted session on an existing device, its writes
succeeding, adds exactly one emission, a `heartbeatAck` carrying the instant
`now` and addressed to the sending socket only; afterwards the device of the
session has `lastSeenAt = now` and the presence of the employee is online with
`lastSeenAt = now`. -/
theorem heartbeat_acknowledged (socket : Socket) (w : World) (d e : String) (now : Time)
    (hdev : socket.deviceId = some d) (hemp : socket.employeeId = some e)
    (hex : w.store.devices.any (fun x => x.id == d) = true) :
    (onHeartbeat noFaults now socket w).emitted =
      w.emitted ++ [{ target := .socket socket.id, payload := .heartbeatAck now }] ∧
    Target.socket socket.id ≠ managersGroup ∧
    (∀ x ∈ recipients (onHeartbeat noFaults now socket w).sockets (.socket socket.id),
      x = socket.id) ∧
    (∃ dv ∈ (onHeartbeat noFaults now socket w).store.devices, dv.id = d) ∧
    (∀ dv ∈ (onHeartbeat noFaults now socket w).store.devices,
      dv.id = d → dv.lastSeenAt = now) ∧
    presenceOf (onHeartbeat noFaults now socket w).store e =
      some { employeeId := e, isOnline := true, lastSeenAt := now } := by
  rw [onHeartbeat_ok now socket w d e hdev hemp hex]
  refine ⟨rfl, by simp [managersGroup], ?_, ?_, ?_, ?_⟩
  · intro x hx
    simp only [recipients, List.mem_map, List.mem_filter, beq_iff_eq] at hx
    obtain ⟨y, ⟨_, hy⟩, rfl⟩ := hx
    exact hy
  · rw [List.any_eq_true] at hex
    obtain ⟨x, hx, hxd⟩ := hex
    have hxd2 : x.id = d := by simpa using hxd
    refine ⟨{ x with lastSeenAt := now }, ?_, hxd2⟩
    simp only [World.emit, List.mem_map]
    exact ⟨x, hx, by simp [hxd2]⟩
  · intro dv hdv hid
    simp only [World.emit, List.mem_map] at hdv
    obtain ⟨x, _, rfl⟩ := hdv
    by_cases hx : x.id = d
    · simp [hx]
    · simp only [beq_iff_eq, hx, if_false] at hid
  · simp only [World.emit, presenceOf]
    exact find_upsertPresence_self _ _ _ _

/-- Witness of C23: a heartbeat of the sample employee at 5000. -/
theorem heartbeat_acknowledged_witness :
    (onHeartbeat noFaults 5000 sampleSocket onlineWorld).emitted =
      onlineWorld.emitted ++
        [{ target := .socket sampleSocket.id, payload := .heartbeatAck 5000 }] ∧
    Target.socket sampleSocket.id ≠ managersGroup ∧
    (∀ x ∈ recipients (onHeartbeat noFaults 5000 sampleSocket onlineWorld).sockets
        (.socket sampleSocket.id), x = sampleSocket.id) ∧
    (∃ dv ∈ (onHeartbeat noFaults 5000 sampleSocket onlineWorld).store.devices,
      dv.id = "DEV001") ∧
    (∀ dv ∈ (onHeartbeat noFaults 5000 sampleSocket onlineWorld).store.devices,
      dv.id = "DEV001" → dv.lastSeenAt = 5000) ∧
    presenceOf (onHeartbeat noFaults 5000 sampleSocket onlineWorld).store "EMP001" =
      some { employeeId := "EMP001", isOnline := true, lastSeenAt := 5000 } :=
  heartbeat_acknowledged sampleSocket onlineWorld "DEV001" "EMP001" 5000 rfl rfl (by decide)

/-! ## Latest location after an ingest -/

/-- C30, as the code has it: after a successful `saveLocationUpdate` of an
employee, `getLatestLocation` returns the sample just ingested when its stored
timestamp is later than that of every earlier sample of the employee. In every
store, `getLatestLocation` returns `null` exactly when the employee has no
sample, and otherwise one of the samples of the employee whose timestamp is
greater than or equal to that of every other one. -/
theorem latest_location_after_ingest (f : Faults) (geo : HttpResult) (now : Time)
    (e : String) (d : LocationData) (s : Store) (location : Location)
    (h : (saveLocationUpdate f geo now e d s).1 = .ok location)
    (hnew : ∀ l ∈ s.locations, l.employeeId = e → l.timestamp < location.timestamp) :
    (getLatestLocation (saveLocationUpdate f geo now e d s).2 (some e)).map
        (fun r => r.location) = some location ∧
    (getLatestLocation s (some e) = none ↔ ∀ l ∈ s.locations, l.employeeId ≠ e) ∧
    (∀ r, getLatestLocation s (some e) = some r →
      r.location ∈ s.locations ∧ r.location.employeeId = e ∧
      ∀ l2 ∈ s.locations, l2.employeeId = e → l2.timestamp ≤ r.location.timestamp) := by
  refine ⟨?_, getLatestLocation_spec s e⟩
  obtain ⟨lat, lon, hlat, hlon, hc, hu⟩ := saveLocationUpdate_ok_inv f geo now e d s location h
  have hloc : (saveLocationUpdate f geo now e d s).2.locations = s.locations ++ [location] ∧
      location.employeeId = e := by
    rw [saveLocationUpdate_ok f geo now e d s lat lon hlat hlon hc hu] at h ⊢
    simp only [Except.ok.injEq] at h
    subst h
    exact ⟨rfl, rfl⟩
  obtain ⟨hnone, hsome⟩ := getLatestLocation_spec (saveLocationUpdate f geo now e d s).2 e
  cases hget : getLatestLocation (saveLocationUpdate f geo now e d s).2 (some e) with
  | none =>
    have := hnone.mp hget location (by rw [hloc.1]; simp)
    exact absurd hloc.2 this
  | some r =>
    obtain ⟨hmem, _, hmax⟩ := hsome r hget
    rw [hloc.1] at hmem hmax
    simp only [Option.map_some', Option.some.injEq]
    rcases List.mem_append.mp hmem with hold | hlast
    · have h1 := hmax location (by simp) hloc.2
      have h2 := hnew r.location hold (by
        have := (hsome r hget).2.1
        exact this)
      exact absurd h1 (not_le.mpr h2)
    · simpa using hlast

/-- Witness of the amended C30: a sample without client timestamp, ingested at
6000 after the sample stored with the timestamp 5000. -/
theorem latest_location_after_ingest_witness :
    (getLatestLocation (saveLocationUpdate noFaults .throws 6000 "EMP001" sampleBody
        historyStore).2 (some "EMP001")).map (fun r => r.location) =
      some { earlierSample with id := 2, timestamp := 6000 } ∧
    (getLatestLocation historyStore (some "EMP001") = none ↔
      ∀ l ∈ historyStore.locations, l.employeeId ≠ "EMP001") ∧
    (∀ r, getLatestLocation historyStore (some "EMP001") = some r →
      r.location ∈ historyStore.locations ∧ r.location.employeeId = "EMP001" ∧
      ∀ l2 ∈ historyStore.locations, l2.employeeId = "EMP001" →
        l2.timestamp ≤ r.location.timestamp) :=
  latest_location_after_ingest noFaults .throws 6000 "EMP001" sampleBody historyStore
    { earlierSample with id := 2, timestamp := 6000 }
    (by
      rw [saveLocationUpdate_ok noFaults .throws 6000 "EMP001" _ historyStore 37.7749
        (-122.4194) rfl rfl rfl rfl]
      rfl)
    (by
      intro l hl _
      simp only [historyStore, List.mem_singleton] at hl
      subst hl
      decide)

/-- Counterexample to C30: the sample employee has a sample with the timestamp
5000; a sample whose client timestamp is 1000 is then ingested successfully;
`getLatestLocation` still returns the earlier sample, not the one just ingested. -/
theorem latest_location_not_ingested_counterexample :
    (saveLocationUpdate noFaults .throws 6000 "EMP001"
        { sampleBody with timestamp := some 1000 } historyStore).1 =
      .ok { earlierSample with id := 2, timestamp := 1000 } ∧
    (getLatestLocation (saveLocationUpdate noFaults .throws 6000 "EMP001"
        { sampleBody with timestamp := some 1000 } historyStore).2 (some "EMP001")).map
        (fun r => r.location) = some earlierSample ∧
    earlierSample ≠ { earlierSample with id := 2, timestamp := 1000 } := by
  have hsave := saveLocationUpdate_ok noFaults .throws 6000 "EMP001"
    { sampleBody with timestamp := some 1000 } historyStore 37.7749 (-122.4194) rfl rfl rfl rfl
  refine ⟨by rw [hsave]; rfl, ?_, ?_⟩
  · obtain ⟨hnone, hsome⟩ := getLatestLocation_spec
      (saveLocationUpdate noFaults .throws 6000 "EMP001"
        { sampleBody with timestamp := some 1000 } historyStore).2 "EMP001"
    have hlocs : (saveLocationUpdate noFaults .throws 6000 "EMP001"
        { sampleBody with timestamp := some 1000 } historyStore).2.locations =
        [earlierSample, { earlierSample with id := 2, timestamp := 1000 }] := by
      rw [hsave]
      rfl
    cases hget : getLatestLocation (saveLocationUpdate noFaults .throws 6000 "EMP001"
        { sampleBody with timestamp := some 1000 } historyStore).2 (some "EMP001") with
    | none =>
      have := hnone.mp hget earlierSample (by rw [hlocs]; simp)
      exact absurd rfl this
    | some r =>
      obtain ⟨hmem, _, hmax⟩ := hsome r hget
      rw [hlocs] at hmem hmax
      simp only [Option.map_some', Option.some.injEq]
      have h1 := hmax earlierSample (by simp) rfl
      simp only [List.mem_cons, List.mem_singleton, List.not_mem_nil, or_false] at hmem
      rcases hmem with hr | hr
      · exact hr
      · rw [hr] at h1
        exact absurd h1 (by decide)
  · intro h
    have := congrArg (fun l : Location => l.id) h
    exact absurd this (by decide)

/-! ## Failures reported by the ingest -/

/-- Counterexample to C29: the write of the sample succeeds and the write of the
presence fails; `saveLocationUpdate` raises the error of the presence write
while the sample is in the location table. -/
theorem ingest_failure_keeps_sample_counterexample :
    (saveLocationUpdate { noFaults with presenceUpsert := true } .throws 6000 "EMP001"
        sampleBody historyStore).1 = .error (.writeFailed "presence") ∧
    (saveLocationUpdate { noFaults with presenceUpsert := true } .throws 6000 "EMP001"
        sampleBody historyStore).2.locations =
      historyStore.locations ++ [{ earlierSample with id := 2, timestamp := 6000 }] := by
  simp [saveLocationUpdate, createLocation, updatePresence, noFaults, sampleBody,
    historyStore, earlierSample, reverseGeocode, sampleStore]

/-- C29, as the code has it: when `saveLocationUpdate` raises an error, the
location history is unchanged if the sample lacks a coordinate or the write of
the sample failed; when the sample was written and the presence write failed,
the error is raised while the history holds the new sample of the employee as
its last row, and the presence table is unchanged. -/
theorem ingest_failure_effects (f : Faults) (geo : HttpResult) (now : Time) (e : String)
    (d : LocationData) (s : Store) (err : DbError)
    (h : (saveLocationUpdate f geo now e d s).1 = .error err) :
    ((d.latitude = none ∨ d.longitude = none ∨ f.locationCreate = true) →
      (saveLocationUpdate f geo now e d s).2 = s) ∧
    (∀ lat lon, d.latitude = some lat → d.longitude = some lon →
      f.locationCreate = false →
      f.presenceUpsert = true ∧ err = .writeFailed "presence" ∧
      (∃ location : Location,
        (saveLocationUpdate f geo now e d s).2.locations = s.locations ++ [location] ∧
        location.employeeId = e ∧ location.latitude = lat ∧ location.longitude = lon) ∧
      (saveLocationUpdate f geo now e d s).2.presences = s.presences) := by
  constructor
  · intro hcase
    cases hlat : d.latitude with
    | none => simp [saveLocationUpdate, createLocation, hlat]
    | some lat =>
      cases hlon : d.longitude with
      | none => simp [saveLocationUpdate, createLocation, hlat, hlon]
      | some lon =>
        rcases hcase with hc | hc | hc
        · rw [hlat] at hc
          exact absurd hc (by simp)
        · rw [hlon] at hc
          exact absurd hc (by simp)
        · simp [saveLocationUpdate, createLocation, hlat, hlon, hc]
  · intro lat lon hlat hlon hc
    cases hu : f.presenceUpsert with
    | false =>
      rw [saveLocationUpdate_ok f geo now e d s lat lon hlat hlon hc hu] at h
      simp at h
    | true =>
      have hs : saveLocationUpdate f geo now e d s =
          (.error (.writeFailed "presence"),
           { s with locations := s.locations ++
              [{ id := s.locations.length + 1, employeeId := e, latitude := lat,
                 longitude := lon, accuracy := d.accuracy, altitude := d.altitude,
                 speed := d.speed, heading := d.heading, battery := d.battery,
                 address := reverseGeocode geo, timestamp := d.timestamp.getD now }] }) := by
        simp [saveLocationUpdate, createLocation, updatePresence, hlat, hlon, hc, hu]
      rw [hs] at h ⊢
      simp only [Except.error.injEq] at h
      exact ⟨rfl, h.symm, ⟨_, rfl, rfl, rfl, rfl⟩, rfl⟩

/-- Witness of the amended C29: the sample submission while the presence table
rejects writes. -/
theorem ingest_failure_effects_witness :
    ((sampleBody.latitude = none ∨ sampleBody.longitude = none ∨
        ({ noFaults with presenceUpsert := true } : Faults).locationCreate = true) →
      (saveLocationUpdate { noFaults with presenceUpsert := true } .throws 6000 "EMP001"
        sampleBody historyStore).2 = historyStore) ∧
    (∀ lat lon, sampleBody.latitude = some lat → sampleBody.longitude = some lon →
      ({ noFaults with presenceUpsert := true } : Faults).locationCreate = false →
      ({ noFaults with presenceUpsert := true } : Faults).presenceUpsert = true ∧
      DbError.writeFailed "presence" = .writeFailed "presence" ∧
      (∃ location : Location,
        (saveLocationUpdate { noFaults with presenceUpsert := true } .throws 6000 "EMP001"
          sampleBody historyStore).2.locations = historyStore.locations ++ [location] ∧
        location.employeeId = "EMP001" ∧ location.latitude = lat ∧
        location.longitude = lon) ∧
      (saveLocationUpdate { noFaults with presenceUpsert := true } .throws 6000 "EMP001"
        sampleBody historyStore).2.presences = historyStore.presences) :=
  ingest_failure_effects { noFaults with presenceUpsert := true } .throws 6000 "EMP001"
    sampleBody historyStore (.writeFailed "presence")
    (by
      simp [saveLocationUpdate, createLocation, updatePresence, noFaults, sampleBody])

/-! ## The geocode request -/

/-- Counterexample to C28: against a provider that never answers, the one
request of `reverseGeocode` carries no timeout, the call never returns (it does
not end in `null`), and the ingest that awaits it never completes. -/
theorem silent_provider_blocks_counterexample :
    (reverseGeocodeCall defaultNominatimApiUrl sampleBody.latitude sampleBody.longitude
      .silent).requests.map (fun r => r.timeout) = [none] ∧
    (reverseGeocodeCall defaultNominatimApiUrl sampleBody.latitude sampleBody.longitude
      .silent).result = none ∧
    (reverseGeocodeCall defaultNominatimApiUrl sampleBody.latitude sampleBody.longitude
      .silent).result ≠ some none ∧
    saveLocationUpdateCall noFaults defaultNominatimApiUrl .silent 1000 "EMP001" sampleBody
      sampleStore = none := by
  refine ⟨rfl, rfl, ?_, rfl⟩
  intro h
  exact Option.noConfusion h

/-- C28, as the code has it: each call of `reverseGeocode` issues exactly one
request and never a second one; the request carries no timeout. When the
provider answers, after whatever delay, the call returns what `reverseGeocode`
makes of the answer and the ingest goes on with it; when the provider never
answers, the call never returns and the ingest that awaits it never completes. -/
theorem geocode_single_request_without_timeout (f : Faults) (nominatimApiUrl : String)
    (latitude longitude : Option Rat) (now : Time) (e : String) (d : LocationData)
    (s : Store) (provider : Provider) :
    (reverseGeocodeCall nominatimApiUrl latitude longitude provider).requests.length = 1 ∧
    (∀ r ∈ (reverseGeocodeCall nominatimApiUrl latitude longitude provider).requests,
      r.timeout = none ∧ r.lat = latitude ∧ r.lon = longitude) ∧
    (∀ afterMs result, provider = .answers afterMs result →
      (reverseGeocodeCall nominatimApiUrl latitude longitude provider).result =
        some (reverseGeocode result) ∧
      saveLocationUpdateCall f nominatimApiUrl provider now e d s =
        some (saveLocationUpdate f result now e d s)) ∧
    (provider = .silent →
      (reverseGeocodeCall nominatimApiUrl latitude longitude provider).result = none ∧
      saveLocationUpdateCall f nominatimApiUrl provider now e d s = none) := by
  refine ⟨rfl, ?_, ?_, ?_⟩
  · intro r hr
    simp only [reverseGeocodeCall, List.mem_singleton] at hr
    subst hr
    exact ⟨rfl, rfl, rfl⟩
  · intro afterMs result hp
    subst hp
    exact ⟨rfl, rfl⟩
  · intro hp
    subst hp
    exact ⟨rfl, rfl⟩

/-! ## Manager login -/

/-- Counterexample to C24: a wrong password of five characters for the account
of `create-manager.js` is answered with status 400, not 401; and the right
password of the second account, which has five characters, is answered with 400
as well, while `loginManager` itself accepts it. -/
theorem short_password_login_counterexample :
    (postManagerLogin sampleIsEmail (fun email => email) sampleCompare sampleSign
      defaultJwtConfig sampleAccounts
      { email := some "admin@company.com", password := some "wrong" }).status = 400 ∧
    (postManagerLogin sampleIsEmail (fun email => email) sampleCompare sampleSign
      defaultJwtConfig sampleAccounts
      { email := some "ops@company.com", password := some "ops12" }).status = 400 ∧
    (∃ data, loginManager sampleCompare sampleSign defaultJwtConfig sampleAccounts
      "ops@company.com" "ops12" = .ok data) := by
  refine ⟨by decide, by decide, ?_⟩
  exact ⟨_, rfl⟩

theorem loginManager_cases (compare : String → String → Bool)
    (jwtSign : Decoded → String → String → String) (cfg : JwtConfig)
    (managers : List ManagerAccount) (email password : String) :
    (∃ m, managers.find? (fun m => m.email == email && m.isActive) = some m ∧
      compare password m.password = true ∧
      loginManager compare jwtSign cfg managers email password =
        .ok { id := m.id, fullName := m.fullName, email := m.email, company := m.company
              tokens := generateTokens jwtSign cfg
                { id := some m.id, role := some "manager", deviceId := none } }) ∨
    ((¬ ∃ m, managers.find? (fun m => m.email == email && m.isActive) = some m ∧
        compare password m.password = true) ∧
      loginManager compare jwtSign cfg managers email password =
        .error "Invalid credentials") := by
  unfold loginManager
  cases hfind : managers.find? (fun m => m.email == email && m.isActive) with
  | none =>
    right
    exact ⟨by simp, rfl⟩
  | some m =>
    by_cases hc : compare password m.password = true
    · left
      exact ⟨m, rfl, hc, by simp [hc]⟩
    · right
      refine ⟨?_, by simp [hc]⟩
      rintro ⟨m2, hm2, hc2⟩
      simp only [Option.some.injEq] at hm2
      subst hm2
      exact hc hc2

/-- C24, as the code has it. `loginManager` succeeds if and only if the active
manager with the email exists and the password matches its stored hash; its
result then carries tokens signed for that manager's id and the role `manager`,
and every failure is `Invalid credentials`. The route runs it only behind
`validateManagerLogin`: for an email that passes `isEmail` and a password of at
least 6 characters it logs in with the normalized email and answers 200 with the
result, or 401 without tokens; any other email or password is answered 400 by
the validation, without tokens, whatever the manager table holds. -/
theorem manager_login_behind_validation (isEmail : String → Bool)
    (normalizeEmail : String → String) (compare : String → String → Bool)
    (jwtSign : Decoded → String → String → String) (cfg : JwtConfig)
    (managers : List ManagerAccount) (email password : String) :
    ((∃ data, loginManager compare jwtSign cfg managers email password = .ok data) ↔
      ∃ m, managers.find? (fun m => m.email == email && m.isActive) = some m ∧
        compare password m.password = true) ∧
    (∀ data, loginManager compare jwtSign cfg managers email password = .ok data →
      ∃ m ∈ managers, m.email = email ∧ m.isActive = true ∧
        compare password m.password = true ∧ data.id = m.id ∧
        data.tokens = generateTokens jwtSign cfg
          { id := some m.id, role := some "manager", deviceId := none }) ∧
    (∀ message, loginManager compare jwtSign cfg managers email password = .error message →
      message = "Invalid credentials") ∧
    (isEmail email = true → 6 ≤ password.length →
      (∀ data, loginManager compare jwtSign cfg managers (normalizeEmail email) password =
          .ok data →
        postManagerLogin isEmail normalizeEmail compare jwtSign cfg managers
            { email := some email, password := some password } =
          { status := 200, body := .loggedIn data }) ∧
      (∀ message, loginManager compare jwtSign cfg managers (normalizeEmail email) password =
          .error message →
        postManagerLogin isEmail normalizeEmail compare jwtSign cfg managers
            { email := some email, password := some password } =
          { status := 401, body := .failure "Invalid credentials" })) ∧
    ((isEmail email = false ∨ password.length < 6) →
      postManagerLogin isEmail normalizeEmail compare jwtSign cfg managers
          { email := some email, password := some password } =
        { status := 400,
          body := .validationFailed (validateManagerLogin isEmail
            { email := some email, password := some password }) } ∧
      validateManagerLogin isEmail { email := some email, password := some password } ≠ []) := by
  refine ⟨?_, ?_, ?_, ?_, ?_⟩
  · rcases loginManager_cases compare jwtSign cfg managers email password with
      ⟨m, hf, hc, hl⟩ | ⟨hnot, hl⟩
    · exact ⟨fun _ => ⟨m, hf, hc⟩, fun _ => ⟨_, hl⟩⟩
    · rw [hl]
      exact ⟨fun ⟨_, h⟩ => Except.noConfusion h, fun h => absurd h hnot⟩
  · intro data hdata
    rcases loginManager_cases compare jwtSign cfg managers email password with
      ⟨m, hf, hc, hl⟩ | ⟨_, hl⟩
    · rw [hl] at hdata
      simp only [Except.ok.injEq] at hdata
      subst hdata
      have hp := List.find?_some hf
      simp only [Bool.and_eq_true, beq_iff_eq] at hp
      exact ⟨m, List.mem_of_find?_eq_some hf, hp.1, hp.2, hc, rfl, rfl⟩
    · rw [hl] at hdata
      exact Except.noConfusion hdata
  · intro message hmsg
    rcases loginManager_cases compare jwtSign cfg managers email password with
      ⟨m, _, _, hl⟩ | ⟨_, hl⟩
    · rw [hl] at hmsg
      exact Except.noConfusion hmsg
    · rw [hl] at hmsg
      simp only [Except.error.injEq] at hmsg
      exact hmsg.symm
  · intro hemail hlen
    have hvalid : validateManagerLogin isEmail
        { email := some email, password := some password } = [] := by
      simp [validateManagerLogin, hemail, hlen]
    constructor
    · intro data hdata
      simp [postManagerLogin, hvalid, hdata]
    · intro message hmsg
      rcases loginManager_cases compare jwtSign cfg managers (normalizeEmail email)
          password with ⟨m, _, _, hl⟩ | ⟨_, hl⟩
      · rw [hl] at hmsg
        exact Except.noConfusion hmsg
      · simp [postManagerLogin, hvalid, hl]
  · intro hbad
    have hinvalid : validateManagerLogin isEmail
        { email := some email, password := some password } ≠ [] := by
      rcases hbad with h | h
      · simp [validateManagerLogin, h]
      · simp [validateManagerLogin, not_le.mpr h]
    exact ⟨by simp [postManagerLogin, hinvalid], hinvalid⟩

/-- Witness of the amended C24: the account of `create-manager.js` logs in. -/
theorem manager_login_behind_validation_witness :
    postManagerLogin sampleIsEmail (fun email => email) sampleCompare sampleSign
        defaultJwtConfig sampleAccounts
        { email := some "admin@company.com", password := some "admin123" } =
      { status := 200,
        body := .loggedIn
          { id := "MGR001", fullName := "Admin Manager", email := "admin@company.com",
            company := "Company Name"
            tokens := generateTokens sampleSign defaultJwtConfig
              { id := some "MGR001", role := some "manager", deviceId := none } } } :=
  ((manager_login_behind_validation sampleIsEmail (fun email => email) sampleCompare
      sampleSign defaultJwtConfig sampleAccounts "admin@company.com" "admin123").2.2.2.1
    (by decide) (by decide)).1 _ rfl

/-! ## Manager-only routes -/

/-- What the chain in front of the manager-only routes guarantees: a request
reaches the handler exactly when its token verifies and an active manager has
the id it carries; the role of the token is not consulted. -/
theorem managerOnly_runs_iff (cfg : Config) (jwtVerify : String → String → Option Decoded)
    (s : Store) (token : Option String) (user : Decoded) (manager : Manager) :
    managerOnly cfg jwtVerify s token = .handlerRuns user manager ↔
      ∃ t id, token = some t ∧ t ≠ "" ∧ jwtVerify t cfg.jwtSecret = some user ∧
        user.id = some id ∧
        s.managers.find? (fun m => m.id == id && m.isActive) = some manager := by
  unfold managerOnly verifyToken verifyManager
  cases token with
  | none => simp
  | some t =>
    by_cases ht : t = ""
    · simp [ht]
    · cases hv : jwtVerify t cfg.jwtSecret with
      | none => simp [ht, hv]
      | some d =>
        cases hid : d.id with
        | none =>
          simp only [ht, hv, hid, if_false]
          constructor
          · intro h
            exact Gate.noConfusion h
          · rintro ⟨t2, id, h1, _, h3, h4, _⟩
            cases h1
            rw [hv] at h3
            cases h3
            rw [hid] at h4
            exact Option.noConfusion h4
        | some id =>
          cases hf : s.managers.find? (fun m => m.id == id && m.isActive) with
          | none =>
            simp only [ht, hv, hid, hf, if_false]
            constructor
            · intro h
              exact Gate.noConfusion h
            · rintro ⟨t2, id2, h1, _, h3, h4, h5⟩
              cases h1
              rw [hv] at h3
              cases h3
              rw [hid] at h4
              cases h4
              rw [hf] at h5
              exact Option.noConfusion h5
          | some m =>
            simp only [ht, hv, hid, hf, if_false, Gate.handlerRuns.injEq]
            constructor
            · rintro ⟨h1, h2⟩
              subst h1 h2
              exact ⟨t, id, rfl, ht, hv, hid, hf⟩
            · rintro ⟨t2, id2, h1, _, h3, h4, h5⟩
              cases h1
              rw [hv] at h3
              cases h3
              rw [hid] at h4
              cases h4
              rw [hf] at h5
              cases h5
              exact ⟨rfl, rfl⟩

/-- C25: the tokens the code signs with a role other than `manager` are those
of `loginEmployee` and `registerDevice`, whose `id` is the id of an employee.
For every request with such a token that verifies, the employee it was signed
for having the id of no manager (the two tables draw their ids apart), the
chain `verifyToken, verifyManager` answers 403 and the route handler does not
run. -/
theorem managerOnly_rejects_employee_tokens (cfg : Config)
    (jwtVerify : String → String → Option Decoded) (s : Store) (t : String) (user : Decoded)
    (employee : Employee) (device : Device)
    (ht : t ≠ "")
    (hverified : jwtVerify t cfg.jwtSecret = some user)
    (hsigned : user = loginEmployeePayload employee ∨
      user = registerDevicePayload employee device)
    (hids : ∀ m ∈ s.managers, m.id ≠ employee.id) :
    user.role ≠ some "manager" ∧
    managerOnly cfg jwtVerify s (some t) = .rejected 403 "Manager not found or inactive." ∧
    ∀ u m, managerOnly cfg jwtVerify s (some t) ≠ .handlerRuns u m := by
  have hid : user.id = some employee.id := by
    rcases hsigned with h | h <;> subst h <;> rfl
  have hrole : user.role = some "employee" := by
    rcases hsigned with h | h <;> subst h <;> rfl
  have hfind : s.managers.find? (fun m => m.id == employee.id && m.isActive) = none := by
    rw [List.find?_eq_none]
    intro m hm
    simp [hids m hm]
  have hrej : managerOnly cfg jwtVerify s (some t) =
      .rejected 403 "Manager not found or inactive." := by
    simp only [managerOnly, verifyToken, ht, if_false, hverified, verifyManager, hid, hfind]
  refine ⟨?_, hrej, ?_⟩
  · rw [hrole]
    decide
  · intro u m h
    rw [hrej] at h
    exact Gate.noConfusion h

/-- Witness of C25: the token of the sample employee on its device, on the
sample database, whose manager is `MGR001`. -/
theorem managerOnly_rejects_employee_tokens_witness :
    ({ id := some "EMP001", role := some "employee", deviceId := some "DEV001" } :
      Decoded).role ≠ some "manager" ∧
    managerOnly defaultConfig sampleVerify sampleStore (some "employee-token") =
      .rejected 403 "Manager not found or inactive." ∧
    ∀ u m, managerOnly defaultConfig sampleVerify sampleStore (some "employee-token") ≠
      .handlerRuns u m :=
  managerOnly_rejects_employee_tokens defaultConfig sampleVerify sampleStore "employee-token"
    { id := some "EMP001", role := some "employee", deviceId := some "DEV001" }
    sampleEmployee sampleDevice (by decide) (by decide) (Or.inr rfl) (by decide)

/-! ## The root server -/

theorem rootPostLocation_stores (presenceFails : Bool) (newId : String) (now : Time)
    (e : String) (body : RootLocationBody) (w : RootWorld) (lat lon : Rat)
    (hlat : body.latitude = some lat) (hlon : body.longitude = some lon)
    (hlat0 : lat ≠ 0) (hlon0 : lon ≠ 0) :
    (rootPostLocation false presenceFails newId now (some e) body w).1 = .success newId ∧
    ∃ record : RootLocation,
      (rootPostLocation false presenceFails newId now (some e) body w).2.locations =
        w.locations ++ [record] ∧
      record.id = newId ∧ record.employeeId = e ∧ record.latitude = lat ∧
      record.longitude = lon := by
  have h1 : (lat == 0) = false := by simpa using hlat0
  have h2 : (lon == 0) = false := by simpa using hlon0
  have hrun : rootPostLocation false presenceFails newId now (some e) body w =
      (.success newId,
        { locations := w.locations ++
            [{ id := newId, employeeId := e, latitude := lat, longitude := lon
               accuracy := body.accuracy, altitude := body.altitude, speed := body.speed
               heading := body.heading
               batteryLevel := body.deviceStatus.bind (fun st => st.batteryLevel)
               batteryState := body.deviceStatus.bind (fun st => st.batteryState)
               isOnline := body.deviceStatus.bind (fun st => st.isOnline)
               connectionType := body.deviceStatus.bind (fun st => st.connectionType)
               signalStrength := body.deviceStatus.bind (fun st => st.signalStrength)
               timestamp := now }]
          presence :=
            if presenceFails then w.presence
            else w.presence.filter (fun p => p.employeeId != e) ++
              [{ employeeId := e, online := true, lastSeenAt := now }]
          emitted := w.emitted ++
            [{ employeeId := e, latitude := lat, longitude := lon
               accuracy := body.accuracy, timestamp := now
               deviceStatus := body.deviceStatus }] }) := by
    simp [rootPostLocation, isFalsy, hlat, hlon, h1, h2]
  rw [hrun]
  exact ⟨rfl, _, rfl, rfl, rfl, rfl, rfl⟩

/-- Counterexample to C26: a submission with latitude 91 and longitude 200, both
out of range, is accepted by the root server and stored. -/
theorem root_out_of_range_stored_counterexample :
    (rootPostLocation false false "L1" 1000 (some "EMP001")
      { rootBody with latitude := some 91, longitude := some 200 } rootWorld).1 =
      .success "L1" ∧
    (rootPostLocation false false "L1" 1000 (some "EMP001")
      { rootBody with latitude := some 91, longitude := some 200 } rootWorld).2.locations.map
      (fun l => (l.latitude, l.longitude)) = [(91, 200)] := by
  obtain ⟨h1, record, h2, _, _, h3, h4⟩ := rootPostLocation_stores false "L1" 1000 "EMP001"
    { rootBody with latitude := some 91, longitude := some 200 } rootWorld 91 200 rfl rfl
    (by norm_num) (by norm_num)
  refine ⟨h1, ?_⟩
  rw [h2]
  simp [rootWorld, h3, h4]

/-- C26, as the code has it: the root server requires latitude and longitude and
checks no range. A submission of an authenticated employee with both present
and different from 0 is accepted and stored with exactly these values, whatever
their range, when the insert succeeds; a submission that lacks latitude or
longitude is answered 400 and leaves the tables and the emissions as they were. -/
theorem root_location_required_not_ranged (insertFails presenceFails : Bool) (newId : String)
    (now : Time) (e : String) (employeeId : Option String) (body : RootLocationBody)
    (w : RootWorld) :
    (∀ lat lon, body.latitude = some lat → body.longitude = some lon → lat ≠ 0 → lon ≠ 0 →
      (rootPostLocation false presenceFails newId now (some e) body w).1 = .success newId ∧
      ∃ record : RootLocation,
        (rootPostLocation false presenceFails newId now (some e) body w).2.locations =
          w.locations ++ [record] ∧
        record.id = newId ∧ record.employeeId = e ∧ record.latitude = lat ∧
        record.longitude = lon) ∧
    ((body.latitude = none ∨ body.longitude = none) →
      rootPostLocation insertFails presenceFails newId now employeeId body w =
        (.error 400 "Latitude and longitude are required", w)) := by
  constructor
  · intro lat lon hlat hlon hlat0 hlon0
    exact rootPostLocation_stores presenceFails newId now e body w lat lon hlat hlon hlat0 hlon0
  · intro hmiss
    rcases hmiss with h | h
    · simp [rootPostLocation, isFalsy, h]
    · simp [rootPostLocation, isFalsy, h]

/-- Witness of the amended C26: the body of Test 4 of `test-api.js` is stored. -/
theorem root_location_required_not_ranged_witness :
    (rootPostLocation false false "L1" 1000 (some "EMP001") rootBody rootWorld).1 =
      .success "L1" ∧
    ∃ record : RootLocation,
      (rootPostLocation false false "L1" 1000 (some "EMP001") rootBody rootWorld).2.locations =
        rootWorld.locations ++ [record] ∧
      record.id = "L1" ∧ record.employeeId = "EMP001" ∧ record.latitude = 40.7128 ∧
      record.longitude = -74.0060 :=
  (root_location_required_not_ranged false false "L1" 1000 "EMP001" (some "EMP001") rootBody
    rootWorld).1 40.7128 (-74.0060) rfl rfl (by norm_num) (by norm_num)

/-- The root server answers 400 to a submission on the equator: the latitude 0
is taken for a missing one, and nothing is stored. -/
theorem root_zero_latitude_rejected :
    rootPostLocation false false "L1" 1000 (some "EMP001")
      { rootBody with latitude := some 0 } rootWorld =
      (.error 400 "Latitude and longitude are required", rootWorld) := by
  simp [rootPostLocation, isFalsy]

end Newmap
